import Mathlib

/-!
# openvdb_maya: OpenVDBUtil.cc

A shallow embedding of the rendering helpers of `OpenVDBUtil.cc`
(`WireBoxBuilder`, `BufferObject`, `ShaderProgram`) and the properties
proved about them.

Conventions of the embedding.

* `GLuint` values are natural numbers below `2^32`; every `GLuint`
  computation of the source is reduced modulo `2^32` (`wrapGLuint`).
* `GLsizei` values are integers (`Int`); the conversion from `size_t` wraps
  to the signed 32-bit range (`toGLsizei`).
* A `std::vector` is a length together with its entries.  `operator[]` with
  an index that is not below the length is undefined behaviour in the
  source; here the store fails (`none`) and the failure propagates.
* A `double` is an exact rational: the only `double` arithmetic of the
  source is `n - 0.5` and `n + 0.5` on 32-bit integers, which binary64
  computes exactly.  The transform `indexToWorld` and the narrowing
  conversion `static_cast<GLfloat>` are parameters.
-/

namespace openvdb_maya

/-! ## Machine integers and containers -/

/-- A 32-bit unsigned integer of the graphics interface. -/
abbrev GLuint := Nat

/-- An enumerant of the graphics interface. -/
abbrev GLenum := Nat

/-- Reduction of an unsigned result to 32 bits. -/
def wrapGLuint (n : Nat) : Nat := n % 4294967296

/-- The conversion `static_cast<GLsizei>` of a `size_t` value: the low 32
bits, read as a two's complement number. -/
def toGLsizei (n : Nat) : Int :=
  if n % 4294967296 < 2147483648 then ((n % 4294967296 : Nat) : Int)
  else ((n % 4294967296 : Nat) : Int) - 4294967296

/-- A `std::vector`: its length and its entries (entries at positions not
below `size` are not part of the vector). -/
structure StdVector (α : Type) where
  size : Nat
  data : Nat → α

/-- The store `v[i] = x`.  It fails when `i` is out of range. -/
def StdVector.assign {α : Type} (v : StdVector α) (i : Nat) (x : α) :
    Option (StdVector α) :=
  if i < v.size then some ⟨v.size, fun j => if j = i then x else v.data j⟩
  else none

/-- A vector built from a list, entries past the end read `d`. -/
def StdVector.ofList {α : Type} (l : List α) (d : α) : StdVector α :=
  ⟨l.length, fun j => l.getD j d⟩

/-- A vector of `n` copies of `d`. -/
def StdVector.fill {α : Type} (n : Nat) (d : α) : StdVector α :=
  ⟨n, fun _ => d⟩

/-- The entries of a vector at positions `lo, lo+1, ..., lo+n-1`. -/
def StdVector.slice {α : Type} (v : StdVector α) (lo n : Nat) : List α :=
  (List.range n).map fun k => v.data (lo + k)

/-! ## WireBoxBuilder -/

/-- An `openvdb::Vec3d`. -/
structure Vec3d where
  x : ℚ
  y : ℚ
  z : ℚ
deriving DecidableEq

/-- An `openvdb::Coord`: three signed 32-bit integers. -/
structure Coord where
  x : Int
  y : Int
  z : Int
deriving DecidableEq

/-- An `openvdb::CoordBBox`. -/
structure CoordBBox where
  min : Coord
  max : Coord
deriving DecidableEq

/-- An `openvdb::Vec3s` with components of type `F`. -/
structure Vec3s (F : Type) where
  c0 : F
  c1 : F
  c2 : F

/-- The members of `WireBoxBuilder`: the `indexToWorld` map of the bound
transform and the three output containers. -/
structure WireBoxBuilder (F : Type) where
  mXForm : Vec3d → Vec3d
  mIndices : StdVector Nat
  mPoints : StdVector F
  mColors : StdVector F

/-- A container together with a running offset into it (the pairs
`mPoints`/`ptnOffset`, `mColors`/`colorOffset` and `mIndices`/`edgeOffset`
of `add`). -/
structure Cursor (α : Type) where
  vec : StdVector α
  offset : Nat

/-- The store `(*vec)[offset++] = x`. -/
def Cursor.store {α : Type} (c : Cursor α) (x : α) : Option (Cursor α) :=
  (c.vec.assign c.offset x).map fun v => ⟨v, wrapGLuint (c.offset + 1)⟩

/-- The store `(*vec)[offset] = x`, which leaves the offset as it is. -/
def Cursor.storeLast {α : Type} (c : Cursor α) (x : α) : Option (Cursor α) :=
  (c.vec.assign c.offset x).map fun v => ⟨v, c.offset⟩

/-- A run of stores `(*vec)[offset++] = x`, one for each `x` of `xs` in
order, continuing from `acc` (`none` once a store has failed). -/
def Cursor.storeFrom {α : Type} (acc : Option (Cursor α)) (xs : List α) :
    Option (Cursor α) :=
  xs.foldl (fun r x => r.bind (Cursor.store · x)) acc

/-- The loop `for (int n = 0; n < 8; ++n)` of `add` with `count` iterations
left: each iteration stores the three colour components. -/
def colorLoop {F : Type} (color : Vec3s F) : Nat → Cursor F → Option (Cursor F)
  | 0, c => some c
  | count + 1, c => do
    let c ← c.store color.c0
    let c ← c.store color.c1
    let c ← c.store color.c2
    colorLoop color count c

/-- The method `WireBoxBuilder::add(boxIndex, bbox, color)`; `cast` is the
conversion `static_cast<GLfloat>`.  `ptn1` to `ptn8` are the successive
values of the variable `ptn` after each call of `indexToWorld`; the stores
are listed in the order of the source. -/
def WireBoxBuilder.add {F : Type} (cast : ℚ → F) (self : WireBoxBuilder F)
    (boxIndex : Nat) (bbox : CoordBBox) (color : Vec3s F) :
    Option (WireBoxBuilder F) :=
  let ptnCount := wrapGLuint (boxIndex * 8)
  -- Generate corner points
  let ptnOffset := wrapGLuint (ptnCount * 3)
  let colorOffset := ptnOffset
  -- Nodes are rendered as cell-centered
  let min : Vec3d := ⟨bbox.min.x - 1/2, bbox.min.y - 1/2, bbox.min.z - 1/2⟩
  let max : Vec3d := ⟨bbox.max.x + 1/2, bbox.max.y + 1/2, bbox.max.z + 1/2⟩
  let ptn1 := self.mXForm min
  let ptn2 := self.mXForm ⟨min.x, min.y, max.z⟩
  let ptn3 := self.mXForm ⟨max.x, min.y, max.z⟩
  let ptn4 := self.mXForm ⟨max.x, min.y, min.z⟩
  let ptn5 := self.mXForm ⟨min.x, max.y, min.z⟩
  let ptn6 := self.mXForm ⟨min.x, max.y, max.z⟩
  let ptn7 := self.mXForm max
  let ptn8 := self.mXForm ⟨max.x, max.y, min.z⟩
  let points : Option (Cursor F) := some ⟨self.mPoints, ptnOffset⟩
    -- corner 1
    |>.bind (Cursor.store · (cast ptn1.x))
    |>.bind (Cursor.store · (cast ptn1.y))
    |>.bind (Cursor.store · (cast ptn1.z))
    -- corner 2
    |>.bind (Cursor.store · (cast ptn2.x))
    |>.bind (Cursor.store · (cast ptn2.y))
    |>.bind (Cursor.store · (cast ptn2.z))
    -- corner 3
    |>.bind (Cursor.store · (cast ptn3.x))
    |>.bind (Cursor.store · (cast ptn3.y))
    |>.bind (Cursor.store · (cast ptn3.z))
    -- corner 4
    |>.bind (Cursor.store · (cast ptn4.x))
    |>.bind (Cursor.store · (cast ptn4.y))
    |>.bind (Cursor.store · (cast ptn4.z))
    -- corner 5
    |>.bind (Cursor.store · (cast ptn5.x))
    |>.bind (Cursor.store · (cast ptn5.y))
    |>.bind (Cursor.store · (cast ptn5.z))
    -- corner 6
    |>.bind (Cursor.store · (cast ptn6.x))
    |>.bind (Cursor.store · (cast ptn6.y))
    |>.bind (Cursor.store · (cast ptn6.z))
    -- corner 7
    |>.bind (Cursor.store · (cast ptn7.x))
    |>.bind (Cursor.store · (cast ptn7.y))
    |>.bind (Cursor.store · (cast ptn7.z))
    -- corner 8
    |>.bind (Cursor.store · (cast ptn8.x))
    |>.bind (Cursor.store · (cast ptn8.y))
    |>.bind (Cursor.storeLast · (cast ptn8.z))
  let colors : Option (Cursor F) := colorLoop color 8 ⟨self.mColors, colorOffset⟩
  -- Generate edges
  let edgeOffset := wrapGLuint (boxIndex * 24)
  let edges : Option (Cursor Nat) := some ⟨self.mIndices, edgeOffset⟩
    -- edge 1
    |>.bind (Cursor.store · ptnCount)
    |>.bind (Cursor.store · (wrapGLuint (ptnCount + 1)))
    -- edge 2
    |>.bind (Cursor.store · (wrapGLuint (ptnCount + 1)))
    |>.bind (Cursor.store · (wrapGLuint (ptnCount + 2)))
    -- edge 3
    |>.bind (Cursor.store · (wrapGLuint (ptnCount + 2)))
    |>.bind (Cursor.store · (wrapGLuint (ptnCount + 3)))
    -- edge 4
    |>.bind (Cursor.store · (wrapGLuint (ptnCount + 3)))
    |>.bind (Cursor.store · ptnCount)
    -- edge 5
    |>.bind (Cursor.store · (wrapGLuint (ptnCount + 4)))
    |>.bind (Cursor.store · (wrapGLuint (ptnCount + 5)))
    -- edge 6
    |>.bind (Cursor.store · (wrapGLuint (ptnCount + 5)))
    |>.bind (Cursor.store · (wrapGLuint (ptnCount + 6)))
    -- edge 7
    |>.bind (Cursor.store · (wrapGLuint (ptnCount + 6)))
    |>.bind (Cursor.store · (wrapGLuint (ptnCount + 7)))
    -- edge 8
    |>.bind (Cursor.store · (wrapGLuint (ptnCount + 7)))
    |>.bind (Cursor.store · (wrapGLuint (ptnCount + 4)))
    -- edge 9
    |>.bind (Cursor.store · ptnCount)
    |>.bind (Cursor.store · (wrapGLuint (ptnCount + 4)))
    -- edge 10
    |>.bind (Cursor.store · (wrapGLuint (ptnCount + 1)))
    |>.bind (Cursor.store · (wrapGLuint (ptnCount + 5)))
    -- edge 11
    |>.bind (Cursor.store · (wrapGLuint (ptnCount + 2)))
    |>.bind (Cursor.store · (wrapGLuint (ptnCount + 6)))
    -- edge 12
    |>.bind (Cursor.store · (wrapGLuint (ptnCount + 3)))
    |>.bind (Cursor.storeLast · (wrapGLuint (ptnCount + 7)))
  points.bind fun p => colors.bind fun c => edges.bind fun e =>
    some { self with mIndices := e.vec, mPoints := p.vec, mColors := c.vec }

/-! ## The graphics driver

The driver is not part of the repository.  Its state is modelled by the sets
of live object names, the attachments, the two buffer bindings, the three
client-side array switches and the program in use.  An object is live from
the call that creates it until a delete call names it.  Where the driver is
free to answer (the name it hands out, whether an object gets created, the
error code, the compile and link status, the info log) the answer is an
argument of the operation. -/

/-- The buffer binding targets used by the source. -/
inductive BufferTarget where
  | GL_ARRAY_BUFFER
  | GL_ELEMENT_ARRAY_BUFFER
deriving DecidableEq

/-- The client-side capabilities used by the source. -/
inductive ClientArray where
  | GL_VERTEX_ARRAY
  | GL_COLOR_ARRAY
  | GL_NORMAL_ARRAY
deriving DecidableEq

/-- The primitive type `GL_POINTS`. -/
def GL_POINTS : GLenum := 0

/-- The primitive type `GL_LINES`. -/
def GL_LINES : GLenum := 1

/-- The error code `GL_NO_ERROR`. -/
def GL_NO_ERROR : GLenum := 0

/-- The error code `GL_OUT_OF_MEMORY`. -/
def GL_OUT_OF_MEMORY : GLenum := 1285

/-- The state of the driver. -/
structure GLState where
  /-- names for which `glIsBuffer` holds -/
  buffers : List GLuint
  /-- names for which `glIsShader` holds -/
  shaders : List GLuint
  /-- names for which `glIsProgram` holds -/
  programs : List GLuint
  /-- pairs (program, shader attached to it), in the order of attachment -/
  attached : List (GLuint × GLuint)
  /-- the binding of `GL_ARRAY_BUFFER` -/
  arrayBuffer : GLuint
  /-- the binding of `GL_ELEMENT_ARRAY_BUFFER` -/
  elementArrayBuffer : GLuint
  /-- whether `GL_VERTEX_ARRAY` is enabled -/
  vertexArray : Bool
  /-- whether `GL_COLOR_ARRAY` is enabled -/
  colorArray : Bool
  /-- whether `GL_NORMAL_ARRAY` is enabled -/
  normalArray : Bool
  /-- the program installed by `glUseProgram` -/
  currentProgram : GLuint
deriving DecidableEq

/-- `glIsBuffer(n)`: `n` is the name of a live buffer object (never `0`). -/
def glIsBuffer (gl : GLState) (n : GLuint) : Bool :=
  decide (n ≠ 0) && decide (n ∈ gl.buffers)

/-- `glDeleteBuffers(1, &n)`: the buffer is no longer live, and a binding
that named it reverts to `0`. -/
def glDeleteBuffers (gl : GLState) (n : GLuint) : GLState :=
  { gl with
    buffers := gl.buffers.filter (· ≠ n)
    arrayBuffer := if gl.arrayBuffer = n then 0 else gl.arrayBuffer
    elementArrayBuffer := if gl.elementArrayBuffer = n then 0 else gl.elementArrayBuffer }

/-- `glBindBuffer(target, n)`: sets the binding; the first bind of a
non-zero name that is not live creates the buffer object when the driver
answers `created`. -/
def glBindBuffer (gl : GLState) (target : BufferTarget) (n : GLuint) (created : Bool) :
    GLState :=
  let gl := if n ≠ 0 ∧ n ∉ gl.buffers ∧ created = true then
    { gl with buffers := n :: gl.buffers } else gl
  match target with
  | .GL_ARRAY_BUFFER => { gl with arrayBuffer := n }
  | .GL_ELEMENT_ARRAY_BUFFER => { gl with elementArrayBuffer := n }

/-- `glEnableClientState(cap)`. -/
def glEnableClientState (gl : GLState) (cap : ClientArray) : GLState :=
  match cap with
  | .GL_VERTEX_ARRAY => { gl with vertexArray := true }
  | .GL_COLOR_ARRAY => { gl with colorArray := true }
  | .GL_NORMAL_ARRAY => { gl with normalArray := true }

/-- `glDisableClientState(cap)`. -/
def glDisableClientState (gl : GLState) (cap : ClientArray) : GLState :=
  match cap with
  | .GL_VERTEX_ARRAY => { gl with vertexArray := false }
  | .GL_COLOR_ARRAY => { gl with colorArray := false }
  | .GL_NORMAL_ARRAY => { gl with normalArray := false }

/-- `glIsShader(n)`. -/
def glIsShader (gl : GLState) (n : GLuint) : Bool :=
  decide (n ≠ 0) && decide (n ∈ gl.shaders)

/-- `glDeleteShader(n)`: the shader is no longer live nor attached. -/
def glDeleteShader (gl : GLState) (n : GLuint) : GLState :=
  { gl with
    shaders := gl.shaders.filter (· ≠ n)
    attached := gl.attached.filter (·.2 ≠ n) }

/-- `glIsProgram(n)`. -/
def glIsProgram (gl : GLState) (n : GLuint) : Bool :=
  decide (n ≠ 0) && decide (n ∈ gl.programs)

/-- `glGetAttachedShaders(p, 2, &numShaders, shaders)`: at most two of the
shaders attached to `p`. -/
def glGetAttachedShaders (gl : GLState) (p : GLuint) : List GLuint :=
  ((gl.attached.filter (·.1 = p)).map (·.2)).take 2

/-- `glDetachShader(p, s)`. -/
def glDetachShader (gl : GLState) (p s : GLuint) : GLState :=
  { gl with attached := gl.attached.filter (· ≠ (p, s)) }

/-- `glDeleteProgram(p)`: the program is no longer live and nothing is
attached to it any more. -/
def glDeleteProgram (gl : GLState) (p : GLuint) : GLState :=
  { gl with
    programs := gl.programs.filter (· ≠ p)
    attached := gl.attached.filter (·.1 ≠ p) }

/-- The idiom `if (mError.length() > 0) mError += "\n"; mError += msg;`. -/
def appendError (mError : String) (msg : String) : String :=
  let mError := if mError.length > 0 then mError ++ "\n" else mError
  mError ++ msg

/-! ## BufferObject -/

/-- The answers of the driver during one `gen*Buffer` call. -/
structure BufferAnswers where
  /-- the name `glGenBuffers` stores into the handle -/
  name : GLuint
  /-- whether binding that name creates the buffer object -/
  created : Bool
  /-- the value of `glGetError()` after `glBufferData` -/
  error : GLenum
deriving DecidableEq

/-- The members of `BufferObject`. -/
structure BufferObject where
  mVertexBuffer : GLuint
  mNormalBuffer : GLuint
  mIndexBuffer : GLuint
  mColorBuffer : GLuint
  mPrimType : GLenum
  /-- a `GLsizei` -/
  mPrimNum : Int
  mError : String
deriving DecidableEq

/-- The constructor `BufferObject::BufferObject()`. -/
def BufferObject.new : BufferObject :=
  { mVertexBuffer := 0, mNormalBuffer := 0, mIndexBuffer := 0, mColorBuffer := 0,
    mPrimType := GL_POINTS, mPrimNum := 0, mError := "" }

/-- The method `BufferObject::isValid() const`. -/
def BufferObject.isValid (self : BufferObject) (gl : GLState) : Bool :=
  if self.mPrimNum = 0 ∨ self.mIndexBuffer = 0 ∨ self.mVertexBuffer = 0 ∨
      glIsBuffer gl self.mIndexBuffer = false ∨ glIsBuffer gl self.mVertexBuffer = false then
    false
  else
    true

/-- The method `BufferObject::render() const`; the result is the driver
state after the call.  The pointer set-up calls (`glVertexPointer`,
`glColorPointer`, `glNormalPointer`) and `glDrawElements` do not touch the
modelled part of the driver state. -/
def BufferObject.render (self : BufferObject) (gl : GLState) : GLState :=
  if self.isValid gl = false then
    -- the error text goes to the debug log
    gl
  else
    let usesColorBuffer := glIsBuffer gl self.mColorBuffer
    let usesNormalBuffer := glIsBuffer gl self.mNormalBuffer
    let gl := glBindBuffer gl .GL_ARRAY_BUFFER self.mVertexBuffer true
    let gl := glEnableClientState gl .GL_VERTEX_ARRAY
    let gl := if usesColorBuffer then
        let gl := glBindBuffer gl .GL_ARRAY_BUFFER self.mColorBuffer true
        glEnableClientState gl .GL_COLOR_ARRAY
      else gl
    let gl := if usesNormalBuffer then
        let gl := glEnableClientState gl .GL_NORMAL_ARRAY
        glBindBuffer gl .GL_ARRAY_BUFFER self.mNormalBuffer true
      else gl
    let gl := glBindBuffer gl .GL_ELEMENT_ARRAY_BUFFER self.mIndexBuffer true
    -- glDrawElements(mPrimType, mPrimNum, GL_UNSIGNED_INT, 0)
    -- disable client-side capabilities
    let gl := if usesColorBuffer then glDisableClientState gl .GL_COLOR_ARRAY else gl
    let gl := if usesNormalBuffer then glDisableClientState gl .GL_NORMAL_ARRAY else gl
    -- release vbo's
    let gl := glBindBuffer gl .GL_ARRAY_BUFFER 0 true
    glBindBuffer gl .GL_ELEMENT_ARRAY_BUFFER 0 true

/-- The method `BufferObject::genIndexBuffer(v, primType)`. -/
def BufferObject.genIndexBuffer {α : Type} (self : BufferObject) (gl : GLState)
    (v : StdVector α) (primType : GLenum) (d : BufferAnswers) : BufferObject × GLState :=
  -- clear old buffer
  let gl := if self.mIndexBuffer ≠ 0 ∧ glIsBuffer gl self.mIndexBuffer = true then
    glDeleteBuffers gl self.mIndexBuffer else gl
  -- gen new buffer
  let self := { self with mIndexBuffer := d.name }
  let gl := glBindBuffer gl .GL_ELEMENT_ARRAY_BUFFER self.mIndexBuffer d.created
  if glIsBuffer gl self.mIndexBuffer = false then
    ({ self with mError := appendError self.mError "Unable to create index buffer",
                 mIndexBuffer := 0 }, gl)
  else
    -- upload data
    if GL_NO_ERROR ≠ d.error then
      let self := { self with mError := appendError self.mError "Unable to upload index buffer data" }
      let gl := glDeleteBuffers gl self.mIndexBuffer
      ({ self with mIndexBuffer := 0 }, gl)
    else
      -- release buffer
      let gl := glBindBuffer gl .GL_ELEMENT_ARRAY_BUFFER 0 true
      ({ self with mPrimNum := toGLsizei v.size, mPrimType := primType }, gl)

/-- The method `BufferObject::genVertexBuffer(v)`. -/
def BufferObject.genVertexBuffer {α : Type} (self : BufferObject) (gl : GLState)
    (_v : StdVector α) (d : BufferAnswers) : BufferObject × GLState :=
  let gl := if self.mVertexBuffer ≠ 0 ∧ glIsBuffer gl self.mVertexBuffer = true then
    glDeleteBuffers gl self.mVertexBuffer else gl
  let self := { self with mVertexBuffer := d.name }
  let gl := glBindBuffer gl .GL_ARRAY_BUFFER self.mVertexBuffer d.created
  if glIsBuffer gl self.mVertexBuffer = false then
    ({ self with mError := appendError self.mError "Unable to create vertex buffer",
                 mVertexBuffer := 0 }, gl)
  else
    if GL_NO_ERROR ≠ d.error then
      let self := { self with mError := appendError self.mError "Unable to upload vertex buffer data" }
      let gl := glDeleteBuffers gl self.mVertexBuffer
      ({ self with mVertexBuffer := 0 }, gl)
    else
      let gl := glBindBuffer gl .GL_ARRAY_BUFFER 0 true
      (self, gl)

/-- The method `BufferObject::genNormalBuffer(v)`. -/
def BufferObject.genNormalBuffer {α : Type} (self : BufferObject) (gl : GLState)
    (_v : StdVector α) (d : BufferAnswers) : BufferObject × GLState :=
  let gl := if self.mNormalBuffer ≠ 0 ∧ glIsBuffer gl self.mNormalBuffer = true then
    glDeleteBuffers gl self.mNormalBuffer else gl
  let self := { self with mNormalBuffer := d.name }
  let gl := glBindBuffer gl .GL_ARRAY_BUFFER self.mNormalBuffer d.created
  if glIsBuffer gl self.mNormalBuffer = false then
    ({ self with mError := appendError self.mError "Unable to create normal buffer",
                 mNormalBuffer := 0 }, gl)
  else
    if GL_NO_ERROR ≠ d.error then
      let self := { self with mError := appendError self.mError "Unable to upload normal buffer data" }
      let gl := glDeleteBuffers gl self.mNormalBuffer
      ({ self with mNormalBuffer := 0 }, gl)
    else
      let gl := glBindBuffer gl .GL_ARRAY_BUFFER 0 true
      (self, gl)

/-- The method `BufferObject::genColorBuffer(v)`. -/
def BufferObject.genColorBuffer {α : Type} (self : BufferObject) (gl : GLState)
    (_v : StdVector α) (d : BufferAnswers) : BufferObject × GLState :=
  let gl := if self.mColorBuffer ≠ 0 ∧ glIsBuffer gl self.mColorBuffer = true then
    glDeleteBuffers gl self.mColorBuffer else gl
  let self := { self with mColorBuffer := d.name }
  let gl := glBindBuffer gl .GL_ARRAY_BUFFER self.mColorBuffer d.created
  if glIsBuffer gl self.mColorBuffer = false then
    ({ self with mError := appendError self.mError "Unable to create color buffer",
                 mColorBuffer := 0 }, gl)
  else
    if GL_NO_ERROR ≠ d.error then
      let self := { self with mError := appendError self.mError "Unable to upload color buffer data" }
      let gl := glDeleteBuffers gl self.mColorBuffer
      ({ self with mColorBuffer := 0 }, gl)
    else
      let gl := glBindBuffer gl .GL_ARRAY_BUFFER 0 true
      (self, gl)

/-- The method `BufferObject::clear()`. -/
def BufferObject.clear (self : BufferObject) (gl : GLState) : BufferObject × GLState :=
  let (self, gl) := if self.mIndexBuffer ≠ 0 then
      let gl := if glIsBuffer gl self.mIndexBuffer = true then
        glDeleteBuffers gl self.mIndexBuffer else gl
      ({ self with mIndexBuffer := 0 }, gl)
    else (self, gl)
  let (self, gl) := if self.mVertexBuffer ≠ 0 then
      let gl := if glIsBuffer gl self.mVertexBuffer = true then
        glDeleteBuffers gl self.mVertexBuffer else gl
      ({ self with mVertexBuffer := 0 }, gl)
    else (self, gl)
  let (self, gl) := if self.mColorBuffer ≠ 0 then
      let gl := if glIsBuffer gl self.mColorBuffer = true then
        glDeleteBuffers gl self.mColorBuffer else gl
      ({ self with mColorBuffer := 0 }, gl)
    else (self, gl)
  let (self, gl) := if self.mNormalBuffer ≠ 0 then
      let gl := if glIsBuffer gl self.mNormalBuffer = true then
        glDeleteBuffers gl self.mNormalBuffer else gl
      ({ self with mNormalBuffer := 0 }, gl)
    else (self, gl)
  ({ self with mPrimType := GL_POINTS, mPrimNum := 0, mError := "" }, gl)

/-- The driver state of a `gen*Buffer` call after `glGenBuffers` and
`glBindBuffer`: `old` is the handle of the slot before the call.  The driver
has created the buffer of the call when `glIsBuffer` holds of the new name
in this state. -/
def genBound (gl : GLState) (target : BufferTarget) (old : GLuint) (d : BufferAnswers) :
    GLState :=
  glBindBuffer (if old ≠ 0 ∧ glIsBuffer gl old = true then glDeleteBuffers gl old else gl)
    target d.name d.created

/-- The four resource slots of a `BufferObject`. -/
inductive Slot where
  | index
  | vertex
  | normal
  | color
deriving DecidableEq

/-- The handle a slot holds. -/
def BufferObject.handle (self : BufferObject) : Slot → GLuint
  | .index => self.mIndexBuffer
  | .vertex => self.mVertexBuffer
  | .normal => self.mNormalBuffer
  | .color => self.mColorBuffer

/-- One call of a `gen*Buffer` method, with its arguments and the answers of
the driver during the call. -/
inductive GenCall (F : Type) where
  | index (v : StdVector GLuint) (primType : GLenum) (d : BufferAnswers)
  | vertex (v : StdVector F) (d : BufferAnswers)
  | normal (v : StdVector F) (d : BufferAnswers)
  | color (v : StdVector F) (d : BufferAnswers)

/-- The slot a call works on. -/
def GenCall.slot {F : Type} : GenCall F → Slot
  | .index _ _ _ => .index
  | .vertex _ _ => .vertex
  | .normal _ _ => .normal
  | .color _ _ => .color

/-- The answers of the driver during a call. -/
def GenCall.answers {F : Type} : GenCall F → BufferAnswers
  | .index _ _ d => d
  | .vertex _ d => d
  | .normal _ d => d
  | .color _ d => d

/-- The effect of one call on the object and the driver. -/
def GenCall.apply {F : Type} (c : GenCall F) (s : BufferObject × GLState) :
    BufferObject × GLState :=
  match c with
  | .index v primType d => s.1.genIndexBuffer s.2 v primType d
  | .vertex v d => s.1.genVertexBuffer s.2 v d
  | .normal v d => s.1.genNormalBuffer s.2 v d
  | .color v d => s.1.genColorBuffer s.2 v d

/-- The binding target a slot uses. -/
def Slot.target : Slot → BufferTarget
  | .index => .GL_ELEMENT_ARRAY_BUFFER
  | _ => .GL_ARRAY_BUFFER

/-- The word for a slot in the diagnostics. -/
def Slot.label : Slot → String
  | .index => "index"
  | .vertex => "vertex"
  | .normal => "normal"
  | .color => "color"

/-- The object with the handle of one slot replaced. -/
def BufferObject.setHandle (self : BufferObject) (slot : Slot) (h : GLuint) : BufferObject :=
  match slot with
  | .index => { self with mIndexBuffer := h }
  | .vertex => { self with mVertexBuffer := h }
  | .normal => { self with mNormalBuffer := h }
  | .color => { self with mColorBuffer := h }

/-- What a successful call records besides the handle: `genIndexBuffer`
records the element count and the primitive type, the others nothing. -/
def GenCall.record {F : Type} (c : GenCall F) (self : BufferObject) : BufferObject :=
  match c with
  | .index v primType _ => { self with mPrimNum := toGLsizei v.size, mPrimType := primType }
  | _ => self

/-- The common shape of the four `gen*Buffer` methods. -/
def GenCall.applyShape {F : Type} (c : GenCall F) (s : BufferObject × GLState) :
    BufferObject × GLState :=
  let gl := genBound s.2 c.slot.target (s.1.handle c.slot) c.answers
  if glIsBuffer gl c.answers.name = false then
    ({ s.1.setHandle c.slot 0 with
        mError := appendError s.1.mError ("Unable to create " ++ c.slot.label ++ " buffer") }, gl)
  else if GL_NO_ERROR ≠ c.answers.error then
    ({ s.1.setHandle c.slot 0 with
        mError := appendError s.1.mError ("Unable to upload " ++ c.slot.label ++ " buffer data") },
      glDeleteBuffers gl c.answers.name)
  else
    (c.record (s.1.setHandle c.slot c.answers.name), glBindBuffer gl c.slot.target 0 true)

/-- The name handed out by `glGenBuffers` is not in use: it is not the name
of a live buffer, except that it may be the name of the buffer the call has
just deleted. -/
def GenCall.fresh {F : Type} (c : GenCall F) (s : BufferObject × GLState) : Prop :=
  c.answers.name ∈ s.2.buffers → c.answers.name = s.1.handle c.slot

/-- A sequence of calls, from the state `s`. -/
def genCalls {F : Type} (s : BufferObject × GLState) : List (GenCall F) → BufferObject × GLState
  | [] => s
  | c :: cs => genCalls (c.apply s) cs

/-- Every call of the sequence gets a fresh name from the driver. -/
def genCallsFresh {F : Type} (s : BufferObject × GLState) : List (GenCall F) → Prop
  | [] => True
  | c :: cs => c.fresh s ∧ genCallsFresh (c.apply s) cs

/-! ### Sequences of calls and the buffers they leave -/

/-- The name `n` is the handle of one of the slots of the object. -/
def BufferObject.owns (self : BufferObject) (n : GLuint) : Prop :=
  n ≠ 0 ∧ ∃ slot, self.handle slot = n

/-- Every live buffer is a buffer of the driver state `gl0` the object
started from or is named by a slot of the object. -/
def Confined (gl0 : GLState) (s : BufferObject × GLState) : Prop :=
  ∀ n, glIsBuffer s.2 n = true → glIsBuffer gl0 n = true ∨ s.1.owns n

/-- The live buffers are those of the driver state `gl0` the object started
from and those named by its slots; no slot names a buffer of `gl0`; two slots
do not name the same buffer. -/
def NoLeak (gl0 : GLState) (s : BufferObject × GLState) : Prop :=
  (∀ n, glIsBuffer s.2 n = true ↔ glIsBuffer gl0 n = true ∨ s.1.owns n) ∧
  (∀ n, s.1.owns n → glIsBuffer gl0 n = false) ∧
  (∀ a b : Slot, a ≠ b → s.1.handle a ≠ 0 → s.1.handle a ≠ s.1.handle b)

/-- The object and the driver state after a sequence of `gen*Buffer` calls
on a newly constructed `BufferObject`, the driver starting in state `gl0`. -/
def BufferObject.afterCalls {F : Type} (gl0 : GLState) (cs : List (GenCall F)) :
    BufferObject × GLState :=
  genCalls (BufferObject.new, gl0) cs

instance GenCall.decidableFresh {F : Type} (c : GenCall F) (s : BufferObject × GLState) :
    Decidable (c.fresh s) :=
  inferInstanceAs (Decidable (c.answers.name ∈ s.2.buffers → c.answers.name = s.1.handle c.slot))

instance genCallsFresh.decidable {F : Type} :
    (s : BufferObject × GLState) → (cs : List (GenCall F)) → Decidable (genCallsFresh s cs)
  | _, [] => isTrue trivial
  | s, c :: cs =>
    @instDecidableAnd _ _ (GenCall.decidableFresh c s) (genCallsFresh.decidable (c.apply s) cs)

/-! ## ShaderProgram -/

/-- The shader types used by the source. -/
inductive ShaderType where
  | GL_VERTEX_SHADER
  | GL_FRAGMENT_SHADER
deriving DecidableEq

/-- `glCreateShader(type)` with the driver's answer `n` (`0` on failure). -/
def glCreateShader (gl : GLState) (_type : ShaderType) (n : GLuint) : GLState :=
  if n ≠ 0 ∧ n ∉ gl.shaders then { gl with shaders := n :: gl.shaders } else gl

/-- The value of `GL_INFO_LOG_LENGTH` for an info log: the number of
characters including the terminator, `0` when there is no log. -/
def infoLogLength (log : String) : Int :=
  if log = "" then 0 else (log.length : Int) + 1

/-- The answers of the driver during one `set*Shader` call. -/
structure ShaderAnswers where
  /-- the value `glCreateShader` returns, when it is called -/
  name : GLuint
  /-- the compile status after `glCompileShader` -/
  compiled : Bool
  /-- the info log of the shader object -/
  infoLog : String
deriving DecidableEq

/-- The members of `ShaderProgram`. -/
structure ShaderProgram where
  mProgram : GLuint
  mVertShader : GLuint
  mFragShader : GLuint
  mError : String
deriving DecidableEq

/-- The constructor `ShaderProgram::ShaderProgram()`. -/
def ShaderProgram.new : ShaderProgram :=
  { mProgram := 0, mVertShader := 0, mFragShader := 0, mError := "" }

/-- The method `ShaderProgram::isValid() const`. -/
def ShaderProgram.isValid (self : ShaderProgram) (gl : GLState) : Bool :=
  if self.mProgram = 0 ∨ glIsProgram gl self.mProgram = false then false else true

/-- The method `ShaderProgram::setVertShader(s)`. -/
def ShaderProgram.setVertShader (self : ShaderProgram) (gl : GLState) (_s : String)
    (d : ShaderAnswers) : ShaderProgram × GLState :=
  let (self, gl) := if self.mVertShader = 0 ∨ glIsShader gl self.mVertShader = false then
      ({ self with mVertShader := d.name }, glCreateShader gl .GL_VERTEX_SHADER d.name)
    else (self, gl)
  if glIsShader gl self.mVertShader = false then
    ({ self with mError := appendError self.mError "Unable to create vertex shader.",
                 mVertShader := 0 }, gl)
  else
    -- glShaderSource, glCompileShader, glGetShaderiv(GL_COMPILE_STATUS)
    let compiled := d.compiled
    if compiled = false then
      let self := { self with mError := appendError self.mError "Unable to compile vertex shader." }
      -- Get info log
      let logLength := infoLogLength d.infoLog
      let self := if logLength > 0 then
        { self with mError := (self.mError ++ "\n") ++ d.infoLog } else self
      let gl := glDeleteShader gl self.mVertShader
      ({ self with mVertShader := 0 }, gl)
    else (self, gl)

/-- The method `ShaderProgram::setFragShader(s)`. -/
def ShaderProgram.setFragShader (self : ShaderProgram) (gl : GLState) (_s : String)
    (d : ShaderAnswers) : ShaderProgram × GLState :=
  let (self, gl) := if self.mFragShader = 0 ∨ glIsShader gl self.mFragShader = false then
      ({ self with mFragShader := d.name }, glCreateShader gl .GL_FRAGMENT_SHADER d.name)
    else (self, gl)
  if glIsShader gl self.mFragShader = false then
    ({ self with mError := appendError self.mError "Unable to create fragment shader.",
                 mFragShader := 0 }, gl)
  else
    let compiled := d.compiled
    if compiled = false then
      let self := { self with mError := appendError self.mError "Unable to compile fragment shader." }
      -- Get info log
      let logLength := infoLogLength d.infoLog
      let self := if logLength > 0 then
        { self with mError := (self.mError ++ "\n") ++ d.infoLog } else self
      let gl := glDeleteShader gl self.mFragShader
      ({ self with mFragShader := 0 }, gl)
    else (self, gl)

/-- The method `ShaderProgram::clear()`. -/
def ShaderProgram.clear (self : ShaderProgram) (gl : GLState) : ShaderProgram × GLState :=
  let (self, gl) := if self.mProgram ≠ 0 then
      let gl := if glIsProgram gl self.mProgram = true then
          let shaders := glGetAttachedShaders gl self.mProgram
          let gl := shaders.foldl (fun g sh => glDetachShader g self.mProgram sh) gl
          glDeleteProgram gl self.mProgram
        else gl
      ({ self with mProgram := 0 }, gl)
    else (self, gl)
  let (self, gl) := if self.mVertShader ≠ 0 then
      let gl := if glIsShader gl self.mVertShader = true then
        glDeleteShader gl self.mVertShader else gl
      ({ self with mVertShader := 0 }, gl)
    else (self, gl)
  let (self, gl) := if self.mFragShader ≠ 0 then
      let gl := if glIsShader gl self.mFragShader = true then
        glDeleteShader gl self.mFragShader else gl
      ({ self with mFragShader := 0 }, gl)
    else (self, gl)
  ({ self with mError := "" }, gl)

/-- `glCreateProgram()` with the driver's answer `n` (`0` on failure). -/
def glCreateProgram (gl : GLState) (n : GLuint) : GLState :=
  if n ≠ 0 ∧ n ∉ gl.programs then { gl with programs := n :: gl.programs } else gl

/-- `glAttachShader(p, s)` followed by `glGetError()` with the driver's
answer `error`: a call that raises an error has no effect. -/
def glAttachShader (gl : GLState) (p s : GLuint) (error : GLenum) : GLState :=
  if GL_NO_ERROR ≠ error ∨ (p, s) ∈ gl.attached then gl
  else { gl with attached := gl.attached ++ [(p, s)] }

/-- `glUseProgram(p)`. -/
def glUseProgram (gl : GLState) (p : GLuint) : GLState :=
  { gl with currentProgram := p }

/-- The answers of the driver during one `build` call. -/
structure BuildAnswers where
  /-- the value `glCreateProgram` returns, when it is called -/
  name : GLuint
  /-- the value of `glGetError()` after `glBindAttribLocation` for attribute `n` -/
  bindError : Nat → GLenum
  /-- the value of `glGetError()` after attaching the vertex shader -/
  attachVertError : GLenum
  /-- the value of `glGetError()` after attaching the fragment shader -/
  attachFragError : GLenum
  /-- the link status after `glLinkProgram` -/
  linked : Bool
  /-- the info log of the program object -/
  infoLog : String

/-- The method `ShaderProgram::build()`. -/
def ShaderProgram.build (self : ShaderProgram) (gl : GLState) (d : BuildAnswers) :
    ShaderProgram × GLState :=
  let (self, gl) := if self.mProgram = 0 ∨ glIsProgram gl self.mProgram = false then
      ({ self with mProgram := d.name }, glCreateProgram gl d.name)
    else
      -- Detach currently assigned vertex and fragment programs
      let shaders := glGetAttachedShaders gl self.mProgram
      (self, shaders.foldl (fun g sh => glDetachShader g self.mProgram sh) gl)
  if glIsProgram gl self.mProgram = false then
    ({ self with mError := appendError self.mError "Unable to create shader program.",
                 mProgram := 0 }, gl)
  else
    let vert := glIsShader gl self.mVertShader
    let gl := if vert = true then
      glAttachShader gl self.mProgram self.mVertShader d.attachVertError else gl
    if vert = true ∧ GL_NO_ERROR ≠ d.attachVertError then
      ({ self with mError := appendError self.mError "Unable to attach vertex shader.",
                   mProgram := 0 }, glDeleteProgram gl self.mProgram)
    else
      let frag := glIsShader gl self.mFragShader
      let gl := if frag = true then
        glAttachShader gl self.mProgram self.mFragShader d.attachFragError else gl
      if frag = true ∧ GL_NO_ERROR ≠ d.attachFragError then
        let gl := if glIsShader gl self.mVertShader = true then
          glDetachShader gl self.mProgram self.mVertShader else gl
        ({ self with mError := appendError self.mError "Unable to attach fragment shader.",
                     mProgram := 0 }, glDeleteProgram gl self.mProgram)
      else
        -- glLinkProgram, glGetProgramiv(GL_LINK_STATUS)
        let linked := d.linked
        if linked = false then
          let self := { self with mError := appendError self.mError "Unable to link shader program." }
          -- Get info log
          let logLength := infoLogLength d.infoLog
          let self := if logLength > 0 then
            { self with mError := (self.mError ++ "\n") ++ d.infoLog } else self
          let gl := if glIsShader gl self.mVertShader = true then
            glDetachShader gl self.mProgram self.mVertShader else gl
          let gl := if glIsShader gl self.mFragShader = true then
            glDetachShader gl self.mProgram self.mFragShader else gl
          ({ self with mProgram := 0 }, glDeleteProgram gl self.mProgram)
        else (self, gl)

/-- The loop `for (GLuint n = 0; n < N; ++n)` of `build(attributes)` from
index `n` on, over the attributes not yet bound: the first attribute whose
`glBindAttribLocation` is followed by an error, if there is one. -/
def bindAttribLoop (bindError : Nat → GLenum) : List String → Nat → Option String
  | [], _ => none
  | a :: rest, n =>
    if GL_NO_ERROR ≠ bindError n then some a else bindAttribLoop bindError rest (n + 1)

/-- The method `ShaderProgram::build(attributes)`. -/
def ShaderProgram.build_attributes (self : ShaderProgram) (gl : GLState)
    (attributes : List String) (d : BuildAnswers) : ShaderProgram × GLState :=
  let (self, gl) := if self.mProgram = 0 ∨ glIsProgram gl self.mProgram = false then
      ({ self with mProgram := d.name }, glCreateProgram gl d.name)
    else
      -- Detach currently assigned vertex and fragment programs
      let shaders := glGetAttachedShaders gl self.mProgram
      (self, shaders.foldl (fun g sh => glDetachShader g self.mProgram sh) gl)
  if glIsProgram gl self.mProgram = false then
    ({ self with mError := appendError self.mError "Unable to create shader program.",
                 mProgram := 0 }, gl)
  else
    let N := wrapGLuint attributes.length
    match bindAttribLoop d.bindError (attributes.take N) 0 with
    | some name =>
      let self := { self with
        mError := appendError self.mError "Unable to bind shader program attribute '" }
      let self := { self with mError := self.mError ++ name }
      let self := { self with mError := self.mError ++ "'." }
      ({ self with mProgram := 0 }, glDeleteProgram gl self.mProgram)
    | none =>
      let vert := glIsShader gl self.mVertShader
      let gl := if vert = true then
        glAttachShader gl self.mProgram self.mVertShader d.attachVertError else gl
      if vert = true ∧ GL_NO_ERROR ≠ d.attachVertError then
        ({ self with mError := appendError self.mError "Unable to attach vertex shader.",
                     mProgram := 0 }, glDeleteProgram gl self.mProgram)
      else
        let frag := glIsShader gl self.mFragShader
        let gl := if frag = true then
          glAttachShader gl self.mProgram self.mFragShader d.attachFragError else gl
        if frag = true ∧ GL_NO_ERROR ≠ d.attachFragError then
          let gl := if glIsShader gl self.mVertShader = true then
            glDetachShader gl self.mProgram self.mVertShader else gl
          ({ self with mError := appendError self.mError "Unable to attach fragment shader.",
                       mProgram := 0 }, glDeleteProgram gl self.mProgram)
        else
          -- glLinkProgram, glGetProgramiv(GL_LINK_STATUS)
          let linked := d.linked
          if linked = false then
            let self := { self with mError := appendError self.mError "Unable to link shader program." }
            -- Get info log
            let logLength := infoLogLength d.infoLog
            let self := if logLength > 0 then
              { self with mError := (self.mError ++ "\n") ++ d.infoLog } else self
            let gl := if glIsShader gl self.mVertShader = true then
              glDetachShader gl self.mProgram self.mVertShader else gl
            let gl := if glIsShader gl self.mFragShader = true then
              glDetachShader gl self.mProgram self.mFragShader else gl
            ({ self with mProgram := 0 }, glDeleteProgram gl self.mProgram)
          else (self, gl)

/-- A call to the driver that creates or deletes a program object, changes
an attachment, or links a program; `glAttachShader` carries the value of
`glGetError()` after the call. -/
inductive GLCall where
  | createProgram (n : GLuint)
  | detachShader (p s : GLuint)
  | attachShader (p s : GLuint) (error : GLenum)
  | linkProgram (p : GLuint)
  | deleteProgram (p : GLuint)
deriving DecidableEq

/-- The effect of one recorded call on the driver state. -/
def GLCall.run (gl : GLState) : GLCall → GLState
  | .createProgram n => glCreateProgram gl n
  | .detachShader p s => glDetachShader gl p s
  | .attachShader p s error => glAttachShader gl p s error
  | .linkProgram _ => gl
  | .deleteProgram p => glDeleteProgram gl p

/-- The driver state after a sequence of recorded calls. -/
def replay (gl : GLState) (calls : List GLCall) : GLState :=
  calls.foldl GLCall.run gl

/-- The method `ShaderProgram::build()` together with the sequence of its
calls of `glCreateProgram`, `glDetachShader`, `glAttachShader`,
`glLinkProgram` and `glDeleteProgram`, in the order of the source. -/
def ShaderProgram.buildTraced (self : ShaderProgram) (gl : GLState) (d : BuildAnswers) :
    ShaderProgram × GLState × List GLCall :=
  let (self, gl, calls) := if self.mProgram = 0 ∨ glIsProgram gl self.mProgram = false then
      ({ self with mProgram := d.name }, glCreateProgram gl d.name, [GLCall.createProgram d.name])
    else
      -- Detach currently assigned vertex and fragment programs
      let shaders := glGetAttachedShaders gl self.mProgram
      (self, shaders.foldl (fun g sh => glDetachShader g self.mProgram sh) gl,
        shaders.map (GLCall.detachShader self.mProgram))
  if glIsProgram gl self.mProgram = false then
    ({ self with mError := appendError self.mError "Unable to create shader program.",
                 mProgram := 0 }, gl, calls)
  else
    let vert := glIsShader gl self.mVertShader
    let calls := if vert = true then
      calls ++ [GLCall.attachShader self.mProgram self.mVertShader d.attachVertError] else calls
    let gl := if vert = true then
      glAttachShader gl self.mProgram self.mVertShader d.attachVertError else gl
    if vert = true ∧ GL_NO_ERROR ≠ d.attachVertError then
      ({ self with mError := appendError self.mError "Unable to attach vertex shader.",
                   mProgram := 0 }, glDeleteProgram gl self.mProgram,
        calls ++ [GLCall.deleteProgram self.mProgram])
    else
      let frag := glIsShader gl self.mFragShader
      let calls := if frag = true then
        calls ++ [GLCall.attachShader self.mProgram self.mFragShader d.attachFragError] else calls
      let gl := if frag = true then
        glAttachShader gl self.mProgram self.mFragShader d.attachFragError else gl
      if frag = true ∧ GL_NO_ERROR ≠ d.attachFragError then
        let calls := if glIsShader gl self.mVertShader = true then
          calls ++ [GLCall.detachShader self.mProgram self.mVertShader] else calls
        let gl := if glIsShader gl self.mVertShader = true then
          glDetachShader gl self.mProgram self.mVertShader else gl
        ({ self with mError := appendError self.mError "Unable to attach fragment shader.",
                     mProgram := 0 }, glDeleteProgram gl self.mProgram,
          calls ++ [GLCall.deleteProgram self.mProgram])
      else
        -- glLinkProgram, glGetProgramiv(GL_LINK_STATUS)
        let calls := calls ++ [GLCall.linkProgram self.mProgram]
        let linked := d.linked
        if linked = false then
          let self := { self with mError := appendError self.mError "Unable to link shader program." }
          -- Get info log
          let logLength := infoLogLength d.infoLog
          let self := if logLength > 0 then
            { self with mError := (self.mError ++ "\n") ++ d.infoLog } else self
          let calls := if glIsShader gl self.mVertShader = true then
            calls ++ [GLCall.detachShader self.mProgram self.mVertShader] else calls
          let gl := if glIsShader gl self.mVertShader = true then
            glDetachShader gl self.mProgram self.mVertShader else gl
          let calls := if glIsShader gl self.mFragShader = true then
            calls ++ [GLCall.detachShader self.mProgram self.mFragShader] else calls
          let gl := if glIsShader gl self.mFragShader = true then
            glDetachShader gl self.mProgram self.mFragShader else gl
          ({ self with mProgram := 0 }, glDeleteProgram gl self.mProgram,
            calls ++ [GLCall.deleteProgram self.mProgram])
        else (self, gl, calls)

/-- The method `ShaderProgram::build(attributes)` together with the sequence
of its calls of `glCreateProgram`, `glDetachShader`, `glAttachShader`,
`glLinkProgram` and `glDeleteProgram`, in the order of the source. -/
def ShaderProgram.build_attributesTraced (self : ShaderProgram) (gl : GLState)
    (attributes : List String) (d : BuildAnswers) : ShaderProgram × GLState × List GLCall :=
  let (self, gl, calls) := if self.mProgram = 0 ∨ glIsProgram gl self.mProgram = false then
      ({ self with mProgram := d.name }, glCreateProgram gl d.name, [GLCall.createProgram d.name])
    else
      -- Detach currently assigned vertex and fragment programs
      let shaders := glGetAttachedShaders gl self.mProgram
      (self, shaders.foldl (fun g sh => glDetachShader g self.mProgram sh) gl,
        shaders.map (GLCall.detachShader self.mProgram))
  if glIsProgram gl self.mProgram = false then
    ({ self with mError := appendError self.mError "Unable to create shader program.",
                 mProgram := 0 }, gl, calls)
  else
    let N := wrapGLuint attributes.length
    match bindAttribLoop d.bindError (attributes.take N) 0 with
    | some name =>
      let self := { self with
        mError := appendError self.mError "Unable to bind shader program attribute '" }
      let self := { self with mError := self.mError ++ name }
      let self := { self with mError := self.mError ++ "'." }
      ({ self with mProgram := 0 }, glDeleteProgram gl self.mProgram,
        calls ++ [GLCall.deleteProgram self.mProgram])
    | none =>
      let vert := glIsShader gl self.mVertShader
      let calls := if vert = true then
        calls ++ [GLCall.attachShader self.mProgram self.mVertShader d.attachVertError] else calls
      let gl := if vert = true then
        glAttachShader gl self.mProgram self.mVertShader d.attachVertError else gl
      if vert = true ∧ GL_NO_ERROR ≠ d.attachVertError then
        ({ self with mError := appendError self.mError "Unable to attach vertex shader.",
                     mProgram := 0 }, glDeleteProgram gl self.mProgram,
          calls ++ [GLCall.deleteProgram self.mProgram])
      else
        let frag := glIsShader gl self.mFragShader
        let calls := if frag = true then
          calls ++ [GLCall.attachShader self.mProgram self.mFragShader d.attachFragError]
          else calls
        let gl := if frag = true then
          glAttachShader gl self.mProgram self.mFragShader d.attachFragError else gl
        if frag = true ∧ GL_NO_ERROR ≠ d.attachFragError then
          let calls := if glIsShader gl self.mVertShader = true then
            calls ++ [GLCall.detachShader self.mProgram self.mVertShader] else calls
          let gl := if glIsShader gl self.mVertShader = true then
            glDetachShader gl self.mProgram self.mVertShader else gl
          ({ self with mError := appendError self.mError "Unable to attach fragment shader.",
                       mProgram := 0 }, glDeleteProgram gl self.mProgram,
            calls ++ [GLCall.deleteProgram self.mProgram])
        else
          -- glLinkProgram, glGetProgramiv(GL_LINK_STATUS)
          let calls := calls ++ [GLCall.linkProgram self.mProgram]
          let linked := d.linked
          if linked = false then
            let self := { self with mError := appendError self.mError "Unable to link shader program." }
            -- Get info log
            let logLength := infoLogLength d.infoLog
            let self := if logLength > 0 then
              { self with mError := (self.mError ++ "\n") ++ d.infoLog } else self
            let calls := if glIsShader gl self.mVertShader = true then
              calls ++ [GLCall.detachShader self.mProgram self.mVertShader] else calls
            let gl := if glIsShader gl self.mVertShader = true then
              glDetachShader gl self.mProgram self.mVertShader else gl
            let calls := if glIsShader gl self.mFragShader = true then
              calls ++ [GLCall.detachShader self.mProgram self.mFragShader] else calls
            let gl := if glIsShader gl self.mFragShader = true then
              glDetachShader gl self.mProgram self.mFragShader else gl
            ({ self with mProgram := 0 }, glDeleteProgram gl self.mProgram,
              calls ++ [GLCall.deleteProgram self.mProgram])
          else (self, gl, calls)

/-- The method `ShaderProgram::startShading() const`; the result is the
driver state after the call. -/
def ShaderProgram.startShading (self : ShaderProgram) (gl : GLState) : GLState :=
  if self.isValid gl = true then glUseProgram gl self.mProgram else gl

/-- The method `ShaderProgram::stopShading() const`; the result is the
driver state after the call. -/
def ShaderProgram.stopShading (self : ShaderProgram) (gl : GLState) : GLState :=
  if self.isValid gl = true then glUseProgram gl 0 else gl

/-- The shader object a `set*Shader` call compiles: the one the handle
names when that is live, otherwise the one `glCreateShader` returns. -/
def shaderUsed (gl : GLState) (old : GLuint) (d : ShaderAnswers) : GLuint :=
  if old = 0 ∨ glIsShader gl old = false then d.name else old

/-- The driver state of a `set*Shader` call when the compilation starts. -/
def shaderReady (gl : GLState) (type : ShaderType) (old : GLuint) (d : ShaderAnswers) :
    GLState :=
  if old = 0 ∨ glIsShader gl old = false then glCreateShader gl type d.name else gl

/-- The program object a `build` call works on: the one the handle names
when that is live, otherwise the one `glCreateProgram` returns. -/
def programUsed (gl : GLState) (old : GLuint) (d : BuildAnswers) : GLuint :=
  if old = 0 ∨ glIsProgram gl old = false then d.name else old

/-- The driver state of a `build` call after the program has been created
or, when it is reused, after its attached shaders have been detached. -/
def programReady (gl : GLState) (old : GLuint) (d : BuildAnswers) : GLState :=
  if old = 0 ∨ glIsProgram gl old = false then glCreateProgram gl d.name
  else (glGetAttachedShaders gl old).foldl (fun g sh => glDetachShader g old sh) gl

/-- The step `if (glIsShader(sh) == GL_TRUE) glAttachShader(p, sh)`. -/
def attachStage (gl : GLState) (p sh : GLuint) (error : GLenum) : GLState :=
  if glIsShader gl sh = true then glAttachShader gl p sh error else gl

/-- The step `if (glIsShader(sh) == GL_TRUE) glDetachShader(p, sh)`. -/
def detachStage (gl : GLState) (p sh : GLuint) : GLState :=
  if glIsShader gl sh = true then glDetachShader gl p sh else gl

/-- The driver state of a `build` call when `glLinkProgram` is called. -/
def linkState (self : ShaderProgram) (gl : GLState) (d : BuildAnswers) : GLState :=
  attachStage
    (attachStage (programReady gl self.mProgram d) (programUsed gl self.mProgram d)
      self.mVertShader d.attachVertError)
    (programUsed gl self.mProgram d) self.mFragShader d.attachFragError

/-- The call `build(attributes)` gets to `glLinkProgram`: the program object
exists, no attribute binding and no attachment is followed by an error. -/
def reachesLink (self : ShaderProgram) (gl : GLState) (attributes : List String)
    (d : BuildAnswers) : Prop :=
  glIsProgram (programReady gl self.mProgram d) (programUsed gl self.mProgram d) = true ∧
  bindAttribLoop d.bindError (attributes.take (wrapGLuint attributes.length)) 0 = none ∧
  ¬ (glIsShader (programReady gl self.mProgram d) self.mVertShader = true ∧
      GL_NO_ERROR ≠ d.attachVertError) ∧
  ¬ (glIsShader (attachStage (programReady gl self.mProgram d) (programUsed gl self.mProgram d)
        self.mVertShader d.attachVertError) self.mFragShader = true ∧
      GL_NO_ERROR ≠ d.attachFragError)

/-- The common shape of the two overloads of `build`, in terms of the
program object the call works on. -/
def ShaderProgram.buildShape (self : ShaderProgram) (gl : GLState) (attributes : List String)
    (d : BuildAnswers) : ShaderProgram × GLState :=
  if glIsProgram (programReady gl self.mProgram d) (programUsed gl self.mProgram d) = false then
    ({ self with mError := appendError self.mError "Unable to create shader program.",
                 mProgram := 0 }, programReady gl self.mProgram d)
  else
    match bindAttribLoop d.bindError (attributes.take (wrapGLuint attributes.length)) 0 with
    | some name =>
      ({ self with
          mError := (appendError self.mError "Unable to bind shader program attribute '" ++ name)
            ++ "'.",
          mProgram := 0 },
        glDeleteProgram (programReady gl self.mProgram d) (programUsed gl self.mProgram d))
    | none =>
      if glIsShader (programReady gl self.mProgram d) self.mVertShader = true ∧
          GL_NO_ERROR ≠ d.attachVertError then
        ({ self with mError := appendError self.mError "Unable to attach vertex shader.",
                     mProgram := 0 },
          glDeleteProgram
            (attachStage (programReady gl self.mProgram d) (programUsed gl self.mProgram d)
              self.mVertShader d.attachVertError)
            (programUsed gl self.mProgram d))
      else if glIsShader
          (attachStage (programReady gl self.mProgram d) (programUsed gl self.mProgram d)
            self.mVertShader d.attachVertError) self.mFragShader = true ∧
          GL_NO_ERROR ≠ d.attachFragError then
        ({ self with mError := appendError self.mError "Unable to attach fragment shader.",
                     mProgram := 0 },
          glDeleteProgram
            (detachStage (linkState self gl d) (programUsed gl self.mProgram d) self.mVertShader)
            (programUsed gl self.mProgram d))
      else if d.linked = false then
        ({ self with
            mError := appendError self.mError "Unable to link shader program." ++
              (if d.infoLog = "" then "" else "\n" ++ d.infoLog),
            mProgram := 0 },
          glDeleteProgram
            (detachStage (detachStage (linkState self gl d) (programUsed gl self.mProgram d)
              self.mVertShader) (programUsed gl self.mProgram d) self.mFragShader)
            (programUsed gl self.mProgram d))
      else
        ({ self with mProgram := programUsed gl self.mProgram d }, linkState self gl d)

/-- The recorded calls of a `build` call up to the point where the program
object is created or, when it is reused, its attached shaders are detached. -/
def programCalls (gl : GLState) (old : GLuint) (d : BuildAnswers) : List GLCall :=
  if old = 0 ∨ glIsProgram gl old = false then [GLCall.createProgram d.name]
  else (glGetAttachedShaders gl old).map (GLCall.detachShader old)

/-- The recorded calls extended by the step
`if (glIsShader(sh) == GL_TRUE) glAttachShader(p, sh)`. -/
def addAttach (calls : List GLCall) (gl : GLState) (p sh : GLuint) (error : GLenum) :
    List GLCall :=
  if glIsShader gl sh = true then calls ++ [GLCall.attachShader p sh error] else calls

/-- The recorded calls extended by the step
`if (glIsShader(sh) == GL_TRUE) glDetachShader(p, sh)`. -/
def addDetach (calls : List GLCall) (gl : GLState) (p sh : GLuint) : List GLCall :=
  if glIsShader gl sh = true then calls ++ [GLCall.detachShader p sh] else calls

/-- The recorded calls of a `build` call when `glLinkProgram` is about to be
called. -/
def callsToLink (self : ShaderProgram) (gl : GLState) (d : BuildAnswers) : List GLCall :=
  addAttach
    (addAttach (programCalls gl self.mProgram d) (programReady gl self.mProgram d)
      (programUsed gl self.mProgram d) self.mVertShader d.attachVertError)
    (attachStage (programReady gl self.mProgram d) (programUsed gl self.mProgram d)
      self.mVertShader d.attachVertError)
    (programUsed gl self.mProgram d) self.mFragShader d.attachFragError

/-- The recorded calls of the two overloads of `build`, in the shape of
`buildShape`. -/
def ShaderProgram.buildCallsShape (self : ShaderProgram) (gl : GLState)
    (attributes : List String) (d : BuildAnswers) : List GLCall :=
  if glIsProgram (programReady gl self.mProgram d) (programUsed gl self.mProgram d) = false then
    programCalls gl self.mProgram d
  else
    match bindAttribLoop d.bindError (attributes.take (wrapGLuint attributes.length)) 0 with
    | some _ =>
      programCalls gl self.mProgram d ++ [GLCall.deleteProgram (programUsed gl self.mProgram d)]
    | none =>
      if glIsShader (programReady gl self.mProgram d) self.mVertShader = true ∧
          GL_NO_ERROR ≠ d.attachVertError then
        addAttach (programCalls gl self.mProgram d) (programReady gl self.mProgram d)
            (programUsed gl self.mProgram d) self.mVertShader d.attachVertError ++
          [GLCall.deleteProgram (programUsed gl self.mProgram d)]
      else if glIsShader
          (attachStage (programReady gl self.mProgram d) (programUsed gl self.mProgram d)
            self.mVertShader d.attachVertError) self.mFragShader = true ∧
          GL_NO_ERROR ≠ d.attachFragError then
        addDetach (callsToLink self gl d) (linkState self gl d) (programUsed gl self.mProgram d)
            self.mVertShader ++
          [GLCall.deleteProgram (programUsed gl self.mProgram d)]
      else if d.linked = false then
        addDetach
            (addDetach (callsToLink self gl d ++ [GLCall.linkProgram (programUsed gl self.mProgram d)])
              (linkState self gl d) (programUsed gl self.mProgram d) self.mVertShader)
            (detachStage (linkState self gl d) (programUsed gl self.mProgram d) self.mVertShader)
            (programUsed gl self.mProgram d) self.mFragShader ++
          [GLCall.deleteProgram (programUsed gl self.mProgram d)]
      else
        callsToLink self gl d ++ [GLCall.linkProgram (programUsed gl self.mProgram d)]

/-! ### Operations and sequences of calls on a `ShaderProgram` -/

/-- One call of `setVertShader` or `setFragShader`, with its argument and
the answers of the driver during the call. -/
inductive SetShaderCall where
  | vert (source : String) (d : ShaderAnswers)
  | frag (source : String) (d : ShaderAnswers)

/-- The effect of one `set*Shader` call on the object and the driver. -/
def SetShaderCall.apply (c : SetShaderCall) (s : ShaderProgram × GLState) :
    ShaderProgram × GLState :=
  match c with
  | .vert source d => s.1.setVertShader s.2 source d
  | .frag source d => s.1.setFragShader s.2 source d

/-- The call gets to compile its source and the driver reports that the
compilation failed. -/
def SetShaderCall.compileFails (c : SetShaderCall) (s : ShaderProgram × GLState) : Prop :=
  match c with
  | .vert _ d =>
    glIsShader (shaderReady s.2 .GL_VERTEX_SHADER s.1.mVertShader d)
      (shaderUsed s.2 s.1.mVertShader d) = true ∧ d.compiled = false
  | .frag _ d =>
    glIsShader (shaderReady s.2 .GL_FRAGMENT_SHADER s.1.mFragShader d)
      (shaderUsed s.2 s.1.mFragShader d) = true ∧ d.compiled = false

/-- A sequence of `set*Shader` calls, from the state `s`. -/
def setShaderCalls (s : ShaderProgram × GLState) : List SetShaderCall → ShaderProgram × GLState
  | [] => s
  | c :: cs => setShaderCalls (c.apply s) cs

/-- One call of `build`, of either overload, with the answers of the driver. -/
inductive BuildCall where
  | plain (d : BuildAnswers)
  | withAttributes (attributes : List String) (d : BuildAnswers)

/-- The answers of the driver during a `build` call. -/
def BuildCall.answers : BuildCall → BuildAnswers
  | .plain d => d
  | .withAttributes _ d => d

/-- The attribute names of a `build` call (none for `build()`). -/
def BuildCall.attributeNames : BuildCall → List String
  | .plain _ => []
  | .withAttributes attributes _ => attributes

/-- The effect of one `build` call on the object and the driver. -/
def BuildCall.apply (b : BuildCall) (s : ShaderProgram × GLState) : ShaderProgram × GLState :=
  match b with
  | .plain d => s.1.build s.2 d
  | .withAttributes attributes d => s.1.build_attributes s.2 attributes d

/-- The effect of one `build` call together with its recorded driver
calls. -/
def BuildCall.applyTraced (b : BuildCall) (s : ShaderProgram × GLState) :
    ShaderProgram × GLState × List GLCall :=
  match b with
  | .plain d => s.1.buildTraced s.2 d
  | .withAttributes attributes d => s.1.build_attributesTraced s.2 attributes d

/-- The operations of `ShaderProgram` other than `clear()`. -/
inductive ShaderOp where
  | setShader (c : SetShaderCall)
  | build (b : BuildCall)
  | startShading
  | stopShading
  | isValid

/-- The effect of an operation on the object and the driver; the `const`
methods leave the object as it is. -/
def ShaderOp.apply (op : ShaderOp) (s : ShaderProgram × GLState) : ShaderProgram × GLState :=
  match op with
  | .setShader c => c.apply s
  | .build b => b.apply s
  | .startShading => (s.1, s.1.startShading s.2)
  | .stopShading => (s.1, s.1.stopShading s.2)
  | .isValid => s

/-- The operations of `BufferObject` other than `clear()`. -/
inductive BufferOp (F : Type) where
  | gen (c : GenCall F)
  | render
  | isValid

/-- The effect of an operation on the object and the driver; the `const`
methods leave the object as it is. -/
def BufferOp.apply {F : Type} (op : BufferOp F) (s : BufferObject × GLState) :
    BufferObject × GLState :=
  match op with
  | .gen c => c.apply s
  | .render => (s.1, s.1.render s.2)
  | .isValid => s

/-- Some call of the sequence gets to compile its source and the driver
reports that the compilation failed (the source was malformed). -/
def setShaderCallsFail (s : ShaderProgram × GLState) : List SetShaderCall → Prop
  | [] => False
  | c :: cs => c.compileFails s ∨ setShaderCallsFail (c.apply s) cs

/-- A sequence of `set*Shader` calls followed by one `build` call. -/
def buildAfter (s : ShaderProgram × GLState) (cs : List SetShaderCall) (b : BuildCall) :
    ShaderProgram × GLState :=
  b.apply (setShaderCalls s cs)

instance reachesLink.decidable (self : ShaderProgram) (gl : GLState) (attributes : List String)
    (d : BuildAnswers) : Decidable (reachesLink self gl attributes d) := by
  unfold reachesLink
  exact inferInstance

instance SetShaderCall.decidableCompileFails (c : SetShaderCall) (s : ShaderProgram × GLState) :
    Decidable (c.compileFails s) := by
  cases c <;> (unfold SetShaderCall.compileFails; exact inferInstance)

instance setShaderCallsFail.decidable :
    (s : ShaderProgram × GLState) → (cs : List SetShaderCall) → Decidable (setShaderCallsFail s cs)
  | _, [] => isFalse (fun h => h)
  | s, c :: cs =>
    @instDecidableOr _ _ (SetShaderCall.decidableCompileFails c s)
      (setShaderCallsFail.decidable (c.apply s) cs)

/-! ## Grid selection

The functions `containsGrid` and `getSelectedGrids`.  A `std::string` is a
`String`, read character by character; a `size_t` value is a `Nat` (the
counters of the loops stay below the lengths they run to).  The conversion
`boost::lexical_cast<size_t>` belongs to a library: it is an argument
`lexical_cast` of the functions, `none` standing for the exception
`bad_lexical_cast`. -/

/-- The inner loop of `containsGrid` over the positions below
`min(word.length(), gridName.length())`: `none` when the loop leaves the
function with `return true` (the word has a `*` at a position up to which it
agrees with the grid name), otherwise `some match` with the value of the
variable `match` after the loop. -/
def wordLoop : List Char → List Char → Option Bool
  | [], _ => some true
  | _ :: _, [] => some true
  | w :: ws, g :: gs =>
    if w = '*' then none
    else if w ≠ g then some false
    else wordLoop ws gs

/-- The loop of `containsGrid` over the words not yet visited;
`selectionList` is the whole list, tested by the final
`return selectionList.empty()`. -/
def containsGridLoop (lexical_cast : String → Option Nat) (selectionList : List String)
    (gridName : String) (gridIndex : Nat) : List String → Bool
  | [] => selectionList.isEmpty
  | word :: rest =>
    match lexical_cast word with
    | some k => k == gridIndex
    | none =>
      match wordLoop word.data gridName.data with
      | none => true
      | some m =>
        if m = true ∧ word.length = gridName.length then true
        else containsGridLoop lexical_cast selectionList gridName gridIndex rest

/-- The function `containsGrid(selectionList, gridName, gridIndex)`. -/
def containsGrid (lexical_cast : String → Option Nat) (selectionList : List String)
    (gridName : String) (gridIndex : Nat) : Bool :=
  containsGridLoop lexical_cast selectionList gridName gridIndex selectionList

/-- The tokens of a character sequence cut at every occurrence of `sep`:
one more token than there are separators, empty tokens included. -/
def splitChars (sep : Char) : List Char → List (List Char)
  | [] => [[]]
  | c :: cs =>
    if c = sep then [] :: splitChars sep cs
    else
      match splitChars sep cs with
      | [] => [[c]]
      | w :: ws => (c :: w) :: ws

/-- The call `boost::split(selectionList, selection, boost::is_any_of(" "))`:
the words between the blanks of `selection` (adjacent blanks are not merged;
the empty string gives one empty word). -/
def boostSplit (selection : String) : List String :=
  (splitChars ' ' selection.data).map String.mk

/-- Modelled from the spec: an `OpenVDBData` is the sequence of its grids;
`numberOfGrids()` is its length, `grid(n)` and `gridPtr(n)` give entry `n`,
and `insert(grid)` puts the grid at the end. -/
structure OpenVDBData (G : Type) where
  grids : List G

/-- Modelled from the spec: the method `OpenVDBData::insert(grid)`. -/
def OpenVDBData.insert {G : Type} (self : OpenVDBData G) (grid : G) : OpenVDBData G :=
  ⟨self.grids ++ [grid]⟩

/-- The loop of the four-argument `getSelectedGrids` from grid number `n`
on, over the grids of `inputVdb` not yet visited. -/
def getSelectedGridsLoop {G : Type} (lexical_cast : String → Option Nat) (getName : G → String)
    (selectionList : List String) :
    Nat → List G → List G → OpenVDBData G → List G × OpenVDBData G
  | _, [], grids, outputVdb => (grids, outputVdb)
  | n, grid :: rest, grids, outputVdb =>
    if containsGrid lexical_cast selectionList (getName grid) n = true then
      getSelectedGridsLoop lexical_cast getName selectionList (n + 1) rest (grids ++ [grid])
        outputVdb
    else
      getSelectedGridsLoop lexical_cast getName selectionList (n + 1) rest grids
        (outputVdb.insert grid)

/-- The function `getSelectedGrids(grids, selection, inputVdb, outputVdb)`
(`inputVdb` and `outputVdb` being different objects): the result, and the
values of `grids` and `outputVdb` after the call. -/
def getSelectedGrids {G : Type} (lexical_cast : String → Option Nat) (getName : G → String)
    (_grids : List G) (selection : String) (inputVdb : OpenVDBData G)
    (outputVdb : OpenVDBData G) : Bool × List G × OpenVDBData G :=
  -- grids.clear()
  let grids : List G := []
  let selectionList := boostSplit selection
  let r := getSelectedGridsLoop lexical_cast getName selectionList 0 inputVdb.grids grids
    outputVdb
  (!r.1.isEmpty, r.1, r.2)

/-- The loop of the three-argument `getSelectedGrids` from grid number `n`
on. -/
def getSelectedGridsLoop3 {G : Type} (lexical_cast : String → Option Nat)
    (getName : G → String) (selectionList : List String) : Nat → List G → List G → List G
  | _, [], grids => grids
  | n, grid :: rest, grids =>
    if containsGrid lexical_cast selectionList (getName grid) n = true then
      getSelectedGridsLoop3 lexical_cast getName selectionList (n + 1) rest (grids ++ [grid])
    else
      getSelectedGridsLoop3 lexical_cast getName selectionList (n + 1) rest grids

/-- The function `getSelectedGrids(grids, selection, inputVdb)`: the result
and the value of `grids` after the call. -/
def getSelectedGrids3 {G : Type} (lexical_cast : String → Option Nat) (getName : G → String)
    (_grids : List G) (selection : String) (inputVdb : OpenVDBData G) : Bool × List G :=
  -- grids.clear()
  let grids : List G := []
  let selectionList := boostSplit selection
  let r := getSelectedGridsLoop3 lexical_cast getName selectionList 0 inputVdb.grids grids
  (!r.isEmpty, r)

/-- The value of a sequence of decimal digits, continuing from `acc`;
`none` when a character is not a digit. -/
def decimalDigits : List Char → Nat → Option Nat
  | [], acc => some acc
  | c :: cs, acc =>
    if c.isDigit = true then decimalDigits cs (acc * 10 + (c.toNat - 48)) else none

/-- A `lexical_cast` for the concrete inputs: it reads the words that
consist of decimal digits only and whose value is within `size_t`, and
fails on every other word. -/
def decimalCast (word : String) : Option Nat :=
  match word.data with
  | [] => none
  | c :: cs => (decimalDigits (c :: cs) 0).bind fun k =>
    if k < 18446744073709551616 then some k else none

/-! ## Auxiliary definitions for the proofs

### The values stored by `add`, in program order -/

/-- The 24 values stored into `mPoints` by `add`, in the order of the stores. -/
def pointValues {F : Type} (cast : ℚ → F) (xform : Vec3d → Vec3d) (bbox : CoordBBox) :
    List F :=
  let min : Vec3d := ⟨bbox.min.x - 1/2, bbox.min.y - 1/2, bbox.min.z - 1/2⟩
  let max : Vec3d := ⟨bbox.max.x + 1/2, bbox.max.y + 1/2, bbox.max.z + 1/2⟩
  let ptn1 := xform min
  let ptn2 := xform ⟨min.x, min.y, max.z⟩
  let ptn3 := xform ⟨max.x, min.y, max.z⟩
  let ptn4 := xform ⟨max.x, min.y, min.z⟩
  let ptn5 := xform ⟨min.x, max.y, min.z⟩
  let ptn6 := xform ⟨min.x, max.y, max.z⟩
  let ptn7 := xform max
  let ptn8 := xform ⟨max.x, max.y, min.z⟩
  [cast ptn1.x, cast ptn1.y, cast ptn1.z, cast ptn2.x, cast ptn2.y, cast ptn2.z,
   cast ptn3.x, cast ptn3.y, cast ptn3.z, cast ptn4.x, cast ptn4.y, cast ptn4.z,
   cast ptn5.x, cast ptn5.y, cast ptn5.z, cast ptn6.x, cast ptn6.y, cast ptn6.z,
   cast ptn7.x, cast ptn7.y, cast ptn7.z, cast ptn8.x, cast ptn8.y, cast ptn8.z]

/-- The values stored into `mColors` by `count` iterations of the colour loop. -/
def colorValues {F : Type} (color : Vec3s F) : Nat → List F
  | 0 => []
  | count + 1 => color.c0 :: color.c1 :: color.c2 :: colorValues color count

/-- The 24 values stored into `mIndices` by `add`, in the order of the
stores, for the value `ptnCount` of the source variable of that name. -/
def edgeValues (ptnCount : Nat) : List Nat :=
  [ptnCount, wrapGLuint (ptnCount + 1), wrapGLuint (ptnCount + 1), wrapGLuint (ptnCount + 2),
   wrapGLuint (ptnCount + 2), wrapGLuint (ptnCount + 3), wrapGLuint (ptnCount + 3), ptnCount,
   wrapGLuint (ptnCount + 4), wrapGLuint (ptnCount + 5), wrapGLuint (ptnCount + 5),
   wrapGLuint (ptnCount + 6), wrapGLuint (ptnCount + 6), wrapGLuint (ptnCount + 7),
   wrapGLuint (ptnCount + 7), wrapGLuint (ptnCount + 4), ptnCount, wrapGLuint (ptnCount + 4),
   wrapGLuint (ptnCount + 1), wrapGLuint (ptnCount + 5), wrapGLuint (ptnCount + 2),
   wrapGLuint (ptnCount + 6), wrapGLuint (ptnCount + 3), wrapGLuint (ptnCount + 7)]

/-- The start offset of the stores into `mPoints` and `mColors`
(`ptnOffset`, `colorOffset`). -/
def pointOffset (boxIndex : Nat) : Nat := wrapGLuint (wrapGLuint (boxIndex * 8) * 3)

/-- The start offset of the stores into `mIndices` (`edgeOffset`). -/
def edgeOffset (boxIndex : Nat) : Nat := wrapGLuint (boxIndex * 24)

/-- A run of stores from a start offset, keeping only the container. -/
def StdVector.storeRun {α : Type} (v : StdVector α) (offset : Nat) (xs : List α) :
    Option (StdVector α) :=
  (Cursor.storeFrom (some ⟨v, offset⟩) xs).map (·.vec)

/-! ### The box written by `add` -/

/-- The variable `min` of `add`: the lower corner of the box, moved out by
half a cell. -/
def expandedMin (bbox : CoordBBox) : Vec3d :=
  ⟨bbox.min.x - 1/2, bbox.min.y - 1/2, bbox.min.z - 1/2⟩

/-- The variable `max` of `add`: the upper corner of the box, moved out by
half a cell. -/
def expandedMax (bbox : CoordBBox) : Vec3d :=
  ⟨bbox.max.x + 1/2, bbox.max.y + 1/2, bbox.max.z + 1/2⟩

/-- The eight points `add` hands to `indexToWorld`, corner 1 to corner 8 in
the order of the source, for the values `min` and `max` of the variables of
those names. -/
def boxCorners (min max : Vec3d) : List Vec3d :=
  [⟨min.x, min.y, min.z⟩, ⟨min.x, min.y, max.z⟩, ⟨max.x, min.y, max.z⟩, ⟨max.x, min.y, min.z⟩,
   ⟨min.x, max.y, min.z⟩, ⟨min.x, max.y, max.z⟩, ⟨max.x, max.y, max.z⟩, ⟨max.x, max.y, min.z⟩]

/-- The eight corner points of a call of `add`, before the transform. -/
def cornerPoints (bbox : CoordBBox) : List Vec3d :=
  boxCorners (expandedMin bbox) (expandedMax bbox)

/-- Corner number `k` (from 0) of a call of `add`, before the transform. -/
def cornerPoint (bbox : CoordBBox) (k : Nat) : Vec3d :=
  (cornerPoints bbox).getD k ⟨0, 0, 0⟩

/-- A list read two entries at a time. -/
def pairUp {α : Type} : List α → List (α × α)
  | a :: b :: rest => (a, b) :: pairUp rest
  | _ => []

/-- The 12 index pairs `add` stores for the box `boxIndex`, edge 1 to edge
12 in the order of the source. -/
def edgePairs (boxIndex : Nat) : List (Nat × Nat) :=
  pairUp (edgeValues (wrapGLuint (boxIndex * 8)))

/-- Two points differ in exactly one coordinate. -/
def Vec3d.differInOne (p q : Vec3d) : Prop :=
  (p.x ≠ q.x ∧ p.y = q.y ∧ p.z = q.z) ∨ (p.x = q.x ∧ p.y ≠ q.y ∧ p.z = q.z) ∨
    (p.x = q.x ∧ p.y = q.y ∧ p.z ≠ q.z)

/-! ### Concrete inputs -/

/-- Two calls of `genVertexBuffer`, the driver creating the buffers `1` and
`2` without error. -/
def repeatedCalls : List (GenCall ℚ) :=
  [.vertex (StdVector.fill 24 0) ⟨1, true, GL_NO_ERROR⟩,
   .vertex (StdVector.fill 24 0) ⟨2, true, GL_NO_ERROR⟩]

/-- Two calls of `genVertexBuffer`: the driver creates the buffer `1` for
the first; for the second it creates the buffer `2` and then reports
`GL_OUT_OF_MEMORY` on the upload. -/
def failingCalls : List (GenCall ℚ) :=
  [.vertex (StdVector.fill 24 0) ⟨1, true, GL_NO_ERROR⟩,
   .vertex (StdVector.fill 24 0) ⟨2, true, GL_OUT_OF_MEMORY⟩]

/-- A driver state with no objects, nothing bound and nothing enabled. -/
def GLState.initial : GLState :=
  { buffers := [], shaders := [], programs := [], attached := [], arrayBuffer := 0,
    elementArrayBuffer := 0, vertexArray := false, colorArray := false, normalArray := false,
    currentProgram := 0 }

/-- The state reached from a new `BufferObject` by `genVertexBuffer` on 3
floats and `genIndexBuffer` on `2^32 - 1` indices, the driver creating the
buffers `1` and `2` without error. -/
def negativeCountState : BufferObject × GLState :=
  let s := BufferObject.new.genVertexBuffer GLState.initial (StdVector.fill 3 (0 : ℚ))
    ⟨1, true, GL_NO_ERROR⟩
  s.1.genIndexBuffer s.2 (StdVector.fill 4294967295 (0 : Nat)) GL_POINTS ⟨2, true, GL_NO_ERROR⟩

/-- The state reached from a new `BufferObject` by `genVertexBuffer` on 24
floats and `genIndexBuffer` on 24 indices, the driver creating the buffers
`1` and `2` without error. -/
def oneBoxState : BufferObject × GLState :=
  let s := BufferObject.new.genVertexBuffer GLState.initial (StdVector.fill 24 (0 : ℚ))
    ⟨1, true, GL_NO_ERROR⟩
  s.1.genIndexBuffer s.2 (StdVector.fill 24 (0 : Nat)) GL_LINES ⟨2, true, GL_NO_ERROR⟩

/-- The bounding box `(0,0,0)-(1,1,1)`. -/
def unitBBox : CoordBBox := ⟨⟨0, 0, 0⟩, ⟨1, 1, 1⟩⟩

/-- The colour `(1,0,0)`. -/
def red : Vec3s ℚ := ⟨1, 0, 0⟩

/-- A builder with the identity transform and containers sized for two
boxes, all entries zero. -/
def twoBoxBuilder : WireBoxBuilder ℚ :=
  ⟨id, StdVector.fill 48 0, StdVector.fill 48 0, StdVector.fill 48 0⟩

/-- A builder with the identity transform and containers of
`24 * (178956971 + 1) = 4294967328` entries, all zero. -/
def hugeBuilder : WireBoxBuilder ℚ :=
  ⟨id, StdVector.fill 4294967328 0, StdVector.fill 4294967328 0, StdVector.fill 4294967328 0⟩

/-- A vertex shader source that fails to compile (the driver hands out the
shader `1` and reports an error) followed by a fragment shader source that
compiles (shader `2`). -/
def oneStageCalls : List SetShaderCall :=
  [.vert "void main(" ⟨1, false, "0:1: error"⟩, .frag "void main()" ⟨2, true, ""⟩]

/-- A vertex and a fragment shader source that both compile (shaders `1`
and `2`). -/
def twoStageCalls : List SetShaderCall :=
  [.vert "void main()" ⟨1, true, ""⟩, .frag "void main()" ⟨2, true, ""⟩]

/-- The driver creates the program `3`, reports no error and links it. -/
def linkOk : BuildAnswers :=
  { name := 3, bindError := fun _ => GL_NO_ERROR, attachVertError := GL_NO_ERROR,
    attachFragError := GL_NO_ERROR, linked := true, infoLog := "" }

/-- The driver creates the program `3`, reports no error on the attachments
and fails to link it, with one line of link log. -/
def linkFails : BuildAnswers :=
  { name := 3, bindError := fun _ => GL_NO_ERROR, attachVertError := GL_NO_ERROR,
    attachFragError := GL_NO_ERROR, linked := false, infoLog := "link error" }

/-- The state after `twoStageCalls` on a new object: the vertex shader `1`
and the fragment shader `2` are live. -/
def twoStageState : ShaderProgram × GLState :=
  setShaderCalls (ShaderProgram.new, GLState.initial) twoStageCalls

/-! ## Stores through a cursor -/

theorem wrapGLuint_of_lt {n : Nat} (h : n < 4294967296) : wrapGLuint n = n :=
  Nat.mod_eq_of_lt h

theorem Cursor.storeFrom_none {α : Type} (xs : List α) :
    Cursor.storeFrom (none : Option (Cursor α)) xs = none := by
  induction xs with
  | nil => rfl
  | cons x xs ih => simpa [Cursor.storeFrom] using ih

theorem Cursor.storeFrom_cons {α : Type} (acc : Option (Cursor α)) (x : α) (xs : List α) :
    Cursor.storeFrom acc (x :: xs) = Cursor.storeFrom (acc.bind (Cursor.store · x)) xs := rfl

theorem Cursor.storeFrom_append {α : Type} (acc : Option (Cursor α)) (xs ys : List α) :
    Cursor.storeFrom acc (xs ++ ys) = Cursor.storeFrom (Cursor.storeFrom acc xs) ys := by
  simp [Cursor.storeFrom, List.foldl_append]

theorem Cursor.store_eq_some {α : Type} (c : Cursor α) (x : α) (h : c.offset < c.vec.size) :
    c.store x = some ⟨⟨c.vec.size, fun j => if j = c.offset then x else c.vec.data j⟩,
      wrapGLuint (c.offset + 1)⟩ := by
  simp [Cursor.store, StdVector.assign, h]

theorem Cursor.storeLast_eq_some {α : Type} (c : Cursor α) (x : α) (h : c.offset < c.vec.size) :
    c.storeLast x = some ⟨⟨c.vec.size, fun j => if j = c.offset then x else c.vec.data j⟩,
      c.offset⟩ := by
  simp [Cursor.storeLast, StdVector.assign, h]

/-- A run of stores that neither leaves the container nor wraps the offset
succeeds, keeps the length, and changes exactly the entries from the start
offset on, to the stored values in order. -/
theorem Cursor.storeFrom_spec {α : Type} (xs : List α) :
    ∀ c : Cursor α, c.offset + xs.length ≤ c.vec.size →
      c.offset + xs.length ≤ 4294967296 →
      ∃ c', Cursor.storeFrom (some c) xs = some c' ∧ c'.vec.size = c.vec.size ∧
        (c.offset + xs.length < 4294967296 → c'.offset = c.offset + xs.length) ∧
        ∀ j, c'.vec.data j =
          if c.offset ≤ j then xs.getD (j - c.offset) (c.vec.data j) else c.vec.data j := by
  induction xs with
  | nil =>
    intro c _ _
    exact ⟨c, rfl, rfl, fun _ => rfl, fun j => by simp⟩
  | cons x xs ih =>
    intro c hs hw
    have hlt : c.offset < c.vec.size := by simp at hs; omega
    rw [Cursor.storeFrom_cons, Option.some_bind, Cursor.store_eq_some c x hlt]
    cases xs with
    | nil =>
      refine ⟨_, rfl, rfl, ?_, ?_⟩
      · intro h
        simp at h
        simp [wrapGLuint_of_lt h]
      · intro j
        by_cases hj : j = c.offset
        · subst hj; simp
        · by_cases hle : c.offset ≤ j
          · have : j - c.offset = (j - c.offset - 1) + 1 := by omega
            simp only [hj, hle, if_true, if_false]
            rw [this]; simp
          · simp [hj, hle]
    | cons y ys =>
      have hoff : wrapGLuint (c.offset + 1) = c.offset + 1 := by
        apply wrapGLuint_of_lt
        simp at hw; omega
      obtain ⟨c', h1, h2, h3, h4⟩ := ih
        ⟨⟨c.vec.size, fun j => if j = c.offset then x else c.vec.data j⟩,
          wrapGLuint (c.offset + 1)⟩
        (by simp only [hoff]; simp at hs ⊢; omega)
        (by simp only [hoff]; simp at hw ⊢; omega)
      refine ⟨c', h1, h2, ?_, ?_⟩
      · intro h
        rw [h3 (by simp only [hoff]; simp at h ⊢; omega)]
        simp only [hoff]; simp; omega
      · intro j
        rw [h4 j]
        simp only [hoff]
        by_cases hj : j = c.offset
        · subst hj; simp
        · by_cases hle : c.offset ≤ j
          · have h1 : c.offset + 1 ≤ j := by omega
            have : j - c.offset = (j - (c.offset + 1)) + 1 := by omega
            simp only [hj, hle, h1, if_true, if_false]
            rw [this, List.getD_cons_succ]
          · have h1 : ¬ c.offset + 1 ≤ j := by omega
            simp [hj, hle, h1]

theorem Cursor.storeFrom_storeLast_vec {α : Type} (c : Cursor α) (xs : List α) (x : α) :
    ((Cursor.storeFrom (some c) xs).bind (Cursor.storeLast · x)).map (·.vec) =
      c.vec.storeRun c.offset (xs ++ [x]) := by
  unfold StdVector.storeRun
  rw [Cursor.storeFrom_append]
  cases h : Cursor.storeFrom (some c) xs with
  | none => rfl
  | some c1 =>
    simp [Cursor.storeFrom, Cursor.store, Cursor.storeLast, Option.map_map]
    rfl

theorem colorLoop_eq {F : Type} (color : Vec3s F) (count : Nat) :
    ∀ c : Cursor F, colorLoop color count c = Cursor.storeFrom (some c) (colorValues color count) := by
  induction count with
  | zero => intro c; rfl
  | succ n ih =>
    intro c
    show (c.store color.c0).bind (fun c => (c.store color.c1).bind fun c =>
      (c.store color.c2).bind fun c => colorLoop color n c) = _
    simp only [colorValues, Cursor.storeFrom_cons, Option.some_bind]
    cases c.store color.c0 with
    | none => simp [Cursor.storeFrom_none]
    | some c1 =>
      simp only [Option.some_bind]
      cases c1.store color.c1 with
      | none => simp [Cursor.storeFrom_none]
      | some c2 =>
        simp only [Option.some_bind]
        cases c2.store color.c2 with
        | none => simp [Cursor.storeFrom_none]
        | some c3 => simp only [Option.some_bind]; exact ih c3

/-- What a run of stores does to the container, when it stays inside it
and the offset does not wrap. -/
theorem StdVector.storeRun_spec {α : Type} (v : StdVector α) (offset : Nat) (xs : List α)
    (hs : offset + xs.length ≤ v.size) (hw : offset + xs.length ≤ 4294967296) :
    ∃ v', v.storeRun offset xs = some v' ∧ v'.size = v.size ∧
      ∀ j, v'.data j = if offset ≤ j then xs.getD (j - offset) (v.data j) else v.data j := by
  obtain ⟨c', h1, h2, _, h4⟩ := Cursor.storeFrom_spec xs ⟨v, offset⟩ hs hw
  exact ⟨c'.vec, by simp [StdVector.storeRun, h1], h2, h4⟩

/-- The entries of the slice that a run of stores has filled. -/
theorem StdVector.slice_of_data {α : Type} (v v' : StdVector α) (offset : Nat) (xs : List α)
    (h : ∀ j, v'.data j = if offset ≤ j then xs.getD (j - offset) (v.data j) else v.data j) :
    v'.slice offset xs.length = xs := by
  apply List.ext_getElem
  · simp [StdVector.slice]
  · intro k h1 h2
    simp [StdVector.slice, h, List.getElem?_eq_getElem h2]

/-- The entries outside the slice that a run of stores has filled. -/
theorem StdVector.frame_of_data {α : Type} (v v' : StdVector α) (offset : Nat) (xs : List α)
    (h : ∀ j, v'.data j = if offset ≤ j then xs.getD (j - offset) (v.data j) else v.data j)
    (j : Nat) (hj : j < offset ∨ offset + xs.length ≤ j) : v'.data j = v.data j := by
  rw [h j]
  split
  · apply List.getD_eq_default
    omega
  · rfl

/-- A slice all of whose entries are `d`. -/
theorem StdVector.slice_eq_replicate {α : Type} (v : StdVector α) (lo n : Nat) (d : α)
    (h : ∀ j, lo ≤ j → v.data j = d) : v.slice lo n = List.replicate n d := by
  apply List.ext_getElem
  · simp [StdVector.slice]
  · intro k h1 h2
    simp [StdVector.slice, h (lo + k) (by omega)]

/-! ## Properties of WireBoxBuilder -/

theorem colorValues_length {F : Type} (color : Vec3s F) (count : Nat) :
    (colorValues color count).length = 3 * count := by
  induction count with
  | zero => rfl
  | succ n ih => simp [colorValues, ih]; omega

/-- The method `add` as three runs of stores. -/
theorem WireBoxBuilder.add_eq_some_iff {F : Type} (cast : ℚ → F) (self : WireBoxBuilder F)
    (i : Nat) (bbox : CoordBBox) (color : Vec3s F) (s' : WireBoxBuilder F) :
    self.add cast i bbox color = some s' ↔
      ∃ p c e, self.mPoints.storeRun (pointOffset i) (pointValues cast self.mXForm bbox) = some p ∧
        self.mColors.storeRun (pointOffset i) (colorValues color 8) = some c ∧
        self.mIndices.storeRun (edgeOffset i) (edgeValues (wrapGLuint (i * 8))) = some e ∧
        s' = ⟨self.mXForm, e, p, c⟩ := by
  have hp := Cursor.storeFrom_storeLast_vec ⟨self.mPoints, pointOffset i⟩
    ((pointValues cast self.mXForm bbox).take 23) (cast (self.mXForm
      ⟨bbox.max.x + 1/2, bbox.max.y + 1/2, bbox.min.z - 1/2⟩).z)
  have he := Cursor.storeFrom_storeLast_vec ⟨self.mIndices, edgeOffset i⟩
    ((edgeValues (wrapGLuint (i * 8))).take 23) (wrapGLuint (wrapGLuint (i * 8) + 7))
  have hc : (colorLoop color 8 ⟨self.mColors, pointOffset i⟩).map (·.vec) =
      self.mColors.storeRun (pointOffset i) (colorValues color 8) := by
    rw [colorLoop_eq]; rfl
  have hadd : self.add cast i bbox color =
      ((Cursor.storeFrom (some ⟨self.mPoints, pointOffset i⟩)
          ((pointValues cast self.mXForm bbox).take 23)).bind
        (Cursor.storeLast · (cast (self.mXForm
          ⟨bbox.max.x + 1/2, bbox.max.y + 1/2, bbox.min.z - 1/2⟩).z))).bind fun p =>
      (colorLoop color 8 ⟨self.mColors, pointOffset i⟩).bind fun c =>
      ((Cursor.storeFrom (some ⟨self.mIndices, edgeOffset i⟩)
          ((edgeValues (wrapGLuint (i * 8))).take 23)).bind
        (Cursor.storeLast · (wrapGLuint (wrapGLuint (i * 8) + 7)))).bind fun e =>
      some ⟨self.mXForm, e.vec, p.vec, c.vec⟩ := rfl
  rw [hadd]
  have hp' : (pointValues cast self.mXForm bbox).take 23 ++ [cast (self.mXForm
      ⟨bbox.max.x + 1/2, bbox.max.y + 1/2, bbox.min.z - 1/2⟩).z] =
      pointValues cast self.mXForm bbox := rfl
  have he' : (edgeValues (wrapGLuint (i * 8))).take 23 ++
      [wrapGLuint (wrapGLuint (i * 8) + 7)] = edgeValues (wrapGLuint (i * 8)) := rfl
  rw [hp'] at hp
  rw [he'] at he
  rw [← hp, ← hc, ← he]
  simp only [Option.bind_eq_some, Option.map_eq_some', exists_exists_and_eq_and]
  constructor
  · rintro ⟨p, h1, c, h2, e, h3, h4⟩
    exact ⟨p.vec, c.vec, e.vec, ⟨p, h1, rfl⟩, ⟨c, h2, rfl⟩, ⟨e, h3, rfl⟩, by simpa using h4.symm⟩
  · rintro ⟨_, _, _, ⟨p, h1, rfl⟩, ⟨c, h2, rfl⟩, ⟨e, h3, rfl⟩, h4⟩
    exact ⟨p, h1, c, h2, e, h3, by simpa using h4.symm⟩

theorem pointOffset_eq {i : Nat} (hi : 24 * i + 23 < 4294967296) : pointOffset i = 24 * i := by
  unfold pointOffset wrapGLuint
  omega

theorem edgeOffset_eq {i : Nat} (hi : 24 * i + 23 < 4294967296) : edgeOffset i = 24 * i := by
  unfold edgeOffset wrapGLuint
  omega

theorem edgeValues_eq {i : Nat} (hi : 8 * i + 7 < 4294967296) :
    edgeValues (wrapGLuint (i * 8)) = [0, 1, 1, 2, 2, 3, 3, 0, 4, 5, 5, 6, 6, 7, 7, 4, 0, 4, 1, 5, 2, 6, 3, 7].map (8 * i + ·) := by
  have h0 : wrapGLuint (i * 8) = 8 * i := by unfold wrapGLuint; omega
  have h (k : Nat) (hk : k ≤ 7) : wrapGLuint (8 * i + k) = 8 * i + k := by
    unfold wrapGLuint; omega
  simp [edgeValues, h0, h]

theorem colorValues_eight {F : Type} (color : Vec3s F) :
    colorValues color 8 = (List.replicate 8 [color.c0, color.c1, color.c2]).flatten := rfl

/-- The effect of `add` in terms of the start offsets it computes: when the
24 stores from each start offset stay inside the container and below `2^32`,
`add` succeeds, keeps the transform and the lengths, and each container
changes exactly at the 24 positions from its start offset on. -/
theorem WireBoxBuilder.add_spec {F : Type} (cast : ℚ → F) (self : WireBoxBuilder F)
    (i : Nat) (bbox : CoordBBox) (color : Vec3s F)
    (hE : edgeOffset i + 24 ≤ self.mIndices.size)
    (hP : pointOffset i + 24 ≤ self.mPoints.size)
    (hC : pointOffset i + 24 ≤ self.mColors.size)
    (hwe : edgeOffset i + 24 ≤ 4294967296) (hwp : pointOffset i + 24 ≤ 4294967296) :
    ∃ s', self.add cast i bbox color = some s' ∧ s'.mXForm = self.mXForm ∧
      s'.mIndices.size = self.mIndices.size ∧ s'.mPoints.size = self.mPoints.size ∧
      s'.mColors.size = self.mColors.size ∧
      (∀ j, s'.mIndices.data j = if edgeOffset i ≤ j then
        (edgeValues (wrapGLuint (i * 8))).getD (j - edgeOffset i) (self.mIndices.data j)
        else self.mIndices.data j) ∧
      (∀ j, s'.mPoints.data j = if pointOffset i ≤ j then
        (pointValues cast self.mXForm bbox).getD (j - pointOffset i) (self.mPoints.data j)
        else self.mPoints.data j) ∧
      (∀ j, s'.mColors.data j = if pointOffset i ≤ j then
        (colorValues color 8).getD (j - pointOffset i) (self.mColors.data j)
        else self.mColors.data j) := by
  obtain ⟨e, he, hes, hed⟩ := StdVector.storeRun_spec self.mIndices (edgeOffset i)
    (edgeValues (wrapGLuint (i * 8))) hE hwe
  obtain ⟨p, hp, hps, hpd⟩ := StdVector.storeRun_spec self.mPoints (pointOffset i)
    (pointValues cast self.mXForm bbox) hP hwp
  obtain ⟨c, hc, hcs, hcd⟩ := StdVector.storeRun_spec self.mColors (pointOffset i)
    (colorValues color 8) hC hwp
  exact ⟨⟨self.mXForm, e, p, c⟩,
    (WireBoxBuilder.add_eq_some_iff cast self i bbox color _).2 ⟨p, c, e, hp, hc, he, rfl⟩,
    rfl, hes, hps, hcs, hed, hpd, hcd⟩

/-- When `add` succeeds it has filled the index slice from `edgeOffset`. -/
theorem WireBoxBuilder.add_slice_indices {F : Type} (cast : ℚ → F) (self : WireBoxBuilder F)
    (i : Nat) (bbox : CoordBBox) (color : Vec3s F) (s' : WireBoxBuilder F)
    (hE : edgeOffset i + 24 ≤ self.mIndices.size) (hwe : edgeOffset i + 24 ≤ 4294967296)
    (h : self.add cast i bbox color = some s') :
    s'.mIndices.slice (edgeOffset i) 24 = edgeValues (wrapGLuint (i * 8)) := by
  obtain ⟨p, c, e, _, _, he, rfl⟩ := (WireBoxBuilder.add_eq_some_iff cast self i bbox color s').1 h
  obtain ⟨e', he', _, hed⟩ := StdVector.storeRun_spec self.mIndices (edgeOffset i)
    (edgeValues (wrapGLuint (i * 8))) hE hwe
  rw [he] at he'
  cases he'
  exact StdVector.slice_of_data self.mIndices e (edgeOffset i) _ hed

/-- When `add` succeeds it has filled the position slice from `pointOffset`. -/
theorem WireBoxBuilder.add_slice_points {F : Type} (cast : ℚ → F) (self : WireBoxBuilder F)
    (i : Nat) (bbox : CoordBBox) (color : Vec3s F) (s' : WireBoxBuilder F)
    (hP : pointOffset i + 24 ≤ self.mPoints.size) (hwp : pointOffset i + 24 ≤ 4294967296)
    (h : self.add cast i bbox color = some s') :
    s'.mPoints.slice (pointOffset i) 24 = pointValues cast self.mXForm bbox := by
  obtain ⟨p, c, e, hp, _, _, rfl⟩ := (WireBoxBuilder.add_eq_some_iff cast self i bbox color s').1 h
  obtain ⟨p', hp', _, hpd⟩ := StdVector.storeRun_spec self.mPoints (pointOffset i)
    (pointValues cast self.mXForm bbox) hP hwp
  rw [hp] at hp'
  cases hp'
  exact StdVector.slice_of_data self.mPoints p (pointOffset i) _ hpd

/-- When `add` succeeds it has filled the colour slice from `pointOffset`. -/
theorem WireBoxBuilder.add_slice_colors {F : Type} (cast : ℚ → F) (self : WireBoxBuilder F)
    (i : Nat) (bbox : CoordBBox) (color : Vec3s F) (s' : WireBoxBuilder F)
    (hC : pointOffset i + 24 ≤ self.mColors.size) (hwp : pointOffset i + 24 ≤ 4294967296)
    (h : self.add cast i bbox color = some s') :
    s'.mColors.slice (pointOffset i) 24 = colorValues color 8 := by
  obtain ⟨p, c, e, _, hc, _, rfl⟩ := (WireBoxBuilder.add_eq_some_iff cast self i bbox color s').1 h
  obtain ⟨c', hc', _, hcd⟩ := StdVector.storeRun_spec self.mColors (pointOffset i)
    (colorValues color 8) hC hwp
  rw [hc] at hc'
  cases hc'
  exact StdVector.slice_of_data self.mColors c (pointOffset i) _ hcd

/-- With all three slices in range and below `2^32`, `add` succeeds. -/
theorem WireBoxBuilder.add_isSome {F : Type} (cast : ℚ → F) (self : WireBoxBuilder F)
    (i : Nat) (bbox : CoordBBox) (color : Vec3s F) (hi : 24 * i + 23 < 4294967296)
    (hE : 24 * (i + 1) ≤ self.mIndices.size) (hP : 24 * (i + 1) ≤ self.mPoints.size)
    (hC : 24 * (i + 1) ≤ self.mColors.size) :
    ∃ s', self.add cast i bbox color = some s' := by
  have h1 := pointOffset_eq hi
  have h2 := edgeOffset_eq hi
  obtain ⟨s', h, _⟩ := WireBoxBuilder.add_spec cast self i bbox color
    (by omega) (by omega) (by omega) (by omega) (by omega)
  exact ⟨s', h⟩

/-- The run of `add` on `hugeBuilder` for box index `178956971`: the start
offsets have wrapped to `8`, and the stores go to the positions `8 .. 31`. -/
theorem hugeBuilder_add :
    ∃ s', hugeBuilder.add id 178956971 unitBBox red = some s' ∧
      (∀ j, s'.mIndices.data j =
        if 8 ≤ j then (edgeValues 1431655768).getD (j - 8) 0 else 0) ∧
      (∀ j, s'.mPoints.data j =
        if 8 ≤ j then (pointValues id id unitBBox).getD (j - 8) 0 else 0) ∧
      (∀ j, s'.mColors.data j = if 8 ≤ j then (colorValues red 8).getD (j - 8) 0 else 0) := by
  have hp : pointOffset 178956971 = 8 := by decide
  have he : edgeOffset 178956971 = 8 := by decide
  have hw : wrapGLuint (178956971 * 8) = 1431655768 := by decide
  obtain ⟨s', h, _, _, _, _, h1, h2, h3⟩ := WireBoxBuilder.add_spec id hugeBuilder 178956971
    unitBBox red (by rw [he]; decide) (by rw [hp]; decide) (by rw [hp]; decide)
    (by rw [he]; decide) (by rw [hp]; decide)
  rw [he, hw] at h1
  rw [hp] at h2 h3
  exact ⟨s', h, h1, h2, h3⟩

/-- Two vectors that agree on a range have the same slice there. -/
theorem StdVector.slice_congr {α : Type} (v w : StdVector α) (lo n : Nat)
    (h : ∀ j, lo ≤ j → j < lo + n → v.data j = w.data j) : v.slice lo n = w.slice lo n := by
  apply List.ext_getElem
  · simp [StdVector.slice]
  · intro k h1 h2
    have hk : k < n := by simpa [StdVector.slice] using h1
    simp [StdVector.slice, h (lo + k) (by omega) (by omega)]

/-- The whole effect of `add` for a box index whose slices fit: it succeeds,
keeps the transform and the lengths, leaves every entry outside
`24*i .. 24*i+23` as it was, and fills the three slices with the values of
`edgeValues`, `pointValues` and `colorValues`. -/
theorem WireBoxBuilder.add_effect {F : Type} (cast : ℚ → F) (self : WireBoxBuilder F)
    (i : Nat) (bbox : CoordBBox) (color : Vec3s F) (hi : 24 * i + 23 < 4294967296)
    (hE : 24 * (i + 1) ≤ self.mIndices.size) (hP : 24 * (i + 1) ≤ self.mPoints.size)
    (hC : 24 * (i + 1) ≤ self.mColors.size) :
    ∃ s', self.add cast i bbox color = some s' ∧ s'.mXForm = self.mXForm ∧
      s'.mIndices.size = self.mIndices.size ∧ s'.mPoints.size = self.mPoints.size ∧
      s'.mColors.size = self.mColors.size ∧
      (∀ j, j < 24 * i ∨ 24 * i + 24 ≤ j →
        s'.mIndices.data j = self.mIndices.data j ∧ s'.mPoints.data j = self.mPoints.data j ∧
        s'.mColors.data j = self.mColors.data j) ∧
      s'.mIndices.slice (24 * i) 24 = edgeValues (wrapGLuint (i * 8)) ∧
      s'.mPoints.slice (24 * i) 24 = pointValues cast self.mXForm bbox ∧
      s'.mColors.slice (24 * i) 24 = colorValues color 8 := by
  have h1 := pointOffset_eq hi
  have h2 := edgeOffset_eq hi
  obtain ⟨s', h, hx, hs1, hs2, hs3, hd1, hd2, hd3⟩ := WireBoxBuilder.add_spec cast self i bbox
    color (by omega) (by omega) (by omega) (by omega) (by omega)
  rw [h2] at hd1
  rw [h1] at hd2 hd3
  refine ⟨s', h, hx, hs1, hs2, hs3, fun j hj => ⟨?_, ?_, ?_⟩, ?_, ?_, ?_⟩
  · exact StdVector.frame_of_data _ _ _ _ hd1 j hj
  · exact StdVector.frame_of_data _ _ _ _ hd2 j hj
  · exact StdVector.frame_of_data _ _ _ _ hd3 j
      (by rw [colorValues_length]; exact hj)
  · exact StdVector.slice_of_data _ _ _ _ hd1
  · exact StdVector.slice_of_data _ _ _ _ hd2
  · have := StdVector.slice_of_data _ _ _ _ hd3
    rwa [colorValues_length] at this

/-! ### C1: the index slice -/

/-- C1 (as amended): for every box index `i` with `24*i + 23 < 2^32`, every
bounding box, colour and transform, with the index container holding at
least `24*(i+1)` entries, after `add(i, bbox, color)` the index entries at
positions `24*i .. 24*i+23` are `8*i + [0,1, 1,2, 2,3, 3,0, 4,5, 5,6, 6,7,
7,4, 0,4, 1,5, 2,6, 3,7]`, whatever the box, colour and transform are; and
`add` does complete when the other two containers are sized as well. -/
theorem WireBoxBuilder.add_indices {F : Type} (cast : ℚ → F) (self : WireBoxBuilder F)
    (i : Nat) (bbox : CoordBBox) (color : Vec3s F)
    (hsize : 24 * (i + 1) ≤ self.mIndices.size) (hi : 24 * i + 23 < 4294967296) :
    (∀ s', self.add cast i bbox color = some s' →
      s'.mIndices.slice (24 * i) 24 = [0, 1, 1, 2, 2, 3, 3, 0, 4, 5, 5, 6, 6, 7, 7, 4, 0, 4, 1, 5, 2, 6, 3, 7].map (8 * i + ·)) ∧
    (24 * (i + 1) ≤ self.mPoints.size → 24 * (i + 1) ≤ self.mColors.size →
      ∃ s', self.add cast i bbox color = some s') := by
  have h2 := edgeOffset_eq hi
  refine ⟨fun s' h => ?_, fun hP hC => WireBoxBuilder.add_isSome cast self i bbox color hi hsize hP hC⟩
  have := WireBoxBuilder.add_slice_indices cast self i bbox color s' (by omega) (by omega) h
  rw [h2, edgeValues_eq (by omega)] at this
  exact this

/-- C1, witness: box 1 of a two-box builder. -/
theorem WireBoxBuilder.add_indices_witness :
    ∃ s', twoBoxBuilder.add id 1 unitBBox red = some s' ∧
      s'.mIndices.slice 24 24 =
        [8, 9, 9, 10, 10, 11, 11, 8, 12, 13, 13, 14, 14, 15, 15, 12, 8, 12, 9, 13, 10, 14,
          11, 15] := by
  have h := WireBoxBuilder.add_indices id twoBoxBuilder 1 unitBBox red (by decide) (by decide)
  obtain ⟨s', hs⟩ := h.2 (by decide) (by decide)
  exact ⟨s', hs, h.1 s' hs⟩

/-- C1, counterexample: box index `178956971` satisfies `8*i + 7 < 2^32` and
the index container holds `24*(i+1)` entries, yet after `add` the entries at
`24*i .. 24*i+23` are not the edge list (they are untouched): the offset
`boxIndex * 24` has wrapped to `8`, and the edge list is at `8 .. 31`. -/
theorem WireBoxBuilder.add_indices_wraps :
    24 * (178956971 + 1) ≤ hugeBuilder.mIndices.size ∧ 8 * 178956971 + 7 < 4294967296 ∧
    ∃ s', hugeBuilder.add id 178956971 unitBBox red = some s' ∧
      s'.mIndices.slice (24 * 178956971) 24 ≠ [0, 1, 1, 2, 2, 3, 3, 0, 4, 5, 5, 6, 6, 7, 7, 4, 0, 4, 1, 5, 2, 6, 3, 7].map (8 * 178956971 + ·) ∧
      s'.mIndices.slice (24 * 178956971) 24 = List.replicate 24 0 ∧
      s'.mIndices.slice 8 24 = [0, 1, 1, 2, 2, 3, 3, 0, 4, 5, 5, 6, 6, 7, 7, 4, 0, 4, 1, 5, 2, 6, 3, 7].map (8 * 178956971 + ·) := by
  refine ⟨by decide, by decide, ?_⟩
  obtain ⟨s', h, h1, _, _⟩ := hugeBuilder_add
  have hz : s'.mIndices.slice (24 * 178956971) 24 = List.replicate 24 0 := by
    apply StdVector.slice_eq_replicate
    intro j hj
    rw [h1 j, if_pos (by omega)]
    exact List.getD_eq_default _ _ (by simp [edgeValues, pointValues, colorValues]; omega)
  refine ⟨s', h, ?_, hz, ?_⟩
  · rw [hz]; decide
  · have := StdVector.slice_of_data (StdVector.fill 0 0) s'.mIndices 8 (edgeValues 1431655768)
      (by simpa [StdVector.fill] using h1)
    rw [show (edgeValues 1431655768).length = 24 from rfl] at this
    rw [this]; decide

/-! ### C2: the position slice -/

/-- C2 (as amended): for every box index `i` with `24*i + 23 < 2^32`, integer
bounding box with corners `min = (a,b,c)` and `max = (d,e,f)`, and transform
`T`, with the position container holding at least `24*(i+1)` entries, after
`add(i, bbox, color)` the position entries `24*i+3*k .. 24*i+3*k+2`
(`k = 0..7`) are the `x, y, z` of `T.indexToWorld(c_k)` converted to
`GLfloat`, where with `x0 = a-0.5, y0 = b-0.5, z0 = c-0.5, x1 = d+0.5,
y1 = e+0.5, z1 = f+0.5` the corners are `(x0,y0,z0), (x0,y0,z1), (x1,y0,z1),
(x1,y0,z0), (x0,y1,z0), (x0,y1,z1), (x1,y1,z1), (x1,y1,z0)`; for the identity
transform and the box `(0,0,0)-(1,1,1)` these are the 8 corners of the box
`(-0.5,-0.5,-0.5)-(1.5,1.5,1.5)` in that order. -/
theorem WireBoxBuilder.add_points {F : Type} (cast : ℚ → F) (self : WireBoxBuilder F)
    (i : Nat) (bbox : CoordBBox) (color : Vec3s F)
    (hsize : 24 * (i + 1) ≤ self.mPoints.size) (hi : 24 * i + 23 < 4294967296) :
    (∀ s', self.add cast i bbox color = some s' →
      s'.mPoints.slice (24 * i) 24 =
        (([(⟨bbox.min.x - 1/2, bbox.min.y - 1/2, bbox.min.z - 1/2⟩ : Vec3d),
           ⟨bbox.min.x - 1/2, bbox.min.y - 1/2, bbox.max.z + 1/2⟩,
           ⟨bbox.max.x + 1/2, bbox.min.y - 1/2, bbox.max.z + 1/2⟩,
           ⟨bbox.max.x + 1/2, bbox.min.y - 1/2, bbox.min.z - 1/2⟩,
           ⟨bbox.min.x - 1/2, bbox.max.y + 1/2, bbox.min.z - 1/2⟩,
           ⟨bbox.min.x - 1/2, bbox.max.y + 1/2, bbox.max.z + 1/2⟩,
           ⟨bbox.max.x + 1/2, bbox.max.y + 1/2, bbox.max.z + 1/2⟩,
           ⟨bbox.max.x + 1/2, bbox.max.y + 1/2, bbox.min.z - 1/2⟩].map self.mXForm).map
          fun w => [cast w.x, cast w.y, cast w.z]).flatten ∧
      (self.mXForm = id → bbox = unitBBox →
        s'.mPoints.slice (24 * i) 24 =
          [(-1/2 : ℚ), -1/2, -1/2,  -1/2, -1/2, 3/2,  3/2, -1/2, 3/2,  3/2, -1/2, -1/2,
           -1/2, 3/2, -1/2,  -1/2, 3/2, 3/2,  3/2, 3/2, 3/2,  3/2, 3/2, -1/2].map cast)) ∧
    (24 * (i + 1) ≤ self.mIndices.size → 24 * (i + 1) ≤ self.mColors.size →
      ∃ s', self.add cast i bbox color = some s') := by
  have h1 := pointOffset_eq hi
  refine ⟨fun s' h => ?_, fun hE hC => WireBoxBuilder.add_isSome cast self i bbox color hi hE hsize hC⟩
  have := WireBoxBuilder.add_slice_points cast self i bbox color s' (by omega) (by omega) h
  rw [h1] at this
  refine ⟨by rw [this]; rfl, fun hx hb => ?_⟩
  rw [this, hx, hb]
  simp only [pointValues, unitBBox, id, List.map]
  norm_num

/-- C2, witness: box 1 of a two-box builder with the identity transform. -/
theorem WireBoxBuilder.add_points_witness :
    ∃ s', twoBoxBuilder.add id 1 unitBBox red = some s' ∧
      s'.mPoints.slice 24 24 =
        [(-1/2 : ℚ), -1/2, -1/2,  -1/2, -1/2, 3/2,  3/2, -1/2, 3/2,  3/2, -1/2, -1/2,
         -1/2, 3/2, -1/2,  -1/2, 3/2, 3/2,  3/2, 3/2, 3/2,  3/2, 3/2, -1/2] := by
  have h := WireBoxBuilder.add_points id twoBoxBuilder 1 unitBBox red (by decide) (by decide)
  obtain ⟨s', hs⟩ := h.2 (by decide) (by decide)
  exact ⟨s', hs, by simpa using (h.1 s' hs).2 rfl rfl⟩

/-- C2, counterexample: for box index `178956971`, with the position
container holding `24*(i+1)` entries, the entries at `24*i .. 24*i+23` are
untouched after `add` (all zero, not the corners): the offset
`ptnCount * 3` has wrapped to `8`. -/
theorem WireBoxBuilder.add_points_wraps :
    24 * (178956971 + 1) ≤ hugeBuilder.mPoints.size ∧
    ∃ s', hugeBuilder.add id 178956971 unitBBox red = some s' ∧
      s'.mPoints.slice (24 * 178956971) 24 = List.replicate 24 0 ∧
      s'.mPoints.slice (24 * 178956971) 24 ≠
        [(-1/2 : ℚ), -1/2, -1/2,  -1/2, -1/2, 3/2,  3/2, -1/2, 3/2,  3/2, -1/2, -1/2,
         -1/2, 3/2, -1/2,  -1/2, 3/2, 3/2,  3/2, 3/2, 3/2,  3/2, 3/2, -1/2] := by
  refine ⟨by decide, ?_⟩
  obtain ⟨s', h, _, h2, _⟩ := hugeBuilder_add
  have hz : s'.mPoints.slice (24 * 178956971) 24 = List.replicate 24 0 := by
    apply StdVector.slice_eq_replicate
    intro j hj
    rw [h2 j, if_pos (by omega)]
    exact List.getD_eq_default _ _ (by simp [edgeValues, pointValues, colorValues]; omega)
  refine ⟨s', h, hz, ?_⟩
  rw [hz]
  intro hh
  have := congrArg List.head? hh
  norm_num [List.replicate] at this

/-! ### C3: the colour slice -/

/-- C3 (as amended): for every box index `i` with `24*i + 23 < 2^32` and
colour `(r,g,b)`, with the colour container holding at least `24*(i+1)`
entries, after `add(i, bbox, color)` the colour entries `24*i .. 24*i+23`
are the triple `r, g, b` repeated 8 times, starting at the same flat offset
as the positions of the box. -/
theorem WireBoxBuilder.add_colors {F : Type} (cast : ℚ → F) (self : WireBoxBuilder F)
    (i : Nat) (bbox : CoordBBox) (color : Vec3s F)
    (hsize : 24 * (i + 1) ≤ self.mColors.size) (hi : 24 * i + 23 < 4294967296) :
    (∀ s', self.add cast i bbox color = some s' →
      s'.mColors.slice (24 * i) 24 =
        (List.replicate 8 [color.c0, color.c1, color.c2]).flatten) ∧
    (24 * (i + 1) ≤ self.mIndices.size → 24 * (i + 1) ≤ self.mPoints.size →
      ∃ s', self.add cast i bbox color = some s') := by
  have h1 := pointOffset_eq hi
  refine ⟨fun s' h => ?_, fun hE hP => WireBoxBuilder.add_isSome cast self i bbox color hi hE hP hsize⟩
  have := WireBoxBuilder.add_slice_colors cast self i bbox color s' (by omega) (by omega) h
  rw [h1, colorValues_eight] at this
  exact this

/-- C3, witness: box 1 of a two-box builder, colour `(1,0,0)`. -/
theorem WireBoxBuilder.add_colors_witness :
    ∃ s', twoBoxBuilder.add id 1 unitBBox red = some s' ∧
      s'.mColors.slice 24 24 =
        [1, 0, 0, 1, 0, 0, 1, 0, 0, 1, 0, 0, 1, 0, 0, 1, 0, 0, 1, 0, 0, 1, 0, 0] := by
  have h := WireBoxBuilder.add_colors id twoBoxBuilder 1 unitBBox red (by decide) (by decide)
  obtain ⟨s', hs⟩ := h.2 (by decide) (by decide)
  exact ⟨s', hs, h.1 s' hs⟩

/-- C3, counterexample: for box index `178956971`, with the colour container
holding `24*(i+1)` entries, the entries at `24*i .. 24*i+23` are untouched
after `add` (all zero, not the colour `(1,0,0)` repeated): the colour offset
has wrapped to `8`. -/
theorem WireBoxBuilder.add_colors_wraps :
    24 * (178956971 + 1) ≤ hugeBuilder.mColors.size ∧
    ∃ s', hugeBuilder.add id 178956971 unitBBox red = some s' ∧
      s'.mColors.slice (24 * 178956971) 24 = List.replicate 24 0 ∧
      s'.mColors.slice (24 * 178956971) 24 ≠
        (List.replicate 8 [red.c0, red.c1, red.c2]).flatten := by
  refine ⟨by decide, ?_⟩
  obtain ⟨s', h, _, _, h3⟩ := hugeBuilder_add
  have hz : s'.mColors.slice (24 * 178956971) 24 = List.replicate 24 0 := by
    apply StdVector.slice_eq_replicate
    intro j hj
    rw [h3 j, if_pos (by omega)]
    exact List.getD_eq_default _ _ (by simp [edgeValues, pointValues, colorValues]; omega)
  refine ⟨s', h, hz, ?_⟩
  rw [hz]
  intro hh
  have := congrArg List.head? hh
  norm_num [List.replicate, red] at this

/-! ### C4: the frame of `add` -/

/-- C4: for every box index `i` whose slices fit (each of the three
containers has at least `24*(i+1)` entries and `24*i + 23 < 2^32`),
`add(i, bbox, color)` performs only in-bounds stores (it completes), keeps
the three container lengths, leaves every entry outside the positions
`24*i .. 24*i+23` of each container unchanged, and stores to every position
`24*i .. 24*i+23` of each container (the entries there afterwards are the
same whatever the containers held before); hence for a different box index
`k` whose slices fit, the two ranges are disjoint and a following `add(k, ..)`
leaves the three slices of box `i` as `add(i, ..)` wrote them. -/
theorem WireBoxBuilder.add_frame {F : Type} (cast : ℚ → F) (self : WireBoxBuilder F)
    (i : Nat) (bbox : CoordBBox) (color : Vec3s F) (hi : 24 * i + 23 < 4294967296)
    (hE : 24 * (i + 1) ≤ self.mIndices.size) (hP : 24 * (i + 1) ≤ self.mPoints.size)
    (hC : 24 * (i + 1) ≤ self.mColors.size) :
    ∃ s', self.add cast i bbox color = some s' ∧
      (s'.mIndices.size = self.mIndices.size ∧ s'.mPoints.size = self.mPoints.size ∧
        s'.mColors.size = self.mColors.size) ∧
      (∀ j, j < 24 * i ∨ 24 * i + 24 ≤ j →
        s'.mIndices.data j = self.mIndices.data j ∧ s'.mPoints.data j = self.mPoints.data j ∧
        s'.mColors.data j = self.mColors.data j) ∧
      (∀ t : WireBoxBuilder F, t.mXForm = self.mXForm → 24 * (i + 1) ≤ t.mIndices.size →
        24 * (i + 1) ≤ t.mPoints.size → 24 * (i + 1) ≤ t.mColors.size →
        ∃ t', t.add cast i bbox color = some t' ∧
          t'.mIndices.slice (24 * i) 24 = s'.mIndices.slice (24 * i) 24 ∧
          t'.mPoints.slice (24 * i) 24 = s'.mPoints.slice (24 * i) 24 ∧
          t'.mColors.slice (24 * i) 24 = s'.mColors.slice (24 * i) 24) ∧
      (∀ (k : Nat) (bbox2 : CoordBBox) (color2 : Vec3s F), k ≠ i → 24 * k + 23 < 4294967296 →
        24 * (k + 1) ≤ self.mIndices.size → 24 * (k + 1) ≤ self.mPoints.size →
        24 * (k + 1) ≤ self.mColors.size →
        (24 * k + 24 ≤ 24 * i ∨ 24 * i + 24 ≤ 24 * k) ∧
        ∃ s'', s'.add cast k bbox2 color2 = some s'' ∧
          s''.mIndices.slice (24 * i) 24 = s'.mIndices.slice (24 * i) 24 ∧
          s''.mPoints.slice (24 * i) 24 = s'.mPoints.slice (24 * i) 24 ∧
          s''.mColors.slice (24 * i) 24 = s'.mColors.slice (24 * i) 24) := by
  obtain ⟨s', h, hx, hs1, hs2, hs3, hfr, hv1, hv2, hv3⟩ :=
    WireBoxBuilder.add_effect cast self i bbox color hi hE hP hC
  refine ⟨s', h, ⟨hs1, hs2, hs3⟩, hfr, ?_, ?_⟩
  · intro t ht h1 h2 h3
    obtain ⟨t', h', _, _, _, _, _, hw1, hw2, hw3⟩ :=
      WireBoxBuilder.add_effect cast t i bbox color hi h1 h2 h3
    exact ⟨t', h', by rw [hw1, hv1], by rw [hw2, hv2, ht], by rw [hw3, hv3]⟩
  · intro k bbox2 color2 hk hk32 h1 h2 h3
    have hdisj : 24 * k + 24 ≤ 24 * i ∨ 24 * i + 24 ≤ 24 * k := by omega
    obtain ⟨s'', h'', _, _, _, _, hfr', _⟩ :=
      WireBoxBuilder.add_effect cast s' k bbox2 color2 hk32 (by omega) (by omega) (by omega)
    refine ⟨hdisj, s'', h'', ?_, ?_, ?_⟩
    · exact StdVector.slice_congr _ _ _ _ fun j hj1 hj2 => (hfr' j (by omega)).1
    · exact StdVector.slice_congr _ _ _ _ fun j hj1 hj2 => (hfr' j (by omega)).2.1
    · exact StdVector.slice_congr _ _ _ _ fun j hj1 hj2 => (hfr' j (by omega)).2.2

/-- C4, witness: box 0 of a two-box builder; the entries `24 .. 47` (the
slice of box 1) keep their value. -/
theorem WireBoxBuilder.add_frame_witness :
    ∃ s', twoBoxBuilder.add id 0 unitBBox red = some s' ∧ s'.mIndices.size = 48 ∧
      s'.mIndices.slice 24 24 = twoBoxBuilder.mIndices.slice 24 24 := by
  obtain ⟨s', h, hs, hfr, _⟩ := WireBoxBuilder.add_frame id twoBoxBuilder 0 unitBBox red
    (by decide) (by decide) (by decide) (by decide)
  exact ⟨s', h, hs.1, StdVector.slice_congr _ _ _ _ fun j hj1 hj2 => (hfr j (by omega)).1⟩

/-! ## Properties of BufferObject -/

theorem String.length_pos_iff_ne_empty (s : String) : s.length > 0 ↔ s ≠ "" := by
  constructor
  · intro h he
    rw [he] at h
    exact absurd h (by decide)
  · intro h
    rcases Nat.eq_zero_or_pos s.length with h0 | h0
    · exfalso
      apply h
      apply String.ext
      exact List.length_eq_zero.mp h0
    · exact h0

/-- The diagnostic idiom: the message alone on an empty log, otherwise the
log, one newline, and the message. -/
theorem appendError_eq (mError msg : String) :
    appendError mError msg = if mError = "" then msg else mError ++ "\n" ++ msg := by
  unfold appendError
  by_cases h : mError = ""
  · subst h; rfl
  · have := (String.length_pos_iff_ne_empty mError).2 h
    simp [h, this]

theorem glIsBuffer_iff (gl : GLState) (n : GLuint) :
    glIsBuffer gl n = true ↔ n ≠ 0 ∧ n ∈ gl.buffers := by
  simp [glIsBuffer]

/-! ### C5: `isValid` -/

/-- C5 (as amended): for every `BufferObject` state and driver state,
`isValid()` returns true if and only if the primitive count is not zero and
both the vertex handle and the index handle denote live buffers (a handle
other than "none" that names a live buffer); for a count that is not
negative this is the count being greater than 0.  The method is a function
of the object and the driver state that yields the answer only: it changes
neither. -/
theorem BufferObject.isValid_iff (self : BufferObject) (gl : GLState) :
    (self.isValid gl = true ↔
      self.mPrimNum ≠ 0 ∧ (self.mVertexBuffer ≠ 0 ∧ self.mVertexBuffer ∈ gl.buffers) ∧
        (self.mIndexBuffer ≠ 0 ∧ self.mIndexBuffer ∈ gl.buffers)) ∧
    (0 ≤ self.mPrimNum →
      (self.isValid gl = true ↔
        0 < self.mPrimNum ∧ (self.mVertexBuffer ≠ 0 ∧ self.mVertexBuffer ∈ gl.buffers) ∧
          (self.mIndexBuffer ≠ 0 ∧ self.mIndexBuffer ∈ gl.buffers))) := by
  have h : self.isValid gl = true ↔
      self.mPrimNum ≠ 0 ∧ (self.mVertexBuffer ≠ 0 ∧ self.mVertexBuffer ∈ gl.buffers) ∧
        (self.mIndexBuffer ≠ 0 ∧ self.mIndexBuffer ∈ gl.buffers) := by
    unfold BufferObject.isValid
    simp only [glIsBuffer]
    split <;> simp_all
    tauto
  refine ⟨h, fun h0 => ?_⟩
  rw [h]
  have : self.mPrimNum ≠ 0 ↔ 0 < self.mPrimNum := by omega
  rw [this]

/-- C5, witness: a valid object with 24 indices. -/
theorem BufferObject.isValid_iff_witness :
    oneBoxState.1.isValid oneBoxState.2 = true ∧ 0 < oneBoxState.1.mPrimNum := by
  have h := (BufferObject.isValid_iff oneBoxState.1 oneBoxState.2).2 (by decide)
  exact ⟨by decide, (h.1 (by decide)).1⟩

/-- C5, counterexample: after `genIndexBuffer` on a vector of `2^32 - 1`
indices the recorded count is `-1`; `isValid()` returns true although the
primitive count is not greater than 0. -/
theorem BufferObject.isValid_negative_count :
    negativeCountState.1.isValid negativeCountState.2 = true ∧
    negativeCountState.1.mPrimNum = -1 ∧ ¬ (0 < negativeCountState.1.mPrimNum) := by
  decide

/-! ### The `gen*Buffer` methods -/

theorem glIsBuffer_glDeleteBuffers (gl : GLState) (n m : GLuint) :
    glIsBuffer (glDeleteBuffers gl n) m = true ↔ glIsBuffer gl m = true ∧ m ≠ n := by
  simp [glIsBuffer, glDeleteBuffers, List.mem_filter]
  tauto

theorem glBindBuffer_buffers (gl : GLState) (t : BufferTarget) (n : GLuint) (c : Bool) :
    (glBindBuffer gl t n c).buffers =
      if n ≠ 0 ∧ n ∉ gl.buffers ∧ c = true then n :: gl.buffers else gl.buffers := by
  unfold glBindBuffer
  cases t <;> split <;> rfl

theorem glIsBuffer_glBindBuffer (gl : GLState) (t : BufferTarget) (n m : GLuint) (c : Bool) :
    glIsBuffer (glBindBuffer gl t n c) m = true ↔
      glIsBuffer gl m = true ∨ (m = n ∧ n ≠ 0 ∧ c = true) := by
  rw [glIsBuffer_iff, glIsBuffer_iff, glBindBuffer_buffers]
  by_cases hm : m = n
  · subst hm
    by_cases h0 : m = 0
    · simp [h0]
    · by_cases hc : c = true
      · by_cases hb : m ∈ gl.buffers <;> simp [h0, hc, hb]
      · simp [h0, hc]
  · split
    · simp [hm]
    · simp [hm]

theorem glIsBuffer_glBindBuffer_zero (gl : GLState) (t : BufferTarget) (m : GLuint) (c : Bool) :
    glIsBuffer (glBindBuffer gl t 0 c) m = glIsBuffer gl m := by
  cases t <;> simp [glBindBuffer, glIsBuffer]

/-- The live buffers after the generate-and-bind step of a `gen*Buffer` call. -/
theorem glIsBuffer_genBound (gl : GLState) (t : BufferTarget) (old : GLuint)
    (d : BufferAnswers) (m : GLuint) :
    glIsBuffer (genBound gl t old d) m = true ↔
      (glIsBuffer gl m = true ∧ m ≠ old) ∨ (m = d.name ∧ d.name ≠ 0 ∧ d.created = true) := by
  unfold genBound
  rw [glIsBuffer_glBindBuffer]
  by_cases h : old ≠ 0 ∧ glIsBuffer gl old = true
  · rw [if_pos h, glIsBuffer_glDeleteBuffers]
  · rw [if_neg h]
    have : glIsBuffer gl m = true → m ≠ old := by
      intro hm he
      subst he
      apply h
      exact ⟨((glIsBuffer_iff gl m).1 hm).1, hm⟩
    tauto

theorem BufferObject.handle_setHandle (self : BufferObject) (slot slot' : Slot) (h : GLuint) :
    (self.setHandle slot h).handle slot' = if slot' = slot then h else self.handle slot' := by
  cases slot <;> cases slot' <;> rfl

theorem BufferObject.mError_setHandle (self : BufferObject) (slot : Slot) (h : GLuint) :
    (self.setHandle slot h).mError = self.mError := by
  cases slot <;> rfl

theorem GenCall.handle_record {F : Type} (c : GenCall F) (self : BufferObject) (slot : Slot) :
    (c.record self).handle slot = self.handle slot := by
  cases c <;> cases slot <;> rfl

theorem GenCall.mError_record {F : Type} (c : GenCall F) (self : BufferObject) :
    (c.record self).mError = self.mError := by
  cases c <;> rfl

/-- The four `gen*Buffer` methods have one shape. -/
theorem GenCall.apply_eq_applyShape {F : Type} (c : GenCall F) (s : BufferObject × GLState) :
    c.apply s = c.applyShape s := by
  cases c <;>
    simp only [GenCall.apply, GenCall.applyShape, GenCall.slot, GenCall.answers, Slot.target,
      Slot.label, BufferObject.handle, BufferObject.setHandle, GenCall.record,
      BufferObject.genIndexBuffer, BufferObject.genVertexBuffer, BufferObject.genNormalBuffer,
      BufferObject.genColorBuffer, genBound] <;> rfl

/-- A call during which the driver creates the buffer and reports no error:
the handle of the slot is the new name, which is live, and the error log is
as before. -/
theorem GenCall.apply_ok {F : Type} (c : GenCall F) (s : BufferObject × GLState)
    (h : glIsBuffer (genBound s.2 c.slot.target (s.1.handle c.slot) c.answers)
      c.answers.name = true)
    (he : c.answers.error = GL_NO_ERROR) :
    (c.apply s).1.handle c.slot = c.answers.name ∧
    glIsBuffer (c.apply s).2 ((c.apply s).1.handle c.slot) = true ∧
    (c.apply s).1.mError = s.1.mError := by
  rw [GenCall.apply_eq_applyShape]
  unfold GenCall.applyShape
  have hn : ¬ glIsBuffer (genBound s.2 c.slot.target (s.1.handle c.slot) c.answers)
      c.answers.name = false := by simp [h]
  have he' : ¬ GL_NO_ERROR ≠ c.answers.error := fun e => e he.symm
  rw [if_neg hn, if_neg he']
  have hh : (c.record (s.1.setHandle c.slot c.answers.name)).handle c.slot = c.answers.name := by
    simp [GenCall.handle_record, BufferObject.handle_setHandle]
  refine ⟨hh, ?_, ?_⟩
  · rw [hh, glIsBuffer_glBindBuffer_zero]
    exact h
  · simp [GenCall.mError_record, BufferObject.mError_setHandle]

/-! ### C6: no buffer is leaked -/

/-- The handles and the live buffers after one `gen*Buffer` call. -/
theorem GenCall.apply_cases {F : Type} (c : GenCall F) (s : BufferObject × GLState) :
    ∃ h', (∀ slot', (c.apply s).1.handle slot' =
        if slot' = c.slot then h' else s.1.handle slot') ∧
      (h' = 0 ∨ h' = c.answers.name) ∧
      (∀ m, glIsBuffer (c.apply s).2 m = true ↔
        (m ≠ 0 ∧ m = h') ∨
        (glIsBuffer s.2 m = true ∧ m ≠ s.1.handle c.slot ∧ m ≠ c.answers.name)) := by
  rw [GenCall.apply_eq_applyShape]
  unfold GenCall.applyShape
  have hb := glIsBuffer_genBound s.2 c.slot.target (s.1.handle c.slot) c.answers
  by_cases h1 : glIsBuffer (genBound s.2 c.slot.target (s.1.handle c.slot) c.answers)
      c.answers.name = false
  · rw [if_pos h1]
    refine ⟨0, fun slot' => ?_, Or.inl rfl, fun m => ?_⟩
    · show (s.1.setHandle c.slot 0).handle slot' = _
      rw [BufferObject.handle_setHandle]
    · show glIsBuffer (genBound s.2 c.slot.target (s.1.handle c.slot) c.answers) m = true ↔ _
      constructor
      · intro hm
        have hne : m ≠ c.answers.name := by
          intro e; rw [e, h1] at hm; exact absurd hm (by decide)
        rcases (hb m).1 hm with h | h
        · exact Or.inr ⟨h.1, h.2, hne⟩
        · exact absurd h.1 hne
      · rintro (h | h)
        · exact absurd h.2 h.1
        · exact (hb m).2 (Or.inl ⟨h.1, h.2.1⟩)
  · rw [if_neg h1]
    have h1' : glIsBuffer (genBound s.2 c.slot.target (s.1.handle c.slot) c.answers)
        c.answers.name = true := by simpa using h1
    by_cases h2 : GL_NO_ERROR ≠ c.answers.error
    · rw [if_pos h2]
      refine ⟨0, fun slot' => ?_, Or.inl rfl, fun m => ?_⟩
      · show (s.1.setHandle c.slot 0).handle slot' = _
        rw [BufferObject.handle_setHandle]
      · show glIsBuffer (glDeleteBuffers (genBound s.2 c.slot.target (s.1.handle c.slot)
          c.answers) c.answers.name) m = true ↔ _
        rw [glIsBuffer_glDeleteBuffers, hb m]
        constructor
        · rintro ⟨h | h, hne⟩
          · exact Or.inr ⟨h.1, h.2, hne⟩
          · exact absurd h.1 hne
        · rintro (h | h)
          · exact absurd h.2 h.1
          · exact ⟨Or.inl ⟨h.1, h.2.1⟩, h.2.2⟩
    · rw [if_neg h2]
      have hn0 : c.answers.name ≠ 0 := ((glIsBuffer_iff _ _).1 h1').1
      refine ⟨c.answers.name, fun slot' => ?_, Or.inr rfl, fun m => ?_⟩
      · show (c.record (s.1.setHandle c.slot c.answers.name)).handle slot' = _
        rw [GenCall.handle_record, BufferObject.handle_setHandle]
      · show glIsBuffer (glBindBuffer (genBound s.2 c.slot.target (s.1.handle c.slot)
          c.answers) c.slot.target 0 true) m = true ↔ _
        rw [glIsBuffer_glBindBuffer_zero]
        constructor
        · intro hm
          by_cases hmn : m = c.answers.name
          · exact Or.inl ⟨hmn ▸ hn0, hmn⟩
          · rcases (hb m).1 hm with h | h
            · exact Or.inr ⟨h.1, h.2, hmn⟩
            · exact absurd h.1 hmn
        · rintro (h | h)
          · rw [h.2]; exact h1'
          · exact (hb m).2 (Or.inl ⟨h.1, h.2.1⟩)

/-- A `gen*Buffer` call that gets a fresh name keeps the invariant. -/
theorem GenCall.apply_noLeak {F : Type} (c : GenCall F) (gl0 : GLState)
    (s : BufferObject × GLState) (hinv : NoLeak gl0 s) (hfresh : c.fresh s) :
    NoLeak gl0 (c.apply s) := by
  obtain ⟨ha, hb, hc⟩ := hinv
  obtain ⟨h', hh, hz, hl⟩ := GenCall.apply_cases c s
  -- a live name that is handed out again is the old handle of the slot
  have hname : ∀ m, glIsBuffer s.2 m = true → m = c.answers.name → m = s.1.handle c.slot := by
    intro m hm e
    rw [e]
    exact hfresh (e ▸ ((glIsBuffer_iff _ _).1 hm).2)
  -- a live name owned by another slot is neither the old handle nor the new name
  have hother : ∀ slot, slot ≠ c.slot → s.1.handle slot ≠ 0 →
      s.1.handle slot ≠ s.1.handle c.slot ∧ s.1.handle slot ≠ c.answers.name := by
    intro slot hs h0
    have h1 := hc slot c.slot hs h0
    refine ⟨h1, fun e => h1 ?_⟩
    exact hname _ ((ha _).2 (Or.inr ⟨h0, slot, rfl⟩)) e
  have hnew : h' ≠ 0 → glIsBuffer gl0 h' = false := by
    intro h0
    rcases hz with hz | hz
    · exact absurd hz h0
    · cases hg : glIsBuffer gl0 h'
      · rfl
      · exfalso
        have hlive : glIsBuffer s.2 h' = true := (ha _).2 (Or.inl hg)
        have hold : h' = s.1.handle c.slot := hname _ hlive hz
        have := hb h' ⟨h0, c.slot, hold.symm⟩
        rw [hg] at this
        exact absurd this (by decide)
  refine ⟨fun n => ⟨fun hn => ?_, fun hn => ?_⟩, fun n hn => ?_, fun a b hab ha0 => ?_⟩
  · rcases (hl n).1 hn with h | h
    · exact Or.inr ⟨h.1, c.slot, by rw [hh, if_pos rfl, h.2]⟩
    · rcases (ha n).1 h.1 with h0 | ⟨hn0, slot, hs⟩
      · exact Or.inl h0
      · have hne : slot ≠ c.slot := fun e => h.2.1 (by rw [← hs, e])
        exact Or.inr ⟨hn0, slot, by rw [hh, if_neg hne, hs]⟩
  · rcases hn with h0 | ⟨hn0, slot, hs⟩
    · have hlive : glIsBuffer s.2 n = true := (ha n).2 (Or.inl h0)
      have hold : n ≠ s.1.handle c.slot := by
        intro e
        have := hb n ⟨((glIsBuffer_iff _ _).1 hlive).1, c.slot, e.symm⟩
        rw [h0] at this
        exact absurd this (by decide)
      exact (hl n).2 (Or.inr ⟨hlive, hold, fun e => hold (hname n hlive e)⟩)
    · rw [hh] at hs
      by_cases hsl : slot = c.slot
      · rw [if_pos hsl] at hs
        exact (hl n).2 (Or.inl ⟨hn0, hs.symm⟩)
      · rw [if_neg hsl] at hs
        have h0 : s.1.handle slot ≠ 0 := by rw [hs]; exact hn0
        have := hother slot hsl h0
        rw [hs] at this
        exact (hl n).2 (Or.inr ⟨(ha n).2 (Or.inr ⟨hn0, slot, hs⟩), this.1, this.2⟩)
  · obtain ⟨hn0, slot, hs⟩ := hn
    rw [hh] at hs
    by_cases hsl : slot = c.slot
    · rw [if_pos hsl] at hs
      rw [← hs]
      exact hnew (by rw [hs]; exact hn0)
    · rw [if_neg hsl] at hs
      exact hb n ⟨hn0, slot, hs⟩
  · rw [hh, hh] at *
    by_cases h1 : a = c.slot
    · have h2 : b ≠ c.slot := fun e => hab (h1.trans e.symm)
      rw [if_pos h1] at ha0 ⊢
      rw [if_neg h2]
      intro e
      have hb0 : s.1.handle b ≠ 0 := by rw [← e]; exact ha0
      rcases hz with hz | hz
      · exact ha0 hz
      · exact (hother b h2 hb0).2 (by rw [← e, hz])
    · rw [if_neg h1] at ha0 ⊢
      by_cases h2 : b = c.slot
      · rw [if_pos h2]
        rcases hz with hz | hz
        · rw [hz]; exact ha0
        · rw [hz]; exact (hother a h1 ha0).2
      · rw [if_neg h2]
        exact hc a b hab ha0

/-- A newly constructed object over any driver state satisfies the invariant. -/
theorem NoLeak.new (gl0 : GLState) : NoLeak gl0 (BufferObject.new, gl0) := by
  have hno : ∀ n, ¬ BufferObject.new.owns n := by
    rintro n ⟨hn0, slot, hs⟩
    cases slot <;> exact hn0 hs.symm
  refine ⟨fun n => ⟨Or.inl, ?_⟩, fun n hn => absurd hn (hno n), fun a b _ ha0 => ?_⟩
  · rintro (h | h)
    · exact h
    · exact absurd h (hno n)
  · cases a <;> exact absurd rfl ha0

/-- Every sequence of `gen*Buffer` calls with fresh names keeps the invariant. -/
theorem genCalls_noLeak {F : Type} (gl0 : GLState) (cs : List (GenCall F)) :
    ∀ s : BufferObject × GLState, NoLeak gl0 s → genCallsFresh s cs →
      NoLeak gl0 (genCalls s cs) := by
  induction cs with
  | nil => intro s h _; exact h
  | cons c cs ih =>
    intro s h hf
    exact ih (c.apply s) (GenCall.apply_noLeak c gl0 s h hf.1) hf.2

theorem genCalls_append {F : Type} (cs ds : List (GenCall F)) :
    ∀ s : BufferObject × GLState, genCalls s (cs ++ ds) = genCalls (genCalls s cs) ds := by
  induction cs with
  | nil => intro s; rfl
  | cons c cs ih => intro s; exact ih (c.apply s)

theorem genCallsFresh_append {F : Type} (cs ds : List (GenCall F)) :
    ∀ s : BufferObject × GLState, genCallsFresh s (cs ++ ds) ↔
      genCallsFresh s cs ∧ genCallsFresh (genCalls s cs) ds := by
  induction cs with
  | nil => intro s; simp [genCallsFresh, genCalls]
  | cons c cs ih =>
    intro s
    show c.fresh s ∧ genCallsFresh (c.apply s) (cs ++ ds) ↔
      (c.fresh s ∧ genCallsFresh (c.apply s) cs) ∧ genCallsFresh (genCalls (c.apply s) cs) ds
    rw [ih (c.apply s), and_assoc]

/-- A `gen*Buffer` call keeps every live buffer an initial one or one named
by a slot. -/
theorem GenCall.apply_confined {F : Type} (c : GenCall F) (gl0 : GLState)
    (s : BufferObject × GLState) (hinv : Confined gl0 s) : Confined gl0 (c.apply s) := by
  obtain ⟨h', hh, _, hl⟩ := GenCall.apply_cases c s
  intro n hn
  rcases (hl n).1 hn with h | h
  · exact Or.inr ⟨h.1, c.slot, by rw [hh, if_pos rfl, h.2]⟩
  · rcases hinv n h.1 with h0 | ⟨hn0, slot, hs⟩
    · exact Or.inl h0
    · have hne : slot ≠ c.slot := fun e => h.2.1 (by rw [← hs, e])
      exact Or.inr ⟨hn0, slot, by rw [hh, if_neg hne, hs]⟩

theorem genCalls_confined {F : Type} (gl0 : GLState) (cs : List (GenCall F)) :
    ∀ s : BufferObject × GLState, Confined gl0 s → Confined gl0 (genCalls s cs) := by
  induction cs with
  | nil => intro s h; exact h
  | cons c cs ih =>
    intro s h
    exact ih (c.apply s) (GenCall.apply_confined c gl0 s h)

/-- A call during which the driver does not create the buffer, or reports an
error on the upload, leaves the handle of the slot at 0. -/
theorem GenCall.apply_not_ok {F : Type} (c : GenCall F) (s : BufferObject × GLState)
    (h : glIsBuffer (genBound s.2 c.slot.target (s.1.handle c.slot) c.answers)
      c.answers.name = false ∨ c.answers.error ≠ GL_NO_ERROR) :
    (c.apply s).1.handle c.slot = 0 := by
  rw [GenCall.apply_eq_applyShape]
  unfold GenCall.applyShape
  by_cases h1 : glIsBuffer (genBound s.2 c.slot.target (s.1.handle c.slot) c.answers)
      c.answers.name = false
  · rw [if_pos h1]
    show (s.1.setHandle c.slot 0).handle c.slot = 0
    simp [BufferObject.handle_setHandle]
  · have he : GL_NO_ERROR ≠ c.answers.error := by
      rcases h with h | h
      · exact absurd h h1
      · exact fun e => h e.symm
    rw [if_neg h1, if_pos he]
    show (s.1.setHandle c.slot 0).handle c.slot = 0
    simp [BufferObject.handle_setHandle]

/-- C6 (as amended), over a driver in which a buffer is live from its
creation until it is deleted: for every sequence `cs` of `gen*Buffer` calls
on one `BufferObject` and every further call `c`, after `c` the slot of `c`
has at most one live buffer, the one its handle names: the handle is 0 or
names a live buffer; it is the new name when the driver creates the buffer
and reports no error, and 0 when the call fails; the buffer the slot held
before the call is destroyed; and every live buffer is one the driver state
had at the start or is named by a slot, so that no live buffer created by the
object is left unreferenced by a slot.  When the driver hands out only names
that are not in use, the live buffers are exactly those of the start and
those named by the slots, and two slots never name the same buffer. -/
theorem BufferObject.afterCalls_no_leak {F : Type} (gl0 : GLState) (cs : List (GenCall F))
    (c : GenCall F) :
    ((BufferObject.afterCalls gl0 (cs ++ [c])).1.handle c.slot ≠ 0 →
      glIsBuffer (BufferObject.afterCalls gl0 (cs ++ [c])).2
        ((BufferObject.afterCalls gl0 (cs ++ [c])).1.handle c.slot) = true) ∧
    (glIsBuffer (genBound (BufferObject.afterCalls gl0 cs).2 c.slot.target
        ((BufferObject.afterCalls gl0 cs).1.handle c.slot) c.answers) c.answers.name = true →
      c.answers.error = GL_NO_ERROR →
      (BufferObject.afterCalls gl0 (cs ++ [c])).1.handle c.slot = c.answers.name ∧
      c.answers.name ≠ 0) ∧
    (glIsBuffer (genBound (BufferObject.afterCalls gl0 cs).2 c.slot.target
        ((BufferObject.afterCalls gl0 cs).1.handle c.slot) c.answers) c.answers.name = false ∨
        c.answers.error ≠ GL_NO_ERROR →
      (BufferObject.afterCalls gl0 (cs ++ [c])).1.handle c.slot = 0) ∧
    ((BufferObject.afterCalls gl0 cs).1.handle c.slot ≠
        (BufferObject.afterCalls gl0 (cs ++ [c])).1.handle c.slot →
      glIsBuffer (BufferObject.afterCalls gl0 (cs ++ [c])).2
        ((BufferObject.afterCalls gl0 cs).1.handle c.slot) = false) ∧
    Confined gl0 (BufferObject.afterCalls gl0 (cs ++ [c])) ∧
    (genCallsFresh (BufferObject.new, gl0) (cs ++ [c]) →
      NoLeak gl0 (BufferObject.afterCalls gl0 (cs ++ [c]))) := by
  have hstep : BufferObject.afterCalls gl0 (cs ++ [c]) = c.apply (BufferObject.afterCalls gl0 cs) := by
    unfold BufferObject.afterCalls
    rw [genCalls_append]
    rfl
  have hconf : Confined gl0 (BufferObject.afterCalls gl0 (cs ++ [c])) :=
    genCalls_confined gl0 (cs ++ [c]) _ fun n hn => Or.inl hn
  obtain ⟨h', hh, _, hl⟩ := GenCall.apply_cases c (BufferObject.afterCalls gl0 cs)
  have hnew : (BufferObject.afterCalls gl0 (cs ++ [c])).1.handle c.slot = h' := by
    rw [hstep, hh, if_pos rfl]
  refine ⟨fun h0 => ?_, fun hcr he => ?_, fun hfail => ?_, fun hne => ?_, hconf, fun hfresh =>
    genCalls_noLeak gl0 (cs ++ [c]) _ (NoLeak.new gl0) hfresh⟩
  · rw [hnew] at h0 ⊢
    rw [hstep]
    exact (hl h').2 (Or.inl ⟨h0, rfl⟩)
  · rw [hstep]
    have hok := GenCall.apply_ok c _ hcr he
    refine ⟨hok.1, ?_⟩
    have := hok.2.1
    rw [hok.1] at this
    exact ((glIsBuffer_iff _ _).1 this).1
  · rw [hstep]
    exact GenCall.apply_not_ok c _ hfail
  · rw [hnew] at hne
    cases hg : glIsBuffer (BufferObject.afterCalls gl0 (cs ++ [c])).2
        ((BufferObject.afterCalls gl0 cs).1.handle c.slot)
    · rfl
    · exfalso
      rw [hstep] at hg
      rcases (hl _).1 hg with h | h
      · exact hne h.2
      · exact h.2.1 rfl

/-- C6, witness: `genVertexBuffer` called twice without failure, every name
fresh; the slot then names the second buffer, which is live, the first is
destroyed, and the state satisfies the invariant. -/
theorem BufferObject.afterCalls_no_leak_witness :
    (BufferObject.afterCalls GLState.initial repeatedCalls).1.mVertexBuffer = 2 ∧
    glIsBuffer (BufferObject.afterCalls GLState.initial repeatedCalls).2 2 = true ∧
    glIsBuffer (BufferObject.afterCalls GLState.initial repeatedCalls).2 1 = false ∧
    NoLeak GLState.initial (BufferObject.afterCalls GLState.initial repeatedCalls) := by
  have h := BufferObject.afterCalls_no_leak GLState.initial
    [GenCall.vertex (StdVector.fill 24 (0 : ℚ)) ⟨1, true, GL_NO_ERROR⟩]
    (GenCall.vertex (StdVector.fill 24 (0 : ℚ)) ⟨2, true, GL_NO_ERROR⟩)
  exact ⟨(h.2.1 (by decide) rfl).1, h.1 (by decide), h.2.2.2.1 (by decide),
    h.2.2.2.2.2 (by decide)⟩

/-- C6, counterexample: `genVertexBuffer` called twice, the driver reporting
an error on the second upload; every name was fresh, yet after the second
call the vertex slot holds 0 and no buffer at all is live: there is not
"exactly one live resource" for the slot. -/
theorem BufferObject.afterCalls_failed_upload :
    genCallsFresh (BufferObject.new, GLState.initial) failingCalls ∧
    (BufferObject.afterCalls GLState.initial failingCalls).1.mVertexBuffer = 0 ∧
    (BufferObject.afterCalls GLState.initial failingCalls).2.buffers = [] := by
  decide

/-! ### C7: failure of a `gen*Buffer` call -/

/-- C7: for each of `genIndexBuffer`, `genVertexBuffer`, `genNormalBuffer`
and `genColorBuffer` (a call `c` on the slot `c.slot`) and every prior
state: if the driver fails to create the buffer (the name is not a buffer
after `glGenBuffers` and `glBindBuffer`) or reports an error on upload, then
after the call the handle of the slot is 0, the buffer of the call is not
live, and the error log is the earlier log extended by the diagnostic of the
slot, `Unable to create <slot> buffer` resp. `Unable to upload <slot> buffer
data`, after a newline when the earlier log was not empty; if neither failure
occurs the handle names a live buffer and the error log is unchanged. -/
theorem GenCall.apply_failure {F : Type} (c : GenCall F) (s : BufferObject × GLState) :
    (glIsBuffer (genBound s.2 c.slot.target (s.1.handle c.slot) c.answers) c.answers.name = false →
      (c.apply s).1.handle c.slot = 0 ∧ glIsBuffer (c.apply s).2 c.answers.name = false ∧
      (c.apply s).1.mError =
        (if s.1.mError = "" then "Unable to create " ++ c.slot.label ++ " buffer"
         else s.1.mError ++ "\n" ++ ("Unable to create " ++ c.slot.label ++ " buffer"))) ∧
    (glIsBuffer (genBound s.2 c.slot.target (s.1.handle c.slot) c.answers) c.answers.name = true →
      c.answers.error ≠ GL_NO_ERROR →
      (c.apply s).1.handle c.slot = 0 ∧ glIsBuffer (c.apply s).2 c.answers.name = false ∧
      (c.apply s).1.mError =
        (if s.1.mError = "" then "Unable to upload " ++ c.slot.label ++ " buffer data"
         else s.1.mError ++ "\n" ++ ("Unable to upload " ++ c.slot.label ++ " buffer data"))) ∧
    (glIsBuffer (genBound s.2 c.slot.target (s.1.handle c.slot) c.answers) c.answers.name = true →
      c.answers.error = GL_NO_ERROR →
      (c.apply s).1.handle c.slot = c.answers.name ∧
      glIsBuffer (c.apply s).2 ((c.apply s).1.handle c.slot) = true ∧
      (c.apply s).1.mError = s.1.mError) := by
  refine ⟨fun h => ?_, fun h he => ?_, fun h he => GenCall.apply_ok c s h he⟩ <;>
    rw [GenCall.apply_eq_applyShape] <;> unfold GenCall.applyShape
  · rw [if_pos h]
    refine ⟨?_, h, ?_⟩
    · show (s.1.setHandle c.slot 0).handle c.slot = 0
      simp [BufferObject.handle_setHandle]
    · show appendError s.1.mError _ = _
      rw [appendError_eq]
  · have hn : ¬ glIsBuffer (genBound s.2 c.slot.target (s.1.handle c.slot) c.answers)
        c.answers.name = false := by simp [h]
    have he' : GL_NO_ERROR ≠ c.answers.error := fun e => he e.symm
    rw [if_neg hn, if_pos he']
    refine ⟨?_, ?_, ?_⟩
    · show (s.1.setHandle c.slot 0).handle c.slot = 0
      simp [BufferObject.handle_setHandle]
    · cases hb : glIsBuffer (glDeleteBuffers (genBound s.2 c.slot.target (s.1.handle c.slot)
          c.answers) c.answers.name) c.answers.name
      · rfl
      · exact absurd rfl ((glIsBuffer_glDeleteBuffers _ _ _).1 hb).2
    · show appendError s.1.mError _ = _
      rw [appendError_eq]

/-! ### C8: the bindings after `render` -/

theorem glBindBuffer_bindings (gl : GLState) (t : BufferTarget) (n : GLuint) (c : Bool) :
    (glBindBuffer gl t n c).arrayBuffer = (if t = .GL_ARRAY_BUFFER then n else gl.arrayBuffer) ∧
    (glBindBuffer gl t n c).elementArrayBuffer =
      (if t = .GL_ELEMENT_ARRAY_BUFFER then n else gl.elementArrayBuffer) ∧
    (glBindBuffer gl t n c).vertexArray = gl.vertexArray ∧
    (glBindBuffer gl t n c).colorArray = gl.colorArray ∧
    (glBindBuffer gl t n c).normalArray = gl.normalArray := by
  unfold glBindBuffer
  cases t <;> split <;> simp

theorem glEnableClientState_fields (gl : GLState) (cap : ClientArray) :
    (glEnableClientState gl cap).arrayBuffer = gl.arrayBuffer ∧
    (glEnableClientState gl cap).elementArrayBuffer = gl.elementArrayBuffer ∧
    (glEnableClientState gl cap).vertexArray = (gl.vertexArray || decide (cap = .GL_VERTEX_ARRAY)) ∧
    (glEnableClientState gl cap).colorArray = (gl.colorArray || decide (cap = .GL_COLOR_ARRAY)) ∧
    (glEnableClientState gl cap).normalArray =
      (gl.normalArray || decide (cap = .GL_NORMAL_ARRAY)) := by
  cases cap <;> simp [glEnableClientState]

theorem glDisableClientState_fields (gl : GLState) (cap : ClientArray) :
    (glDisableClientState gl cap).arrayBuffer = gl.arrayBuffer ∧
    (glDisableClientState gl cap).elementArrayBuffer = gl.elementArrayBuffer ∧
    (glDisableClientState gl cap).vertexArray =
      (gl.vertexArray && !decide (cap = .GL_VERTEX_ARRAY)) ∧
    (glDisableClientState gl cap).colorArray =
      (gl.colorArray && !decide (cap = .GL_COLOR_ARRAY)) ∧
    (glDisableClientState gl cap).normalArray =
      (gl.normalArray && !decide (cap = .GL_NORMAL_ARRAY)) := by
  cases cap <;> simp [glDisableClientState]

/-- What `render` leaves behind, for every valid object and every driver
state: both buffer targets are bound to 0 and the colour and normal arrays
are as before, but `GL_VERTEX_ARRAY` is enabled. -/
theorem BufferObject.render_bindings (self : BufferObject) (gl : GLState)
    (hv : self.isValid gl = true) :
    (self.render gl).arrayBuffer = 0 ∧ (self.render gl).elementArrayBuffer = 0 ∧
    (self.render gl).vertexArray = true ∧
    (glIsBuffer gl self.mColorBuffer = true → (self.render gl).colorArray = false) ∧
    (glIsBuffer gl self.mColorBuffer = false → (self.render gl).colorArray = gl.colorArray) ∧
    (glIsBuffer gl self.mNormalBuffer = true → (self.render gl).normalArray = false) ∧
    (glIsBuffer gl self.mNormalBuffer = false → (self.render gl).normalArray = gl.normalArray) := by
  have hnv : ¬ self.isValid gl = false := by simp [hv]
  unfold BufferObject.render
  rw [if_neg hnv]
  cases hc : glIsBuffer gl self.mColorBuffer <;> cases hn : glIsBuffer gl self.mNormalBuffer <;>
    simp [glBindBuffer_bindings, glEnableClientState_fields, glDisableClientState_fields]

/-- C8, the failing input: `oneBoxState` is a valid object over a driver
state with no array enabled and no buffer bound; after `render()` the two
buffer targets are bound to 0 and the colour and normal arrays are disabled,
but the vertex array is enabled, so the binding state is not the state
before the call. -/
theorem BufferObject.render_leaves_vertex_array :
    oneBoxState.1.isValid oneBoxState.2 = true ∧
    (oneBoxState.2.arrayBuffer = 0 ∧ oneBoxState.2.elementArrayBuffer = 0 ∧
      oneBoxState.2.vertexArray = false ∧ oneBoxState.2.colorArray = false ∧
      oneBoxState.2.normalArray = false) ∧
    ((oneBoxState.1.render oneBoxState.2).arrayBuffer = 0 ∧
      (oneBoxState.1.render oneBoxState.2).elementArrayBuffer = 0 ∧
      (oneBoxState.1.render oneBoxState.2).colorArray = false ∧
      (oneBoxState.1.render oneBoxState.2).normalArray = false) ∧
    (oneBoxState.1.render oneBoxState.2).vertexArray = true ∧
    oneBoxState.1.render oneBoxState.2 ≠ oneBoxState.2 := by
  decide

/-! ### C9: `clear` -/

theorem glIsShader_iff (gl : GLState) (n : GLuint) :
    glIsShader gl n = true ↔ n ≠ 0 ∧ n ∈ gl.shaders := by
  simp [glIsShader]

theorem glIsProgram_iff (gl : GLState) (n : GLuint) :
    glIsProgram gl n = true ↔ n ≠ 0 ∧ n ∈ gl.programs := by
  simp [glIsProgram]

/-- After `BufferObject::clear()` the object is as newly constructed. -/
theorem BufferObject.clear_buffers_fst (self : BufferObject) (gl : GLState) :
    (self.clear gl).1 = BufferObject.new := by
  unfold BufferObject.clear BufferObject.new
  by_cases h1 : self.mIndexBuffer = 0 <;> by_cases h2 : self.mVertexBuffer = 0 <;>
    by_cases h3 : self.mColorBuffer = 0 <;> by_cases h4 : self.mNormalBuffer = 0 <;>
    simp [h1, h2, h3, h4]

/-- `BufferObject::clear()` on a newly constructed object does nothing. -/
theorem BufferObject.clear_buffers_new (gl : GLState) : BufferObject.new.clear gl = (BufferObject.new, gl) :=
  rfl

/-- After `ShaderProgram::clear()` the object is as newly constructed. -/
theorem ShaderProgram.clear_program_fst (self : ShaderProgram) (gl : GLState) :
    (self.clear gl).1 = ShaderProgram.new := by
  unfold ShaderProgram.clear ShaderProgram.new
  by_cases h1 : self.mProgram = 0 <;> by_cases h2 : self.mVertShader = 0 <;>
    by_cases h3 : self.mFragShader = 0 <;> simp [h1, h2, h3]

/-- `ShaderProgram::clear()` on a newly constructed object does nothing. -/
theorem ShaderProgram.clear_program_new (gl : GLState) :
    ShaderProgram.new.clear gl = (ShaderProgram.new, gl) :=
  rfl

/-- C9: `clear()` is idempotent on both `BufferObject` and `ShaderProgram`:
from every state, after `clear()` all handles are 0, the error log is empty,
(for `BufferObject`) the primitive count is 0 and the topology is
`GL_POINTS`, and `isValid()` is false; a second `clear()` right after leaves
the object and the driver state (hence every resource) exactly as the first
left them. -/
theorem clear_idempotent (b : BufferObject) (p : ShaderProgram) (gl : GLState) :
    ((b.clear gl).1 =
        { mVertexBuffer := 0, mNormalBuffer := 0, mIndexBuffer := 0, mColorBuffer := 0,
          mPrimType := GL_POINTS, mPrimNum := 0, mError := "" } ∧
      (b.clear gl).1.isValid (b.clear gl).2 = false ∧
      (b.clear gl).1.clear (b.clear gl).2 = b.clear gl) ∧
    ((p.clear gl).1 = { mProgram := 0, mVertShader := 0, mFragShader := 0, mError := "" } ∧
      (p.clear gl).1.isValid (p.clear gl).2 = false ∧
      (p.clear gl).1.clear (p.clear gl).2 = p.clear gl) := by
  refine ⟨⟨BufferObject.clear_buffers_fst b gl, ?_, ?_⟩, ⟨ShaderProgram.clear_program_fst p gl, ?_, ?_⟩⟩
  · rw [BufferObject.clear_buffers_fst]; rfl
  · conv_lhs => rw [BufferObject.clear_buffers_fst, BufferObject.clear_buffers_new]
    rw [← BufferObject.clear_buffers_fst b gl]
  · rw [ShaderProgram.clear_program_fst]; rfl
  · conv_lhs => rw [ShaderProgram.clear_program_fst, ShaderProgram.clear_program_new]
    rw [← ShaderProgram.clear_program_fst p gl]

/-! ## Properties of ShaderProgram

### C10: failure of a `set*Shader` call -/

theorem glIsShader_glDeleteShader (gl : GLState) (n : GLuint) :
    glIsShader (glDeleteShader gl n) n = false := by
  simp [glIsShader, glDeleteShader, List.mem_filter]

theorem infoLogLength_pos_iff (log : String) : infoLogLength log > 0 ↔ log ≠ "" := by
  unfold infoLogLength
  by_cases h : log = ""
  · simp [h]
  · simp only [h, if_false]
    constructor
    · intro _; exact h
    · intro _; omega

theorem shaderUsed_of_live (gl : GLState) (old : GLuint) (d : ShaderAnswers)
    (h : glIsShader gl old = true) : shaderUsed gl old d = old := by
  have h0 : old ≠ 0 := ((glIsShader_iff gl old).1 h).1
  simp [shaderUsed, h0, h]

/-- The method `setVertShader` in terms of the shader object it compiles. -/
theorem ShaderProgram.setVertShader_eq (self : ShaderProgram) (gl : GLState) (src : String)
    (d : ShaderAnswers) :
    self.setVertShader gl src d =
      if glIsShader (shaderReady gl .GL_VERTEX_SHADER self.mVertShader d)
          (shaderUsed gl self.mVertShader d) = false then
        ({ self with mError := appendError self.mError "Unable to create vertex shader.",
                     mVertShader := 0 }, shaderReady gl .GL_VERTEX_SHADER self.mVertShader d)
      else if d.compiled = false then
        ({ self with
            mError := appendError self.mError "Unable to compile vertex shader." ++
              (if d.infoLog = "" then "" else "\n" ++ d.infoLog),
            mVertShader := 0 },
          glDeleteShader (shaderReady gl .GL_VERTEX_SHADER self.mVertShader d)
            (shaderUsed gl self.mVertShader d))
      else
        ({ self with mVertShader := shaderUsed gl self.mVertShader d },
          shaderReady gl .GL_VERTEX_SHADER self.mVertShader d) := by
  unfold ShaderProgram.setVertShader shaderReady shaderUsed
  simp only [infoLogLength_pos_iff]
  by_cases h : self.mVertShader = 0 ∨ glIsShader gl self.mVertShader = false <;>
    by_cases hl : d.infoLog = "" <;> by_cases hc : d.compiled = false <;>
    simp only [h, hl, hc, if_true, if_false, ne_eq, not_true_eq_false, not_false_eq_true] <;>
    split <;> simp [String.append_assoc]

/-- The method `setFragShader` in terms of the shader object it compiles. -/
theorem ShaderProgram.setFragShader_eq (self : ShaderProgram) (gl : GLState) (src : String)
    (d : ShaderAnswers) :
    self.setFragShader gl src d =
      if glIsShader (shaderReady gl .GL_FRAGMENT_SHADER self.mFragShader d)
          (shaderUsed gl self.mFragShader d) = false then
        ({ self with mError := appendError self.mError "Unable to create fragment shader.",
                     mFragShader := 0 }, shaderReady gl .GL_FRAGMENT_SHADER self.mFragShader d)
      else if d.compiled = false then
        ({ self with
            mError := appendError self.mError "Unable to compile fragment shader." ++
              (if d.infoLog = "" then "" else "\n" ++ d.infoLog),
            mFragShader := 0 },
          glDeleteShader (shaderReady gl .GL_FRAGMENT_SHADER self.mFragShader d)
            (shaderUsed gl self.mFragShader d))
      else
        ({ self with mFragShader := shaderUsed gl self.mFragShader d },
          shaderReady gl .GL_FRAGMENT_SHADER self.mFragShader d) := by
  unfold ShaderProgram.setFragShader shaderReady shaderUsed
  simp only [infoLogLength_pos_iff]
  by_cases h : self.mFragShader = 0 ∨ glIsShader gl self.mFragShader = false <;>
    by_cases hl : d.infoLog = "" <;> by_cases hc : d.compiled = false <;>
    simp only [h, hl, hc, if_true, if_false, ne_eq, not_true_eq_false, not_false_eq_true] <;>
    split <;> simp [String.append_assoc]

/-- C10: for `setVertShader(source)` and `setFragShader(source)` and every
prior state in which the call gets to compile (the shader object it uses
exists): if the driver reports that the compilation failed, then after the
call the shader handle of that stage is 0, the shader object used for the
compilation is deleted, and the error log is the earlier log extended (after
a newline when it was not empty) by `Unable to compile vertex shader.`
(resp. `fragment`) followed, when the info log of the driver is not empty,
by a newline and that info log; if the compilation succeeds the handle names
a live shader object, the error log is unchanged, and a shader object that
was live before the call is the one reused. -/
theorem ShaderProgram.setShader_compile (self : ShaderProgram) (gl : GLState) (src : String)
    (d : ShaderAnswers) :
    (glIsShader (shaderReady gl .GL_VERTEX_SHADER self.mVertShader d) (shaderUsed gl self.mVertShader d) = true →
      (d.compiled = false →
        (self.setVertShader gl src d).1.mVertShader = 0 ∧
        glIsShader (self.setVertShader gl src d).2 (shaderUsed gl self.mVertShader d) = false ∧
        (self.setVertShader gl src d).1.mError =
          (if self.mError = "" then "Unable to compile vertex shader."
           else self.mError ++ "\n" ++ "Unable to compile vertex shader.") ++
          (if d.infoLog = "" then "" else "\n" ++ d.infoLog)) ∧
      (d.compiled = true →
        (self.setVertShader gl src d).1.mVertShader = shaderUsed gl self.mVertShader d ∧
        glIsShader (self.setVertShader gl src d).2 (self.setVertShader gl src d).1.mVertShader = true ∧
        (self.setVertShader gl src d).1.mError = self.mError ∧
        (glIsShader gl self.mVertShader = true →
          (self.setVertShader gl src d).1.mVertShader = self.mVertShader ∧
          (self.setVertShader gl src d).2 = gl))) ∧
    (glIsShader (shaderReady gl .GL_FRAGMENT_SHADER self.mFragShader d) (shaderUsed gl self.mFragShader d) = true →
      (d.compiled = false →
        (self.setFragShader gl src d).1.mFragShader = 0 ∧
        glIsShader (self.setFragShader gl src d).2 (shaderUsed gl self.mFragShader d) = false ∧
        (self.setFragShader gl src d).1.mError =
          (if self.mError = "" then "Unable to compile fragment shader."
           else self.mError ++ "\n" ++ "Unable to compile fragment shader.") ++
          (if d.infoLog = "" then "" else "\n" ++ d.infoLog)) ∧
      (d.compiled = true →
        (self.setFragShader gl src d).1.mFragShader = shaderUsed gl self.mFragShader d ∧
        glIsShader (self.setFragShader gl src d).2 (self.setFragShader gl src d).1.mFragShader = true ∧
        (self.setFragShader gl src d).1.mError = self.mError ∧
        (glIsShader gl self.mFragShader = true →
          (self.setFragShader gl src d).1.mFragShader = self.mFragShader ∧
          (self.setFragShader gl src d).2 = gl))) := by
  refine ⟨?_, ?_⟩
  · intro hlive
    have hn : ¬ glIsShader (shaderReady gl .GL_VERTEX_SHADER self.mVertShader d)
        (shaderUsed gl self.mVertShader d) = false := by simp [hlive]
    rw [ShaderProgram.setVertShader_eq, if_neg hn]
    refine ⟨fun hc => ?_, fun hc => ?_⟩
    · rw [if_pos hc]
      refine ⟨rfl, glIsShader_glDeleteShader _ _, ?_⟩
      show appendError self.mError _ ++ _ = _
      rw [appendError_eq]
    · have hc' : ¬ d.compiled = false := by simp [hc]
      rw [if_neg hc']
      refine ⟨rfl, hlive, rfl, fun hold => ?_⟩
      have h0 : ¬ (self.mVertShader = 0 ∨ glIsShader gl self.mVertShader = false) := by
        have := ((glIsShader_iff gl self.mVertShader).1 hold).1
        simp [this, hold]
      exact ⟨shaderUsed_of_live gl _ d hold, by simp [shaderReady, h0]⟩
  · intro hlive
    have hn : ¬ glIsShader (shaderReady gl .GL_FRAGMENT_SHADER self.mFragShader d)
        (shaderUsed gl self.mFragShader d) = false := by simp [hlive]
    rw [ShaderProgram.setFragShader_eq, if_neg hn]
    refine ⟨fun hc => ?_, fun hc => ?_⟩
    · rw [if_pos hc]
      refine ⟨rfl, glIsShader_glDeleteShader _ _, ?_⟩
      show appendError self.mError _ ++ _ = _
      rw [appendError_eq]
    · have hc' : ¬ d.compiled = false := by simp [hc]
      rw [if_neg hc']
      refine ⟨rfl, hlive, rfl, fun hold => ?_⟩
      have h0 : ¬ (self.mFragShader = 0 ∨ glIsShader gl self.mFragShader = false) := by
        have := ((glIsShader_iff gl self.mFragShader).1 hold).1
        simp [this, hold]
      exact ⟨shaderUsed_of_live gl _ d hold, by simp [shaderReady, h0]⟩

/-- C10, witness: a vertex shader source that fails to compile, on a new
object; the driver hands out the shader `7` and reports one log line. -/
theorem ShaderProgram.setShader_compile_witness :
    (ShaderProgram.new.setVertShader GLState.initial "void main()" ⟨7, false, "0:1: error"⟩).1.mVertShader
        = 0 ∧
    glIsShader
      (ShaderProgram.new.setVertShader GLState.initial "void main()" ⟨7, false, "0:1: error"⟩).2 7
        = false ∧
    (ShaderProgram.new.setVertShader GLState.initial "void main()" ⟨7, false, "0:1: error"⟩).1.mError
        = "Unable to compile vertex shader.\n0:1: error" := by
  have h := ((ShaderProgram.setShader_compile ShaderProgram.new GLState.initial "void main()"
    ⟨7, false, "0:1: error"⟩).1 (by decide)).1 rfl
  exact ⟨h.1, h.2.1, by rw [h.2.2]; decide⟩

/-! ### The driver calls of `build` -/

theorem foldl_glDetachShader_fields (p : GLuint) (l : List GLuint) :
    ∀ gl : GLState,
      (l.foldl (fun g sh => glDetachShader g p sh) gl).shaders = gl.shaders ∧
      (l.foldl (fun g sh => glDetachShader g p sh) gl).programs = gl.programs ∧
      (l.foldl (fun g sh => glDetachShader g p sh) gl).buffers = gl.buffers := by
  induction l with
  | nil => intro gl; exact ⟨rfl, rfl, rfl⟩
  | cons a l ih => intro gl; exact ih (glDetachShader gl p a)

theorem programReady_shaders (gl : GLState) (old : GLuint) (d : BuildAnswers) :
    (programReady gl old d).shaders = gl.shaders := by
  unfold programReady
  split
  · unfold glCreateProgram
    split <;> rfl
  · exact (foldl_glDetachShader_fields old _ gl).1

theorem attachStage_fields (gl : GLState) (p sh : GLuint) (e : GLenum) :
    (attachStage gl p sh e).shaders = gl.shaders ∧
    (attachStage gl p sh e).programs = gl.programs := by
  unfold attachStage glAttachShader
  split
  · split <;> exact ⟨rfl, rfl⟩
  · exact ⟨rfl, rfl⟩

theorem detachStage_fields (gl : GLState) (p sh : GLuint) :
    (detachStage gl p sh).shaders = gl.shaders ∧
    (detachStage gl p sh).programs = gl.programs := by
  unfold detachStage glDetachShader
  split <;> exact ⟨rfl, rfl⟩

theorem glIsShader_congr (gl gl' : GLState) (h : gl'.shaders = gl.shaders) (n : GLuint) :
    glIsShader gl' n = glIsShader gl n := by
  simp [glIsShader, h]

theorem glIsProgram_congr (gl gl' : GLState) (h : gl'.programs = gl.programs) (n : GLuint) :
    glIsProgram gl' n = glIsProgram gl n := by
  simp [glIsProgram, h]

theorem linkState_fields (self : ShaderProgram) (gl : GLState) (d : BuildAnswers) :
    (linkState self gl d).shaders = gl.shaders ∧
    (linkState self gl d).programs = (programReady gl self.mProgram d).programs := by
  unfold linkState
  refine ⟨?_, ?_⟩
  · rw [(attachStage_fields _ _ _ _).1, (attachStage_fields _ _ _ _).1, programReady_shaders]
  · rw [(attachStage_fields _ _ _ _).2, (attachStage_fields _ _ _ _).2]

theorem glIsProgram_glDeleteProgram (gl : GLState) (p : GLuint) :
    glIsProgram (glDeleteProgram gl p) p = false := by
  simp [glIsProgram, glDeleteProgram, List.mem_filter]

theorem glDeleteProgram_attached (gl : GLState) (p sh : GLuint) :
    (p, sh) ∉ (glDeleteProgram gl p).attached := by
  simp [glDeleteProgram, List.mem_filter]

theorem glDeleteProgram_shaders (gl : GLState) (p : GLuint) :
    (glDeleteProgram gl p).shaders = gl.shaders := rfl

theorem detachStage_not_attached (gl : GLState) (p sh : GLuint) (h : glIsShader gl sh = true) :
    (p, sh) ∉ (detachStage gl p sh).attached := by
  simp [detachStage, h, glDetachShader, List.mem_filter]

theorem detachStage_subset (gl : GLState) (p sh : GLuint) (x : GLuint × GLuint)
    (h : x ∈ (detachStage gl p sh).attached) : x ∈ gl.attached := by
  unfold detachStage at h
  split at h
  · simp only [glDetachShader, List.mem_filter] at h
    exact h.1
  · exact h

theorem attachStage_superset (gl : GLState) (p sh : GLuint) (e : GLenum) (x : GLuint × GLuint)
    (h : x ∈ gl.attached) : x ∈ (attachStage gl p sh e).attached := by
  unfold attachStage glAttachShader
  split
  · split
    · exact h
    · exact List.mem_append_left _ h
  · exact h

theorem attachStage_attached (gl : GLState) (p sh : GLuint) (e : GLenum)
    (h : glIsShader gl sh = true) (he : GL_NO_ERROR = e) :
    (p, sh) ∈ (attachStage gl p sh e).attached := by
  unfold attachStage glAttachShader
  rw [if_pos h]
  by_cases hm : (p, sh) ∈ gl.attached
  · rw [if_pos (Or.inr hm)]
    exact hm
  · have : ¬ (GL_NO_ERROR ≠ e ∨ (p, sh) ∈ gl.attached) := by
      rintro (h1 | h1)
      · exact h1 he
      · exact hm h1
    rw [if_neg this]
    simp

/-- When the call gets to the link, every stage whose shader object is live
is attached to the program at that point. -/
theorem linkState_attached (self : ShaderProgram) (gl : GLState) (attributes : List String)
    (d : BuildAnswers) (h : reachesLink self gl attributes d) :
    (glIsShader gl self.mVertShader = true →
      (programUsed gl self.mProgram d, self.mVertShader) ∈ (linkState self gl d).attached) ∧
    (glIsShader gl self.mFragShader = true →
      (programUsed gl self.mProgram d, self.mFragShader) ∈ (linkState self gl d).attached) := by
  obtain ⟨_, _, h3, h4⟩ := h
  have e1 := glIsShader_congr gl _ (programReady_shaders gl self.mProgram d)
  have e2 := glIsShader_congr (programReady gl self.mProgram d) _
    (attachStage_fields (programReady gl self.mProgram d) (programUsed gl self.mProgram d)
      self.mVertShader d.attachVertError).1
  unfold linkState
  refine ⟨fun hv => ?_, fun hf => ?_⟩
  · apply attachStage_superset
    rw [← e1] at hv
    apply attachStage_attached _ _ _ _ hv
    by_contra hne
    exact h3 ⟨hv, hne⟩
  · rw [← e1, ← e2] at hf
    apply attachStage_attached _ _ _ _ hf
    by_contra hne
    exact h4 ⟨hf, hne⟩

/-- No path of `build` changes a shader handle or the set of live shader
objects. -/
theorem ShaderProgram.buildShape_shaders (self : ShaderProgram) (gl : GLState)
    (attributes : List String) (d : BuildAnswers) :
    (self.buildShape gl attributes d).1.mVertShader = self.mVertShader ∧
    (self.buildShape gl attributes d).1.mFragShader = self.mFragShader ∧
    (self.buildShape gl attributes d).2.shaders = gl.shaders := by
  have hr := programReady_shaders gl self.mProgram d
  have hl := (linkState_fields self gl d).1
  unfold ShaderProgram.buildShape
  split
  · exact ⟨rfl, rfl, hr⟩
  · split
    · exact ⟨rfl, rfl, hr⟩
    · split
      · refine ⟨rfl, rfl, ?_⟩
        rw [glDeleteProgram_shaders, (attachStage_fields _ _ _ _).1, hr]
      · split
        · refine ⟨rfl, rfl, ?_⟩
          rw [glDeleteProgram_shaders, (detachStage_fields _ _ _).1, hl]
        · split
          · refine ⟨rfl, rfl, ?_⟩
            rw [glDeleteProgram_shaders, (detachStage_fields _ _ _).1,
              (detachStage_fields _ _ _).1, hl]
          · exact ⟨rfl, rfl, hl⟩

/-! ### The method `build` -/

/-- The overload `build(attributes)` has the shape `buildShape`. -/
theorem ShaderProgram.build_attributes_eq (self : ShaderProgram) (gl : GLState)
    (attributes : List String) (d : BuildAnswers) :
    self.build_attributes gl attributes d = self.buildShape gl attributes d := by
  unfold ShaderProgram.build_attributes ShaderProgram.buildShape linkState programReady
    programUsed attachStage detachStage
  by_cases hp : self.mProgram = 0 ∨ glIsProgram gl self.mProgram = false
  · rw [if_pos hp, if_pos hp, if_pos hp]
    dsimp only
    by_cases h1 : glIsProgram (glCreateProgram gl d.name) d.name = false
    · rw [if_pos h1, if_pos h1]
    · rw [if_neg h1, if_neg h1]
      cases hb : bindAttribLoop d.bindError (List.take (wrapGLuint attributes.length) attributes) 0 with
      | some name => rfl
      | none =>
        dsimp only
        by_cases h2 : glIsShader (glCreateProgram gl d.name) self.mVertShader = true ∧ GL_NO_ERROR ≠ d.attachVertError
        · rw [if_pos h2, if_pos h2]
        · rw [if_neg h2, if_neg h2]
          by_cases h3 : glIsShader
              (if glIsShader (glCreateProgram gl d.name) self.mVertShader = true then
                glAttachShader (glCreateProgram gl d.name) d.name self.mVertShader d.attachVertError
              else (glCreateProgram gl d.name)) self.mFragShader = true ∧ GL_NO_ERROR ≠ d.attachFragError
          · rw [if_pos h3, if_pos h3]
          · rw [if_neg h3, if_neg h3]
            by_cases h4 : d.linked = false
            · rw [if_pos h4, if_pos h4]
              by_cases hi : d.infoLog = ""
              · have hn : ¬ infoLogLength d.infoLog > 0 := by
                  rw [infoLogLength_pos_iff]; simp [hi]
                rw [if_neg hn, if_pos hi, String.append_empty]
              · have hn : infoLogLength d.infoLog > 0 := by
                  rw [infoLogLength_pos_iff]; exact hi
                rw [if_pos hn, if_neg hi, String.append_assoc]
            · rw [if_neg h4, if_neg h4]
  · rw [if_neg hp, if_neg hp, if_neg hp]
    dsimp only
    by_cases h1 : glIsProgram (List.foldl (fun g sh => glDetachShader g self.mProgram sh) gl (glGetAttachedShaders gl self.mProgram)) self.mProgram = false
    · rw [if_pos h1, if_pos h1]
    · rw [if_neg h1, if_neg h1]
      cases hb : bindAttribLoop d.bindError (List.take (wrapGLuint attributes.length) attributes) 0 with
      | some name => rfl
      | none =>
        dsimp only
        by_cases h2 : glIsShader (List.foldl (fun g sh => glDetachShader g self.mProgram sh) gl (glGetAttachedShaders gl self.mProgram)) self.mVertShader = true ∧ GL_NO_ERROR ≠ d.attachVertError
        · rw [if_pos h2, if_pos h2]
        · rw [if_neg h2, if_neg h2]
          by_cases h3 : glIsShader
              (if glIsShader (List.foldl (fun g sh => glDetachShader g self.mProgram sh) gl (glGetAttachedShaders gl self.mProgram)) self.mVertShader = true then
                glAttachShader (List.foldl (fun g sh => glDetachShader g self.mProgram sh) gl (glGetAttachedShaders gl self.mProgram)) self.mProgram self.mVertShader d.attachVertError
              else (List.foldl (fun g sh => glDetachShader g self.mProgram sh) gl (glGetAttachedShaders gl self.mProgram))) self.mFragShader = true ∧ GL_NO_ERROR ≠ d.attachFragError
          · rw [if_pos h3, if_pos h3]
          · rw [if_neg h3, if_neg h3]
            by_cases h4 : d.linked = false
            · rw [if_pos h4, if_pos h4]
              by_cases hi : d.infoLog = ""
              · have hn : ¬ infoLogLength d.infoLog > 0 := by
                  rw [infoLogLength_pos_iff]; simp [hi]
                rw [if_neg hn, if_pos hi, String.append_empty]
              · have hn : infoLogLength d.infoLog > 0 := by
                  rw [infoLogLength_pos_iff]; exact hi
                rw [if_pos hn, if_neg hi, String.append_assoc]
            · rw [if_neg h4, if_neg h4]

/-- The overload `build()` has the shape `buildShape` with no attributes. -/
theorem ShaderProgram.build_eq (self : ShaderProgram) (gl : GLState) (d : BuildAnswers) :
    self.build gl d = self.buildShape gl [] d := by
  rw [← ShaderProgram.build_attributes_eq]
  rfl

/-- The traced overload `build(attributes)` is the method, with the
recorded calls of `buildCallsShape`. -/
theorem ShaderProgram.build_attributesTraced_eq (self : ShaderProgram) (gl : GLState)
    (attributes : List String) (d : BuildAnswers) :
    self.build_attributesTraced gl attributes d =
      ((self.buildShape gl attributes d).1, (self.buildShape gl attributes d).2,
        self.buildCallsShape gl attributes d) := by
  unfold ShaderProgram.build_attributesTraced ShaderProgram.buildShape
    ShaderProgram.buildCallsShape callsToLink linkState programReady programUsed programCalls
    attachStage detachStage addAttach addDetach
  by_cases hp : self.mProgram = 0 ∨ glIsProgram gl self.mProgram = false
  · repeat rw [if_pos hp]
    dsimp only
    by_cases h1 : glIsProgram (glCreateProgram gl d.name) d.name = false
    · repeat rw [if_pos h1]
    · repeat rw [if_neg h1]
      cases hb : bindAttribLoop d.bindError (List.take (wrapGLuint attributes.length) attributes) 0 with
      | some name => rfl
      | none =>
        dsimp only
        by_cases h2 : glIsShader (glCreateProgram gl d.name) self.mVertShader = true ∧ GL_NO_ERROR ≠ d.attachVertError
        · repeat rw [if_pos h2]
        · repeat rw [if_neg h2]
          by_cases h3 : glIsShader
              (if glIsShader (glCreateProgram gl d.name) self.mVertShader = true then
                glAttachShader (glCreateProgram gl d.name) d.name self.mVertShader d.attachVertError
              else (glCreateProgram gl d.name)) self.mFragShader = true ∧ GL_NO_ERROR ≠ d.attachFragError
          · repeat rw [if_pos h3]
          · repeat rw [if_neg h3]
            by_cases h4 : d.linked = false
            · repeat rw [if_pos h4]
              by_cases hi : d.infoLog = ""
              · have hn : ¬ infoLogLength d.infoLog > 0 := by
                  rw [infoLogLength_pos_iff]; simp [hi]
                rw [if_neg hn, if_pos hi, String.append_empty]
              · have hn : infoLogLength d.infoLog > 0 := by
                  rw [infoLogLength_pos_iff]; exact hi
                rw [if_pos hn, if_neg hi, String.append_assoc]
            · repeat rw [if_neg h4]
  · repeat rw [if_neg hp]
    dsimp only
    by_cases h1 : glIsProgram (List.foldl (fun g sh => glDetachShader g self.mProgram sh) gl (glGetAttachedShaders gl self.mProgram)) self.mProgram = false
    · repeat rw [if_pos h1]
    · repeat rw [if_neg h1]
      cases hb : bindAttribLoop d.bindError (List.take (wrapGLuint attributes.length) attributes) 0 with
      | some name => rfl
      | none =>
        dsimp only
        by_cases h2 : glIsShader (List.foldl (fun g sh => glDetachShader g self.mProgram sh) gl (glGetAttachedShaders gl self.mProgram)) self.mVertShader = true ∧ GL_NO_ERROR ≠ d.attachVertError
        · repeat rw [if_pos h2]
        · repeat rw [if_neg h2]
          by_cases h3 : glIsShader
              (if glIsShader (List.foldl (fun g sh => glDetachShader g self.mProgram sh) gl (glGetAttachedShaders gl self.mProgram)) self.mVertShader = true then
                glAttachShader (List.foldl (fun g sh => glDetachShader g self.mProgram sh) gl (glGetAttachedShaders gl self.mProgram)) self.mProgram self.mVertShader d.attachVertError
              else (List.foldl (fun g sh => glDetachShader g self.mProgram sh) gl (glGetAttachedShaders gl self.mProgram))) self.mFragShader = true ∧ GL_NO_ERROR ≠ d.attachFragError
          · repeat rw [if_pos h3]
          · repeat rw [if_neg h3]
            by_cases h4 : d.linked = false
            · repeat rw [if_pos h4]
              by_cases hi : d.infoLog = ""
              · have hn : ¬ infoLogLength d.infoLog > 0 := by
                  rw [infoLogLength_pos_iff]; simp [hi]
                rw [if_neg hn, if_pos hi, String.append_empty]
              · have hn : infoLogLength d.infoLog > 0 := by
                  rw [infoLogLength_pos_iff]; exact hi
                rw [if_pos hn, if_neg hi, String.append_assoc]
            · repeat rw [if_neg h4]

/-- The traced overload `build()` is the traced overload `build(attributes)`
on no attributes. -/
theorem ShaderProgram.buildTraced_eq (self : ShaderProgram) (gl : GLState) (d : BuildAnswers) :
    self.buildTraced gl d =
      ((self.buildShape gl [] d).1, (self.buildShape gl [] d).2,
        self.buildCallsShape gl [] d) := by
  rw [← ShaderProgram.build_attributesTraced_eq]
  rfl

/-- A `build` call that gets to the link and whose link fails. -/
theorem ShaderProgram.buildShape_link_failure (self : ShaderProgram) (gl : GLState)
    (attributes : List String) (d : BuildAnswers) (h : reachesLink self gl attributes d)
    (hl : d.linked = false) :
    self.buildShape gl attributes d =
      ({ self with
          mError := appendError self.mError "Unable to link shader program." ++
            (if d.infoLog = "" then "" else "\n" ++ d.infoLog),
          mProgram := 0 },
        glDeleteProgram
          (detachStage (detachStage (linkState self gl d) (programUsed gl self.mProgram d)
            self.mVertShader) (programUsed gl self.mProgram d) self.mFragShader)
          (programUsed gl self.mProgram d)) := by
  obtain ⟨h1, h2, h3, h4⟩ := h
  have h1' : ¬ glIsProgram (programReady gl self.mProgram d)
      (programUsed gl self.mProgram d) = false := by simp [h1]
  unfold ShaderProgram.buildShape
  rw [if_neg h1']
  simp only [h2]
  rw [if_neg h3, if_neg h4, if_pos hl]

/-- A `build` call that gets to the link and whose link succeeds. -/
theorem ShaderProgram.buildShape_link_success (self : ShaderProgram) (gl : GLState)
    (attributes : List String) (d : BuildAnswers) (h : reachesLink self gl attributes d)
    (hl : d.linked = true) :
    self.buildShape gl attributes d =
      ({ self with mProgram := programUsed gl self.mProgram d }, linkState self gl d) := by
  obtain ⟨h1, h2, h3, h4⟩ := h
  have h1' : ¬ glIsProgram (programReady gl self.mProgram d)
      (programUsed gl self.mProgram d) = false := by simp [h1]
  have hl' : ¬ d.linked = false := by simp [hl]
  unfold ShaderProgram.buildShape
  rw [if_neg h1']
  simp only [h2]
  rw [if_neg h3, if_neg h4, if_neg hl']

/-- A `build` call that does not get to the link leaves the program handle
at 0. -/
theorem ShaderProgram.buildShape_no_link (self : ShaderProgram) (gl : GLState)
    (attributes : List String) (d : BuildAnswers) (h : ¬ reachesLink self gl attributes d) :
    (self.buildShape gl attributes d).1.mProgram = 0 := by
  unfold ShaderProgram.buildShape
  split
  · rfl
  · rename_i h1
    split
    · rfl
    · rename_i h2
      split
      · rfl
      · rename_i h3
        split
        · rfl
        · rename_i h4
          exfalso
          exact h ⟨by simpa using h1, h2, h3, h4⟩

/-! ### C16: the two overloads of `build` -/

/-- C16: the two overloads of `ShaderProgram::build` agree on an empty
attribute list: for every `ShaderProgram` state, every driver state and the
same driver answers, `build()` and `build(attributes)` with `attributes`
empty leave the same object (program handle, shader handles, error log) and
the same driver state. -/
theorem ShaderProgram.build_attributes_nil (self : ShaderProgram) (gl : GLState)
    (d : BuildAnswers) :
    self.build_attributes gl [] d = self.build gl d ∧
    (self.build_attributes gl [] d).1.mProgram = (self.build gl d).1.mProgram ∧
    (self.build_attributes gl [] d).1.mVertShader = (self.build gl d).1.mVertShader ∧
    (self.build_attributes gl [] d).1.mFragShader = (self.build gl d).1.mFragShader ∧
    (self.build_attributes gl [] d).1.mError = (self.build gl d).1.mError ∧
    (self.build_attributes gl [] d).2 = (self.build gl d).2 := by
  have h : self.build_attributes gl [] d = self.build gl d := rfl
  rw [h]
  exact ⟨rfl, rfl, rfl, rfl, rfl, rfl⟩

/-! ### C12: link failure and link success -/

/-- The three parts of C12 for a call of shape `buildShape`. -/
theorem ShaderProgram.buildShape_link (self : ShaderProgram) (gl : GLState)
    (attributes : List String) (d : BuildAnswers) :
    ((reachesLink self gl attributes d → d.linked = false →
        (self.buildShape gl attributes d).1.mProgram = 0 ∧
        glIsProgram (self.buildShape gl attributes d).2 (programUsed gl self.mProgram d) = false ∧
        (∃ detached : GLState,
          (self.buildShape gl attributes d).2 = glDeleteProgram detached (programUsed gl self.mProgram d) ∧
          (glIsShader gl self.mVertShader = true →
            (programUsed gl self.mProgram d, self.mVertShader) ∉ detached.attached) ∧
          (glIsShader gl self.mFragShader = true →
            (programUsed gl self.mProgram d, self.mFragShader) ∉ detached.attached)) ∧
        (self.buildShape gl attributes d).1.mError =
          (if self.mError = "" then "Unable to link shader program."
           else self.mError ++ "\n" ++ "Unable to link shader program.") ++
          (if d.infoLog = "" then "" else "\n" ++ d.infoLog)) ∧
      ((self.buildShape gl attributes d).1.mVertShader = self.mVertShader ∧
        (self.buildShape gl attributes d).1.mFragShader = self.mFragShader ∧
        (self.buildShape gl attributes d).2.shaders = gl.shaders) ∧
      (reachesLink self gl attributes d → d.linked = true →
        (self.buildShape gl attributes d).1.mProgram = programUsed gl self.mProgram d ∧
        glIsProgram (self.buildShape gl attributes d).2 (self.buildShape gl attributes d).1.mProgram = true ∧
        (self.buildShape gl attributes d).1.isValid (self.buildShape gl attributes d).2 = true)) := by
  have hsh := ShaderProgram.buildShape_shaders self gl attributes d
  refine ⟨fun h hl => ?_, hsh, fun h hl => ?_⟩
  · have hlink := (linkState_fields self gl d).1
    have ed1 := (detachStage_fields (linkState self gl d) (programUsed gl self.mProgram d)
      self.mVertShader).1
    rw [ShaderProgram.buildShape_link_failure self gl attributes d h hl]
    refine ⟨rfl, glIsProgram_glDeleteProgram _ _, ⟨_, rfl, fun hv => ?_, fun hf => ?_⟩, ?_⟩
    · intro hm
      have hm' := detachStage_subset _ _ _ _ hm
      exact detachStage_not_attached _ _ _
        (by rw [glIsShader_congr gl _ hlink]; exact hv) hm'
    · exact detachStage_not_attached _ _ _
        (by rw [glIsShader_congr gl _ (ed1.trans hlink)]; exact hf)
    · show appendError self.mError _ ++ _ = _
      rw [appendError_eq]
  · rw [ShaderProgram.buildShape_link_success self gl attributes d h hl]
    have hp : glIsProgram (linkState self gl d) (programUsed gl self.mProgram d) = true := by
      rw [glIsProgram_congr _ _ (linkState_fields self gl d).2]
      exact h.1
    refine ⟨rfl, hp, ?_⟩
    have h0 : programUsed gl self.mProgram d ≠ 0 := ((glIsProgram_iff _ _).1 hp).1
    simp [ShaderProgram.isValid, h0, hp]

/-- The replay of two sequences of calls, one after the other. -/
theorem replay_append (gl : GLState) (a b : List GLCall) :
    replay gl (a ++ b) = replay (replay gl a) b := by
  simp [replay, List.foldl_append]

/-- The calls recorded up to the creation or reuse of the program lead to
the state `programReady`. -/
theorem replay_programCalls (gl : GLState) (old : GLuint) (d : BuildAnswers) :
    replay gl (programCalls gl old d) = programReady gl old d := by
  unfold programCalls programReady replay
  by_cases h : old = 0 ∨ glIsProgram gl old = false
  · rw [if_pos h, if_pos h]
    rfl
  · rw [if_neg h, if_neg h, List.foldl_map]
    rfl

/-- The replay of the recorded calls extended by an attach step. -/
theorem replay_addAttach (gl0 gl : GLState) (calls : List GLCall) (p sh : GLuint) (e : GLenum)
    (h : replay gl0 calls = gl) :
    replay gl0 (addAttach calls gl p sh e) = attachStage gl p sh e := by
  unfold addAttach attachStage
  by_cases hs : glIsShader gl sh = true
  · rw [if_pos hs, if_pos hs, replay_append, h]
    rfl
  · rw [if_neg hs, if_neg hs, h]

/-- The replay of the recorded calls extended by a detach step. -/
theorem replay_addDetach (gl0 gl : GLState) (calls : List GLCall) (p sh : GLuint)
    (h : replay gl0 calls = gl) :
    replay gl0 (addDetach calls gl p sh) = detachStage gl p sh := by
  unfold addDetach detachStage
  by_cases hs : glIsShader gl sh = true
  · rw [if_pos hs, if_pos hs, replay_append, h]
    rfl
  · rw [if_neg hs, if_neg hs, h]

/-- The calls recorded up to the link lead to the state `linkState`. -/
theorem replay_callsToLink (self : ShaderProgram) (gl : GLState) (d : BuildAnswers) :
    replay gl (callsToLink self gl d) = linkState self gl d := by
  unfold callsToLink linkState
  exact replay_addAttach _ _ _ _ _ _
    (replay_addAttach _ _ _ _ _ _ (replay_programCalls gl self.mProgram d))

/-- The replay of recorded calls followed by `glDeleteProgram`. -/
theorem replay_deleteProgram (gl0 gl : GLState) (calls : List GLCall) (p : GLuint)
    (h : replay gl0 calls = gl) :
    replay gl0 (calls ++ [GLCall.deleteProgram p]) = glDeleteProgram gl p := by
  rw [replay_append, h]
  rfl

/-- The replay of recorded calls followed by `glLinkProgram`. -/
theorem replay_linkProgram (gl0 gl : GLState) (calls : List GLCall) (p : GLuint)
    (h : replay gl0 calls = gl) :
    replay gl0 (calls ++ [GLCall.linkProgram p]) = gl := by
  rw [replay_append, h]
  rfl

/-- The recorded calls of a `build` call lead from the driver state before
the call to the driver state after it. -/
theorem ShaderProgram.replay_buildCallsShape (self : ShaderProgram) (gl : GLState)
    (attributes : List String) (d : BuildAnswers) :
    replay gl (self.buildCallsShape gl attributes d) = (self.buildShape gl attributes d).2 := by
  have hP := replay_programCalls gl self.mProgram d
  have hV := replay_addAttach gl _ _ (programUsed gl self.mProgram d) self.mVertShader
    d.attachVertError hP
  have hL := replay_callsToLink self gl d
  unfold ShaderProgram.buildCallsShape ShaderProgram.buildShape
  by_cases h1 : glIsProgram (programReady gl self.mProgram d)
      (programUsed gl self.mProgram d) = false
  · rw [if_pos h1, if_pos h1]
    exact hP
  · rw [if_neg h1, if_neg h1]
    cases hb : bindAttribLoop d.bindError (attributes.take (wrapGLuint attributes.length)) 0 with
    | some name => exact replay_deleteProgram _ _ _ _ hP
    | none =>
      dsimp only
      by_cases h3 : glIsShader (programReady gl self.mProgram d) self.mVertShader = true ∧
          GL_NO_ERROR ≠ d.attachVertError
      · rw [if_pos h3, if_pos h3]
        exact replay_deleteProgram _ _ _ _ hV
      · rw [if_neg h3, if_neg h3]
        by_cases h4 : glIsShader
            (attachStage (programReady gl self.mProgram d) (programUsed gl self.mProgram d)
              self.mVertShader d.attachVertError) self.mFragShader = true ∧
            GL_NO_ERROR ≠ d.attachFragError
        · rw [if_pos h4, if_pos h4]
          exact replay_deleteProgram _ _ _ _ (replay_addDetach _ _ _ _ _ hL)
        · rw [if_neg h4, if_neg h4]
          by_cases h5 : d.linked = false
          · rw [if_pos h5, if_pos h5]
            exact replay_deleteProgram _ _ _ _
              (replay_addDetach _ _ _ _ _
                (replay_addDetach _ _ _ _ _ (replay_linkProgram _ _ _ _ hL)))
          · rw [if_neg h5, if_neg h5]
            exact replay_linkProgram _ _ _ _ hL

/-- The recorded calls extended by a detach step, as a list. -/
theorem addDetach_eq (calls : List GLCall) (gl gl' : GLState) (p sh : GLuint)
    (h : gl'.shaders = gl.shaders) :
    addDetach calls gl' p sh =
      calls ++ (if glIsShader gl sh = true then [GLCall.detachShader p sh] else []) := by
  unfold addDetach
  rw [glIsShader_congr gl gl' h]
  by_cases hs : glIsShader gl sh = true
  · rw [if_pos hs, if_pos hs]
  · rw [if_neg hs, if_neg hs, List.append_nil]

/-- The recorded calls of a `build` call that gets to the link and whose
link fails, as the steps of the method. -/
theorem ShaderProgram.buildCallsShape_link_steps (self : ShaderProgram) (gl : GLState)
    (attributes : List String) (d : BuildAnswers) (h : reachesLink self gl attributes d)
    (hl : d.linked = false) :
    self.buildCallsShape gl attributes d =
      addDetach
          (addDetach (callsToLink self gl d ++ [GLCall.linkProgram (programUsed gl self.mProgram d)])
            (linkState self gl d) (programUsed gl self.mProgram d) self.mVertShader)
          (detachStage (linkState self gl d) (programUsed gl self.mProgram d) self.mVertShader)
          (programUsed gl self.mProgram d) self.mFragShader ++
        [GLCall.deleteProgram (programUsed gl self.mProgram d)] := by
  obtain ⟨h1, h2, h3, h4⟩ := h
  have h1' : ¬ glIsProgram (programReady gl self.mProgram d)
      (programUsed gl self.mProgram d) = false := by simp [h1]
  unfold ShaderProgram.buildCallsShape
  rw [if_neg h1']
  simp only [h2]
  rw [if_neg h3, if_neg h4, if_pos hl]

/-- The recorded calls of a `build` call that gets to the link and whose
link fails. -/
theorem ShaderProgram.buildCallsShape_link_failure (self : ShaderProgram) (gl : GLState)
    (attributes : List String) (d : BuildAnswers) (h : reachesLink self gl attributes d)
    (hl : d.linked = false) :
    self.buildCallsShape gl attributes d =
      callsToLink self gl d ++ [GLCall.linkProgram (programUsed gl self.mProgram d)] ++
        (if glIsShader gl self.mVertShader = true then
          [GLCall.detachShader (programUsed gl self.mProgram d) self.mVertShader] else []) ++
        (if glIsShader gl self.mFragShader = true then
          [GLCall.detachShader (programUsed gl self.mProgram d) self.mFragShader] else []) ++
        [GLCall.deleteProgram (programUsed gl self.mProgram d)] := by
  have hlink := (linkState_fields self gl d).1
  have ed1 := (detachStage_fields (linkState self gl d) (programUsed gl self.mProgram d)
    self.mVertShader).1
  rw [ShaderProgram.buildCallsShape_link_steps self gl attributes d h hl,
    addDetach_eq _ gl _ _ _ (ed1.trans hlink), addDetach_eq _ gl _ _ _ hlink]

/-- The part of C12 on the order of the driver calls, for a call of shape
`buildShape` with the recorded calls `buildCallsShape`. -/
theorem ShaderProgram.buildShape_detached_first (self : ShaderProgram) (gl : GLState)
    (attributes : List String) (d : BuildAnswers) (h : reachesLink self gl attributes d)
    (hl : d.linked = false) :
    self.buildCallsShape gl attributes d =
      callsToLink self gl d ++ [GLCall.linkProgram (programUsed gl self.mProgram d)] ++
        (if glIsShader gl self.mVertShader = true then
          [GLCall.detachShader (programUsed gl self.mProgram d) self.mVertShader] else []) ++
        (if glIsShader gl self.mFragShader = true then
          [GLCall.detachShader (programUsed gl self.mProgram d) self.mFragShader] else []) ++
        [GLCall.deleteProgram (programUsed gl self.mProgram d)] ∧
    replay gl (callsToLink self gl d) = linkState self gl d ∧
    (glIsShader gl self.mVertShader = true →
      (programUsed gl self.mProgram d, self.mVertShader) ∈ (linkState self gl d).attached ∧
      (programUsed gl self.mProgram d, self.mVertShader) ∉
        (replay gl (self.buildCallsShape gl attributes d).dropLast).attached) ∧
    (glIsShader gl self.mFragShader = true →
      (programUsed gl self.mProgram d, self.mFragShader) ∈ (linkState self gl d).attached ∧
      (programUsed gl self.mProgram d, self.mFragShader) ∉
        (replay gl (self.buildCallsShape gl attributes d).dropLast).attached) ∧
    (self.buildShape gl attributes d).2 =
      glDeleteProgram (replay gl (self.buildCallsShape gl attributes d).dropLast)
        (programUsed gl self.mProgram d) := by
  have hcalls := ShaderProgram.buildCallsShape_link_failure self gl attributes d h hl
  have hatt := linkState_attached self gl attributes d h
  have hL := replay_callsToLink self gl d
  have hlink := (linkState_fields self gl d).1
  have ed1 := (detachStage_fields (linkState self gl d) (programUsed gl self.mProgram d)
    self.mVertShader).1
  have hdrop : replay gl (self.buildCallsShape gl attributes d).dropLast =
      detachStage (detachStage (linkState self gl d) (programUsed gl self.mProgram d)
        self.mVertShader) (programUsed gl self.mProgram d) self.mFragShader := by
    rw [ShaderProgram.buildCallsShape_link_steps self gl attributes d h hl,
      List.dropLast_concat]
    exact replay_addDetach _ _ _ _ _
      (replay_addDetach _ _ _ _ _ (replay_linkProgram _ _ _ _ hL))
  refine ⟨hcalls, hL, fun hv => ⟨hatt.1 hv, ?_⟩, fun hf => ⟨hatt.2 hf, ?_⟩, ?_⟩
  · rw [hdrop]
    intro hm
    have hm' := detachStage_subset _ _ _ _ hm
    exact detachStage_not_attached _ _ _
      (by rw [glIsShader_congr gl _ hlink]; exact hv) hm'
  · rw [hdrop]
    exact detachStage_not_attached _ _ _
      (by rw [glIsShader_congr gl _ (ed1.trans hlink)]; exact hf)
  · rw [hdrop, ShaderProgram.buildShape_link_failure self gl attributes d h hl]

/-- A traced `build` call in terms of `buildShape` and `buildCallsShape`. -/
theorem BuildCall.applyTraced_eq (b : BuildCall) (s : ShaderProgram × GLState) :
    b.applyTraced s =
      ((s.1.buildShape s.2 b.attributeNames b.answers).1,
        (s.1.buildShape s.2 b.attributeNames b.answers).2,
        s.1.buildCallsShape s.2 b.attributeNames b.answers) := by
  cases b with
  | plain d => exact ShaderProgram.buildTraced_eq s.1 s.2 d
  | withAttributes attributes d =>
    exact ShaderProgram.build_attributesTraced_eq s.1 s.2 attributes d

/-- A `build` call of either overload in terms of `buildShape`. -/
theorem BuildCall.apply_eq_buildShape (b : BuildCall) (s : ShaderProgram × GLState) :
    b.apply s = s.1.buildShape s.2 b.attributeNames b.answers := by
  cases b with
  | plain d => exact ShaderProgram.build_eq s.1 s.2 d
  | withAttributes attributes d => exact ShaderProgram.build_attributes_eq s.1 s.2 attributes d

/-- C12: for both overloads of `ShaderProgram::build` (`b` is a call of
either, `b.apply` its effect, `b.applyTraced` the same method with the
sequence of its driver calls recorded) and every prior state `s`: the
recorded calls lead from the driver state before the call to the driver state
after it.  If the call gets to the link and the driver reports link failure,
then after the call the program handle is 0 and the program object is
deleted; the driver calls are those up to the link, `glLinkProgram`, then
`glDetachShader` for the vertex shader when it is live, `glDetachShader` for
the fragment shader when it is live, and `glDeleteProgram` last, so that each
live shader, attached to the program when it is linked, is no longer attached
in the driver state in which `glDeleteProgram` is called; and the error log
is the earlier log extended (after a newline when it was not empty) by
`Unable to link shader program.` and, when the link log of the driver is not
empty, a newline and that log.  On every path the vertex and fragment shader
handles and the live shader objects are exactly as before the call.  If the
link succeeds the program handle denotes the live program that was linked and
`isValid()` is true. -/
theorem ShaderProgram.build_link (b : BuildCall) (s : ShaderProgram × GLState) :
    ((b.applyTraced s).1 = (b.apply s).1 ∧ (b.applyTraced s).2.1 = (b.apply s).2 ∧
      replay s.2 (b.applyTraced s).2.2 = (b.apply s).2) ∧
    (reachesLink s.1 s.2 b.attributeNames b.answers → b.answers.linked = false →
      (b.apply s).1.mProgram = 0 ∧
      glIsProgram (b.apply s).2 (programUsed s.2 s.1.mProgram b.answers) = false ∧
      (b.applyTraced s).2.2 =
        callsToLink s.1 s.2 b.answers ++
          [GLCall.linkProgram (programUsed s.2 s.1.mProgram b.answers)] ++
          (if glIsShader s.2 s.1.mVertShader = true then
            [GLCall.detachShader (programUsed s.2 s.1.mProgram b.answers) s.1.mVertShader]
            else []) ++
          (if glIsShader s.2 s.1.mFragShader = true then
            [GLCall.detachShader (programUsed s.2 s.1.mProgram b.answers) s.1.mFragShader]
            else []) ++
          [GLCall.deleteProgram (programUsed s.2 s.1.mProgram b.answers)] ∧
      replay s.2 (callsToLink s.1 s.2 b.answers) = linkState s.1 s.2 b.answers ∧
      (glIsShader s.2 s.1.mVertShader = true →
        (programUsed s.2 s.1.mProgram b.answers, s.1.mVertShader) ∈
          (linkState s.1 s.2 b.answers).attached ∧
        (programUsed s.2 s.1.mProgram b.answers, s.1.mVertShader) ∉
          (replay s.2 (b.applyTraced s).2.2.dropLast).attached) ∧
      (glIsShader s.2 s.1.mFragShader = true →
        (programUsed s.2 s.1.mProgram b.answers, s.1.mFragShader) ∈
          (linkState s.1 s.2 b.answers).attached ∧
        (programUsed s.2 s.1.mProgram b.answers, s.1.mFragShader) ∉
          (replay s.2 (b.applyTraced s).2.2.dropLast).attached) ∧
      (b.apply s).2 = glDeleteProgram (replay s.2 (b.applyTraced s).2.2.dropLast)
        (programUsed s.2 s.1.mProgram b.answers) ∧
      (b.apply s).1.mError =
        (if s.1.mError = "" then "Unable to link shader program."
         else s.1.mError ++ "\n" ++ "Unable to link shader program.") ++
        (if b.answers.infoLog = "" then "" else "\n" ++ b.answers.infoLog)) ∧
    ((b.apply s).1.mVertShader = s.1.mVertShader ∧
      (b.apply s).1.mFragShader = s.1.mFragShader ∧
      (b.apply s).2.shaders = s.2.shaders) ∧
    (reachesLink s.1 s.2 b.attributeNames b.answers → b.answers.linked = true →
      (b.apply s).1.mProgram = programUsed s.2 s.1.mProgram b.answers ∧
      glIsProgram (b.apply s).2 (b.apply s).1.mProgram = true ∧
      (b.apply s).1.isValid (b.apply s).2 = true) := by
  rw [BuildCall.applyTraced_eq, BuildCall.apply_eq_buildShape]
  have hold := ShaderProgram.buildShape_link s.1 s.2 b.attributeNames b.answers
  refine ⟨⟨rfl, rfl, ShaderProgram.replay_buildCallsShape s.1 s.2 _ _⟩, fun h hl => ?_,
    hold.2.1, hold.2.2⟩
  have h1 := hold.1 h hl
  have h2 := ShaderProgram.buildShape_detached_first s.1 s.2 b.attributeNames b.answers h hl
  exact ⟨h1.1, h1.2.1, h2.1, h2.2.1, h2.2.2.1, h2.2.2.2.1, h2.2.2.2.2, h1.2.2.2⟩

/-- C12, witness: `build(attributes)` after a vertex shader `1` and a
fragment shader `2` have been compiled, with a driver that creates the
program `3`, attaches both shaders and fails to link: both shaders are
detached before the program is deleted. -/
theorem ShaderProgram.build_link_witness :
    ((BuildCall.withAttributes ["P"] linkFails).apply twoStageState).1.mProgram = 0 ∧
    glIsProgram ((BuildCall.withAttributes ["P"] linkFails).apply twoStageState).2 3 = false ∧
    ((BuildCall.withAttributes ["P"] linkFails).applyTraced twoStageState).2.2 =
      [GLCall.createProgram 3, GLCall.attachShader 3 1 GL_NO_ERROR,
        GLCall.attachShader 3 2 GL_NO_ERROR, GLCall.linkProgram 3, GLCall.detachShader 3 1,
        GLCall.detachShader 3 2, GLCall.deleteProgram 3] ∧
    ((BuildCall.withAttributes ["P"] linkFails).apply twoStageState).1.mError =
      "Unable to link shader program.\nlink error" := by
  have h := (ShaderProgram.build_link (BuildCall.withAttributes ["P"] linkFails)
    twoStageState).2.1 (by decide) rfl
  exact ⟨h.1, h.2.1, by rw [h.2.2.1]; decide, by rw [h.2.2.2.2.2.2.2]; decide⟩

/-! ### The error log -/

/-- The diagnostic idiom appends to the log: a newline when the log is not
empty, and the message. -/
theorem appendError_sep (mError msg : String) :
    appendError mError msg = mError ++ (if mError = "" then "" else "\n") ++ msg := by
  rw [appendError_eq]
  by_cases h : mError = ""
  · subst h; rfl
  · simp [h]

theorem String.append_ne_empty_left (a b : String) (h : a ≠ "") : a ++ b ≠ "" := by
  intro e
  have := congrArg String.length e
  rw [String.length_append] at this
  have ha := (String.length_pos_iff_ne_empty a).2 h
  have h0 : ("" : String).length = 0 := rfl
  omega

theorem String.append_ne_empty_right (a b : String) (h : b ≠ "") : a ++ b ≠ "" := by
  intro e
  have := congrArg String.length e
  rw [String.length_append] at this
  have hb := (String.length_pos_iff_ne_empty b).2 h
  have h0 : ("" : String).length = 0 := rfl
  omega

/-- The log after a `gen*Buffer` call, `sep` being what the diagnostic idiom
puts between the log and a message. -/
theorem GenCall.gen_log_sep {F : Type} (c : GenCall F) (s : BufferObject × GLState)
    (sep : String) (hsep : ∀ msg, appendError s.1.mError msg = s.1.mError ++ sep ++ msg) :
    (c.apply s).1.mError = s.1.mError ∨
    ∃ rest, (c.apply s).1.mError = s.1.mError ++ sep ++ "Unable to " ++ rest := by
  rw [GenCall.apply_eq_applyShape]
  unfold GenCall.applyShape
  by_cases h1 : glIsBuffer (genBound s.2 c.slot.target (s.1.handle c.slot) c.answers)
      c.answers.name = false
  · rw [if_pos h1]
    refine Or.inr ⟨"create " ++ c.slot.label ++ " buffer", ?_⟩
    show appendError s.1.mError _ = _
    rw [hsep]
    simp only [String.append_assoc]
    rfl
  · rw [if_neg h1]
    by_cases h2 : GL_NO_ERROR ≠ c.answers.error
    · rw [if_pos h2]
      refine Or.inr ⟨"upload " ++ c.slot.label ++ " buffer data", ?_⟩
      show appendError s.1.mError _ = _
      rw [hsep]
      simp only [String.append_assoc]
      rfl
    · rw [if_neg h2]
      left
      show (c.record (s.1.setHandle c.slot c.answers.name)).mError = _
      rw [GenCall.mError_record, BufferObject.mError_setHandle]

/-- The log after a `setVertShader` call. -/
theorem ShaderProgram.setVertShader_log_sep (self : ShaderProgram) (gl : GLState)
    (src : String) (d : ShaderAnswers)
    (sep : String) (hsep : ∀ msg, appendError self.mError msg = self.mError ++ sep ++ msg) :
    (self.setVertShader gl src d).1.mError = self.mError ∨
    ∃ rest, (self.setVertShader gl src d).1.mError =
      self.mError ++ sep ++ "Unable to " ++ rest := by
  rw [ShaderProgram.setVertShader_eq]
  by_cases h1 : glIsShader (shaderReady gl .GL_VERTEX_SHADER self.mVertShader d)
      (shaderUsed gl self.mVertShader d) = false
  · rw [if_pos h1]
    refine Or.inr ⟨"create vertex shader.", ?_⟩
    show appendError self.mError _ = _
    rw [hsep]
    simp only [String.append_assoc]
    rfl
  · rw [if_neg h1]
    by_cases h2 : d.compiled = false
    · rw [if_pos h2]
      refine Or.inr ⟨"compile vertex shader." ++
        (if d.infoLog = "" then "" else "\n" ++ d.infoLog), ?_⟩
      show appendError self.mError _ ++ _ = _
      rw [hsep]
      simp only [String.append_assoc]
      rfl
    · rw [if_neg h2]
      exact Or.inl rfl

/-- The log after a `setFragShader` call. -/
theorem ShaderProgram.setFragShader_log_sep (self : ShaderProgram) (gl : GLState)
    (src : String) (d : ShaderAnswers)
    (sep : String) (hsep : ∀ msg, appendError self.mError msg = self.mError ++ sep ++ msg) :
    (self.setFragShader gl src d).1.mError = self.mError ∨
    ∃ rest, (self.setFragShader gl src d).1.mError =
      self.mError ++ sep ++ "Unable to " ++ rest := by
  rw [ShaderProgram.setFragShader_eq]
  by_cases h1 : glIsShader (shaderReady gl .GL_FRAGMENT_SHADER self.mFragShader d)
      (shaderUsed gl self.mFragShader d) = false
  · rw [if_pos h1]
    refine Or.inr ⟨"create fragment shader.", ?_⟩
    show appendError self.mError _ = _
    rw [hsep]
    simp only [String.append_assoc]
    rfl
  · rw [if_neg h1]
    by_cases h2 : d.compiled = false
    · rw [if_pos h2]
      refine Or.inr ⟨"compile fragment shader." ++
        (if d.infoLog = "" then "" else "\n" ++ d.infoLog), ?_⟩
      show appendError self.mError _ ++ _ = _
      rw [hsep]
      simp only [String.append_assoc]
      rfl
    · rw [if_neg h2]
      exact Or.inl rfl

/-- The log after a `set*Shader` call. -/
theorem SetShaderCall.set_log_sep (c : SetShaderCall) (s : ShaderProgram × GLState)
    (sep : String) (hsep : ∀ msg, appendError s.1.mError msg = s.1.mError ++ sep ++ msg) :
    (c.apply s).1.mError = s.1.mError ∨
    ∃ rest, (c.apply s).1.mError = s.1.mError ++ sep ++ "Unable to " ++ rest := by
  cases c with
  | vert source d => exact ShaderProgram.setVertShader_log_sep s.1 s.2 source d sep hsep
  | frag source d => exact ShaderProgram.setFragShader_log_sep s.1 s.2 source d sep hsep

/-- The log after a call of shape `buildShape`. -/
theorem ShaderProgram.buildShape_log_sep (self : ShaderProgram) (gl : GLState)
    (attributes : List String) (d : BuildAnswers)
    (sep : String) (hsep : ∀ msg, appendError self.mError msg = self.mError ++ sep ++ msg) :
    (self.buildShape gl attributes d).1.mError = self.mError ∨
    ∃ rest, (self.buildShape gl attributes d).1.mError =
      self.mError ++ sep ++ "Unable to " ++ rest := by
  unfold ShaderProgram.buildShape
  by_cases h1 : glIsProgram (programReady gl self.mProgram d)
      (programUsed gl self.mProgram d) = false
  · rw [if_pos h1]
    refine Or.inr ⟨"create shader program.", ?_⟩
    show appendError self.mError _ = _
    rw [hsep]
    simp only [String.append_assoc]
    rfl
  · rw [if_neg h1]
    cases hb : bindAttribLoop d.bindError (attributes.take (wrapGLuint attributes.length)) 0 with
    | some name =>
      refine Or.inr ⟨"bind shader program attribute '" ++ name ++ "'.", ?_⟩
      show appendError self.mError _ ++ _ ++ _ = _
      rw [hsep]
      simp only [String.append_assoc]
      rfl
    | none =>
      dsimp only
      by_cases h3 : glIsShader (programReady gl self.mProgram d) self.mVertShader = true ∧
          GL_NO_ERROR ≠ d.attachVertError
      · rw [if_pos h3]
        refine Or.inr ⟨"attach vertex shader.", ?_⟩
        show appendError self.mError _ = _
        rw [hsep]
        simp only [String.append_assoc]
        rfl
      · rw [if_neg h3]
        by_cases h4 : glIsShader
            (attachStage (programReady gl self.mProgram d) (programUsed gl self.mProgram d)
              self.mVertShader d.attachVertError) self.mFragShader = true ∧
            GL_NO_ERROR ≠ d.attachFragError
        · rw [if_pos h4]
          refine Or.inr ⟨"attach fragment shader.", ?_⟩
          show appendError self.mError _ = _
          rw [hsep]
          simp only [String.append_assoc]
          rfl
        · rw [if_neg h4]
          by_cases h5 : d.linked = false
          · rw [if_pos h5]
            refine Or.inr ⟨"link shader program." ++
              (if d.infoLog = "" then "" else "\n" ++ d.infoLog), ?_⟩
            show appendError self.mError _ ++ _ = _
            rw [hsep]
            simp only [String.append_assoc]
            rfl
          · rw [if_neg h5]
            exact Or.inl rfl

/-- The log after a `build` call of either overload. -/
theorem BuildCall.build_log_sep (b : BuildCall) (s : ShaderProgram × GLState)
    (sep : String) (hsep : ∀ msg, appendError s.1.mError msg = s.1.mError ++ sep ++ msg) :
    (b.apply s).1.mError = s.1.mError ∨
    ∃ rest, (b.apply s).1.mError = s.1.mError ++ sep ++ "Unable to " ++ rest := by
  have e : b.apply s = s.1.buildShape s.2 b.attributeNames b.answers := by
    cases b with
    | plain d => exact ShaderProgram.build_eq s.1 s.2 d
    | withAttributes attributes d => exact ShaderProgram.build_attributes_eq s.1 s.2 attributes d
  rw [e]
  exact ShaderProgram.buildShape_log_sep s.1 s.2 b.attributeNames b.answers sep hsep

/-- A log that has grown by a diagnostic is not empty. -/
theorem log_grown_ne_empty (old sep rest : String) :
    old ++ sep ++ "Unable to " ++ rest ≠ "" :=
  String.append_ne_empty_left _ _ (String.append_ne_empty_right _ _ (by decide))

/-- No `set*Shader` call empties the log. -/
theorem SetShaderCall.set_log_ne (c : SetShaderCall) (s : ShaderProgram × GLState)
    (h : s.1.mError ≠ "") : (c.apply s).1.mError ≠ "" := by
  rcases SetShaderCall.set_log_sep c s _ (appendError_sep s.1.mError) with e | ⟨rest, e⟩
  · rw [e]; exact h
  · rw [e]; exact log_grown_ne_empty _ _ _

/-- No `build` call empties the log. -/
theorem BuildCall.build_log_ne (b : BuildCall) (s : ShaderProgram × GLState)
    (h : s.1.mError ≠ "") : (b.apply s).1.mError ≠ "" := by
  rcases BuildCall.build_log_sep b s _ (appendError_sep s.1.mError) with e | ⟨rest, e⟩
  · rw [e]; exact h
  · rw [e]; exact log_grown_ne_empty _ _ _

/-! ### C13: the error log is append-only -/

/-- C13: the error log of `BufferObject` and of `ShaderProgram` is
append-only until cleared: for every operation other than `clear()`
(`gen*Buffer`, `render`, `isValid` on a `BufferObject`; `setVertShader`,
`setFragShader`, `build` of either overload, `startShading`, `stopShading`,
`isValid` on a `ShaderProgram`) and every prior state, the log after the call
is the log before the call followed by some text, and that text is either
nothing or a diagnostic `Unable to ...` preceded by exactly one newline when
the log was not empty and by nothing when it was empty. -/
theorem error_log_append_only {F : Type} (bop : BufferOp F) (b : BufferObject × GLState)
    (sop : ShaderOp) (s : ShaderProgram × GLState) :
    ((∃ t, (bop.apply b).1.mError = b.1.mError ++ t) ∧
      ((bop.apply b).1.mError = b.1.mError ∨
        ∃ rest, (bop.apply b).1.mError =
          b.1.mError ++ (if b.1.mError = "" then "" else "\n") ++ "Unable to " ++ rest)) ∧
    ((∃ t, (sop.apply s).1.mError = s.1.mError ++ t) ∧
      ((sop.apply s).1.mError = s.1.mError ∨
        ∃ rest, (sop.apply s).1.mError =
          s.1.mError ++ (if s.1.mError = "" then "" else "\n") ++ "Unable to " ++ rest)) := by
  have hb : (bop.apply b).1.mError = b.1.mError ∨
      ∃ rest, (bop.apply b).1.mError =
        b.1.mError ++ (if b.1.mError = "" then "" else "\n") ++ "Unable to " ++ rest := by
    cases bop with
    | gen c => exact GenCall.gen_log_sep c b _ (appendError_sep b.1.mError)
    | render => exact Or.inl rfl
    | isValid => exact Or.inl rfl
  have hs : (sop.apply s).1.mError = s.1.mError ∨
      ∃ rest, (sop.apply s).1.mError =
        s.1.mError ++ (if s.1.mError = "" then "" else "\n") ++ "Unable to " ++ rest := by
    cases sop with
    | setShader c => exact SetShaderCall.set_log_sep c s _ (appendError_sep s.1.mError)
    | build c => exact BuildCall.build_log_sep c s _ (appendError_sep s.1.mError)
    | startShading => exact Or.inl rfl
    | stopShading => exact Or.inl rfl
    | isValid => exact Or.inl rfl
  refine ⟨⟨?_, hb⟩, ⟨?_, hs⟩⟩
  · rcases hb with e | ⟨rest, e⟩
    · exact ⟨"", by rw [e, String.append_empty]⟩
    · exact ⟨(if b.1.mError = "" then "" else "\n") ++ "Unable to " ++ rest, by
        rw [e]; simp only [String.append_assoc]⟩
  · rcases hs with e | ⟨rest, e⟩
    · exact ⟨"", by rw [e, String.append_empty]⟩
    · exact ⟨(if s.1.mError = "" then "" else "\n") ++ "Unable to " ++ rest, by
        rw [e]; simp only [String.append_assoc]⟩

/-! ### C11: the program after `set*Shader` calls and `build` -/

/-- A call whose compilation fails leaves a log that is not empty. -/
theorem SetShaderCall.compileFails_log (c : SetShaderCall) (s : ShaderProgram × GLState)
    (h : c.compileFails s) : (c.apply s).1.mError ≠ "" := by
  cases c with
  | vert source d =>
    obtain ⟨h1, h2⟩ := h
    have h1' : ¬ glIsShader (shaderReady s.2 .GL_VERTEX_SHADER s.1.mVertShader d)
        (shaderUsed s.2 s.1.mVertShader d) = false := by simp [h1]
    show (s.1.setVertShader s.2 source d).1.mError ≠ ""
    rw [ShaderProgram.setVertShader_eq, if_neg h1', if_pos h2]
    show appendError s.1.mError _ ++ _ ≠ ""
    rw [appendError_sep]
    exact String.append_ne_empty_left _ _ (String.append_ne_empty_right _ _ (by decide))
  | frag source d =>
    obtain ⟨h1, h2⟩ := h
    have h1' : ¬ glIsShader (shaderReady s.2 .GL_FRAGMENT_SHADER s.1.mFragShader d)
        (shaderUsed s.2 s.1.mFragShader d) = false := by simp [h1]
    show (s.1.setFragShader s.2 source d).1.mError ≠ ""
    rw [ShaderProgram.setFragShader_eq, if_neg h1', if_pos h2]
    show appendError s.1.mError _ ++ _ ≠ ""
    rw [appendError_sep]
    exact String.append_ne_empty_left _ _ (String.append_ne_empty_right _ _ (by decide))

/-- No sequence of `set*Shader` calls empties the log. -/
theorem setShaderCalls_log_ne (cs : List SetShaderCall) :
    ∀ s : ShaderProgram × GLState, s.1.mError ≠ "" → (setShaderCalls s cs).1.mError ≠ "" := by
  induction cs with
  | nil => intro s h; exact h
  | cons c cs ih => intro s h; exact ih (c.apply s) (SetShaderCall.set_log_ne c s h)

/-- After a sequence in which a compilation failed the log is not empty. -/
theorem setShaderCallsFail_log (cs : List SetShaderCall) :
    ∀ s : ShaderProgram × GLState, setShaderCallsFail s cs →
      (setShaderCalls s cs).1.mError ≠ "" := by
  induction cs with
  | nil => intro s h; exact absurd h (fun h => h)
  | cons c cs ih =>
    intro s h
    rcases h with h | h
    · exact setShaderCalls_log_ne cs (c.apply s) (SetShaderCall.compileFails_log c s h)
    · exact ih (c.apply s) h

/-- A `build` call in terms of `buildShape`. -/
theorem BuildCall.apply_eq (b : BuildCall) (s : ShaderProgram × GLState) :
    b.apply s = s.1.buildShape s.2 b.attributeNames b.answers := by
  cases b with
  | plain d => exact ShaderProgram.build_eq s.1 s.2 d
  | withAttributes attributes d => exact ShaderProgram.build_attributes_eq s.1 s.2 attributes d

/-- A program handle of 0 is not valid. -/
theorem ShaderProgram.isValid_of_zero (self : ShaderProgram) (gl : GLState)
    (h : self.mProgram = 0) : self.isValid gl = false := by
  simp [ShaderProgram.isValid, h]

/-- After a `build` call the object is valid only if the call got to the
link and the link succeeded. -/
theorem BuildCall.apply_valid (b : BuildCall) (s : ShaderProgram × GLState)
    (h : (b.apply s).1.isValid (b.apply s).2 = true) :
    reachesLink s.1 s.2 b.attributeNames b.answers ∧ b.answers.linked = true := by
  rw [BuildCall.apply_eq] at h
  by_cases hr : reachesLink s.1 s.2 b.attributeNames b.answers
  · refine ⟨hr, ?_⟩
    cases hl : b.answers.linked with
    | true => rfl
    | false =>
      rw [ShaderProgram.buildShape_link_failure s.1 s.2 _ _ hr hl,
        ShaderProgram.isValid_of_zero _ _ rfl] at h
      exact absurd h (by decide)
  · rw [ShaderProgram.isValid_of_zero _ _
      (ShaderProgram.buildShape_no_link s.1 s.2 _ _ hr)] at h
    exact absurd h (by decide)

/-- C11 (amended): for every sequence of `setVertShader` / `setFragShader`
calls followed by `build` (either overload), from every state: if the object
is valid afterwards (the program handle is live) then the link succeeded and
every stage whose shader handle is live when `build` is called is attached to
the program; if the link fails the object is not valid; and when the
compilation of one of the sources failed the error log is not empty after
`build`. -/
theorem ShaderProgram.build_valid (s : ShaderProgram × GLState) (cs : List SetShaderCall)
    (b : BuildCall) :
    ((buildAfter s cs b).1.isValid (buildAfter s cs b).2 = true →
      b.answers.linked = true ∧
      glIsProgram (buildAfter s cs b).2 (buildAfter s cs b).1.mProgram = true ∧
      (glIsShader (setShaderCalls s cs).2 (setShaderCalls s cs).1.mVertShader = true →
        ((buildAfter s cs b).1.mProgram, (setShaderCalls s cs).1.mVertShader) ∈
          (buildAfter s cs b).2.attached) ∧
      (glIsShader (setShaderCalls s cs).2 (setShaderCalls s cs).1.mFragShader = true →
        ((buildAfter s cs b).1.mProgram, (setShaderCalls s cs).1.mFragShader) ∈
          (buildAfter s cs b).2.attached)) ∧
    (b.answers.linked = false → (buildAfter s cs b).1.isValid (buildAfter s cs b).2 = false) ∧
    (setShaderCallsFail s cs → (buildAfter s cs b).1.mError ≠ "") := by
  unfold buildAfter
  refine ⟨fun h => ?_, fun hl => ?_, fun hf => ?_⟩
  · obtain ⟨hr, hl⟩ := BuildCall.apply_valid b _ h
    have ha := linkState_attached _ _ _ _ hr
    have hp : glIsProgram (b.apply (setShaderCalls s cs)).2
        (b.apply (setShaderCalls s cs)).1.mProgram = true := by
      have hv := h
      unfold ShaderProgram.isValid at hv
      by_contra hn
      rw [if_pos (Or.inr (by simpa using hn))] at hv
      exact absurd hv (by decide)
    refine ⟨hl, hp, ?_⟩
    rw [BuildCall.apply_eq,
      ShaderProgram.buildShape_link_success _ _ _ _ hr hl]
    exact ha
  · cases hv : (b.apply (setShaderCalls s cs)).1.isValid (b.apply (setShaderCalls s cs)).2 with
    | false => rfl
    | true =>
      have := (BuildCall.apply_valid b _ hv).2
      rw [hl] at this
      exact absurd this (by decide)
  · exact BuildCall.build_log_ne b _ (setShaderCallsFail_log cs s hf)

/-- C11, witness: two sources that compile, then `build()` with a driver
that links the program `3`: the object is valid, and both shaders are
attached to the program. -/
theorem ShaderProgram.build_valid_witness :
    (buildAfter (ShaderProgram.new, GLState.initial) twoStageCalls (.plain linkOk)).1.isValid
        (buildAfter (ShaderProgram.new, GLState.initial) twoStageCalls (.plain linkOk)).2 = true ∧
    (3, 1) ∈ (buildAfter (ShaderProgram.new, GLState.initial) twoStageCalls
      (.plain linkOk)).2.attached ∧
    (3, 2) ∈ (buildAfter (ShaderProgram.new, GLState.initial) twoStageCalls
      (.plain linkOk)).2.attached := by
  have h := (ShaderProgram.build_valid (ShaderProgram.new, GLState.initial) twoStageCalls
    (.plain linkOk)).1 (by decide)
  exact ⟨by decide, h.2.2.1 (by decide), h.2.2.2 (by decide)⟩

/-- C11, counterexample to the claim as stated: the vertex shader source is
malformed (its compilation fails), the fragment shader source compiles, and
the driver links the program with the fragment stage alone: after `build()`
the object is valid, although a stage that was set is not attached. -/
theorem ShaderProgram.build_valid_after_malformed :
    setShaderCallsFail (ShaderProgram.new, GLState.initial) oneStageCalls ∧
    (buildAfter (ShaderProgram.new, GLState.initial) oneStageCalls (.plain linkOk)).1.isValid
        (buildAfter (ShaderProgram.new, GLState.initial) oneStageCalls (.plain linkOk)).2 = true ∧
    (buildAfter (ShaderProgram.new, GLState.initial) oneStageCalls (.plain linkOk)).1.mProgram
        = 3 ∧
    (buildAfter (ShaderProgram.new, GLState.initial) oneStageCalls (.plain linkOk)).2.attached
        = [(3, 2)] ∧
    (buildAfter (ShaderProgram.new, GLState.initial) oneStageCalls (.plain linkOk)).1.mError
        = "Unable to compile vertex shader.\n0:1: error" := by
  decide

/-! ### C14: the element count and the topology -/

/-- Replacing a handle leaves the element count and the topology. -/
theorem BufferObject.prim_setHandle (self : BufferObject) (slot : Slot) (h : GLuint) :
    (self.setHandle slot h).mPrimNum = self.mPrimNum ∧
    (self.setHandle slot h).mPrimType = self.mPrimType := by
  cases slot <;> exact ⟨rfl, rfl⟩

/-- The element count and the topology after one `gen*Buffer` call: what
the call records when it succeeds, the earlier values when it fails. -/
theorem GenCall.apply_prim {F : Type} (c : GenCall F) (s : BufferObject × GLState) :
    (glIsBuffer (genBound s.2 c.slot.target (s.1.handle c.slot) c.answers) c.answers.name = true →
      c.answers.error = GL_NO_ERROR →
        (c.apply s).1.mPrimNum = (c.record s.1).mPrimNum ∧
        (c.apply s).1.mPrimType = (c.record s.1).mPrimType) ∧
    ((glIsBuffer (genBound s.2 c.slot.target (s.1.handle c.slot) c.answers) c.answers.name = false ∨
        c.answers.error ≠ GL_NO_ERROR) →
        (c.apply s).1.mPrimNum = s.1.mPrimNum ∧ (c.apply s).1.mPrimType = s.1.mPrimType) := by
  rw [GenCall.apply_eq_applyShape]
  unfold GenCall.applyShape
  by_cases h1 : glIsBuffer (genBound s.2 c.slot.target (s.1.handle c.slot) c.answers)
      c.answers.name = false
  · rw [if_pos h1]
    refine ⟨fun hb => ?_, fun _ => BufferObject.prim_setHandle s.1 c.slot 0⟩
    rw [h1] at hb
    exact absurd hb (by decide)
  · rw [if_neg h1]
    by_cases h2 : GL_NO_ERROR ≠ c.answers.error
    · rw [if_pos h2]
      exact ⟨fun _ he => absurd he.symm h2, fun _ => BufferObject.prim_setHandle s.1 c.slot 0⟩
    · rw [if_neg h2]
      refine ⟨fun _ _ => ?_, fun hf => ?_⟩
      · show (c.record (s.1.setHandle c.slot c.answers.name)).mPrimNum = _ ∧
          (c.record (s.1.setHandle c.slot c.answers.name)).mPrimType = _
        cases c <;> exact ⟨rfl, rfl⟩
      · rcases hf with hf | hf
        · exact absurd hf h1
        · exact absurd (fun x : GL_NO_ERROR = c.answers.error => hf x.symm) h2

/-- A call on a slot other than the index slot leaves the element count and
the topology, whether it succeeds or fails. -/
theorem GenCall.apply_prim_other {F : Type} (c : GenCall F) (s : BufferObject × GLState)
    (hs : c.slot ≠ .index) :
    (c.apply s).1.mPrimNum = s.1.mPrimNum ∧ (c.apply s).1.mPrimType = s.1.mPrimType := by
  have hrec : c.record s.1 = s.1 := by
    cases c with
    | index v primType d => exact absurd rfl hs
    | vertex v d => rfl
    | normal v d => rfl
    | color v d => rfl
  by_cases h : glIsBuffer (genBound s.2 c.slot.target (s.1.handle c.slot) c.answers)
      c.answers.name = true ∧ c.answers.error = GL_NO_ERROR
  · have := (GenCall.apply_prim c s).1 h.1 h.2
    rw [hrec] at this
    exact this
  · apply (GenCall.apply_prim c s).2
    by_cases h1 : glIsBuffer (genBound s.2 c.slot.target (s.1.handle c.slot) c.answers)
        c.answers.name = true
    · exact Or.inr (fun he => h ⟨h1, he⟩)
    · exact Or.inl (by simpa using h1)

/-- A call leaves the handles of the other slots. -/
theorem GenCall.apply_handle_other {F : Type} (c : GenCall F) (s : BufferObject × GLState)
    (slot : Slot) (hs : slot ≠ c.slot) : (c.apply s).1.handle slot = s.1.handle slot := by
  obtain ⟨h', hh, _, _⟩ := GenCall.apply_cases c s
  rw [hh slot, if_neg hs]

/-- The fields `genVertexBuffer` leaves as they are. -/
theorem BufferObject.genVertexBuffer_frame {F : Type} (self : BufferObject) (gl : GLState)
    (v : StdVector F) (d : BufferAnswers) :
    (self.genVertexBuffer gl v d).1.mPrimNum = self.mPrimNum ∧
    (self.genVertexBuffer gl v d).1.mPrimType = self.mPrimType ∧
    (self.genVertexBuffer gl v d).1.mIndexBuffer = self.mIndexBuffer ∧
    (self.genVertexBuffer gl v d).1.mNormalBuffer = self.mNormalBuffer ∧
    (self.genVertexBuffer gl v d).1.mColorBuffer = self.mColorBuffer :=
  ⟨(GenCall.apply_prim_other (.vertex v d) (self, gl) (fun h => Slot.noConfusion h)).1,
    (GenCall.apply_prim_other (.vertex v d) (self, gl) (fun h => Slot.noConfusion h)).2,
    GenCall.apply_handle_other (.vertex v d) (self, gl) .index (fun h => Slot.noConfusion h),
    GenCall.apply_handle_other (.vertex v d) (self, gl) .normal (fun h => Slot.noConfusion h),
    GenCall.apply_handle_other (.vertex v d) (self, gl) .color (fun h => Slot.noConfusion h)⟩

/-- The fields `genNormalBuffer` leaves as they are. -/
theorem BufferObject.genNormalBuffer_frame {F : Type} (self : BufferObject) (gl : GLState)
    (v : StdVector F) (d : BufferAnswers) :
    (self.genNormalBuffer gl v d).1.mPrimNum = self.mPrimNum ∧
    (self.genNormalBuffer gl v d).1.mPrimType = self.mPrimType ∧
    (self.genNormalBuffer gl v d).1.mIndexBuffer = self.mIndexBuffer ∧
    (self.genNormalBuffer gl v d).1.mVertexBuffer = self.mVertexBuffer ∧
    (self.genNormalBuffer gl v d).1.mColorBuffer = self.mColorBuffer :=
  ⟨(GenCall.apply_prim_other (.normal v d) (self, gl) (fun h => Slot.noConfusion h)).1,
    (GenCall.apply_prim_other (.normal v d) (self, gl) (fun h => Slot.noConfusion h)).2,
    GenCall.apply_handle_other (.normal v d) (self, gl) .index (fun h => Slot.noConfusion h),
    GenCall.apply_handle_other (.normal v d) (self, gl) .vertex (fun h => Slot.noConfusion h),
    GenCall.apply_handle_other (.normal v d) (self, gl) .color (fun h => Slot.noConfusion h)⟩

/-- The fields `genColorBuffer` leaves as they are. -/
theorem BufferObject.genColorBuffer_frame {F : Type} (self : BufferObject) (gl : GLState)
    (v : StdVector F) (d : BufferAnswers) :
    (self.genColorBuffer gl v d).1.mPrimNum = self.mPrimNum ∧
    (self.genColorBuffer gl v d).1.mPrimType = self.mPrimType ∧
    (self.genColorBuffer gl v d).1.mIndexBuffer = self.mIndexBuffer ∧
    (self.genColorBuffer gl v d).1.mVertexBuffer = self.mVertexBuffer ∧
    (self.genColorBuffer gl v d).1.mNormalBuffer = self.mNormalBuffer :=
  ⟨(GenCall.apply_prim_other (.color v d) (self, gl) (fun h => Slot.noConfusion h)).1,
    (GenCall.apply_prim_other (.color v d) (self, gl) (fun h => Slot.noConfusion h)).2,
    GenCall.apply_handle_other (.color v d) (self, gl) .index (fun h => Slot.noConfusion h),
    GenCall.apply_handle_other (.color v d) (self, gl) .vertex (fun h => Slot.noConfusion h),
    GenCall.apply_handle_other (.color v d) (self, gl) .normal (fun h => Slot.noConfusion h)⟩

/-- The conversion to `GLsizei` keeps a value below `2^31`. -/
theorem toGLsizei_of_lt (n : Nat) (h : n < 2147483648) : toGLsizei n = (n : Int) := by
  unfold toGLsizei
  have e : n % 4294967296 = n := Nat.mod_eq_of_lt (by omega)
  rw [e, if_pos h]

/-- C14 (amended): `genIndexBuffer(indices, topology)`, when it succeeds (the
driver creates the buffer and reports no upload error), records the topology
tag and, as the element count, the length of `indices` converted to
`GLsizei`, which is the length when that is below `2^31`; when it fails it
leaves both fields as they are; and `genVertexBuffer`, `genNormalBuffer` and
`genColorBuffer`, whether they succeed or fail, leave the element count, the
topology and the handles of the other three slots unchanged. -/
theorem BufferObject.genIndexBuffer_records {F : Type} (self : BufferObject) (gl : GLState)
    (indices : StdVector GLuint) (topology : GLenum) (d : BufferAnswers)
    (v : StdVector F) (e : BufferAnswers) :
    (glIsBuffer (genBound gl .GL_ELEMENT_ARRAY_BUFFER self.mIndexBuffer d) d.name = true →
      d.error = GL_NO_ERROR →
        (self.genIndexBuffer gl indices topology d).1.mPrimNum = toGLsizei indices.size ∧
        (indices.size < 2147483648 →
          (self.genIndexBuffer gl indices topology d).1.mPrimNum = (indices.size : Int)) ∧
        (self.genIndexBuffer gl indices topology d).1.mPrimType = topology) ∧
    ((glIsBuffer (genBound gl .GL_ELEMENT_ARRAY_BUFFER self.mIndexBuffer d) d.name = false ∨
        d.error ≠ GL_NO_ERROR) →
        (self.genIndexBuffer gl indices topology d).1.mPrimNum = self.mPrimNum ∧
        (self.genIndexBuffer gl indices topology d).1.mPrimType = self.mPrimType) ∧
    ((self.genVertexBuffer gl v e).1.mPrimNum = self.mPrimNum ∧
      (self.genVertexBuffer gl v e).1.mPrimType = self.mPrimType ∧
      (self.genVertexBuffer gl v e).1.mIndexBuffer = self.mIndexBuffer ∧
      (self.genVertexBuffer gl v e).1.mNormalBuffer = self.mNormalBuffer ∧
      (self.genVertexBuffer gl v e).1.mColorBuffer = self.mColorBuffer) ∧
    ((self.genNormalBuffer gl v e).1.mPrimNum = self.mPrimNum ∧
      (self.genNormalBuffer gl v e).1.mPrimType = self.mPrimType ∧
      (self.genNormalBuffer gl v e).1.mIndexBuffer = self.mIndexBuffer ∧
      (self.genNormalBuffer gl v e).1.mVertexBuffer = self.mVertexBuffer ∧
      (self.genNormalBuffer gl v e).1.mColorBuffer = self.mColorBuffer) ∧
    ((self.genColorBuffer gl v e).1.mPrimNum = self.mPrimNum ∧
      (self.genColorBuffer gl v e).1.mPrimType = self.mPrimType ∧
      (self.genColorBuffer gl v e).1.mIndexBuffer = self.mIndexBuffer ∧
      (self.genColorBuffer gl v e).1.mVertexBuffer = self.mVertexBuffer ∧
      (self.genColorBuffer gl v e).1.mNormalBuffer = self.mNormalBuffer) := by
  have hp := GenCall.apply_prim (GenCall.index indices topology d : GenCall F) (self, gl)
  refine ⟨fun hb he => ?_, fun hf => hp.2 hf, BufferObject.genVertexBuffer_frame self gl v e,
    BufferObject.genNormalBuffer_frame self gl v e, BufferObject.genColorBuffer_frame self gl v e⟩
  have hrec : (self.genIndexBuffer gl indices topology d).1.mPrimNum = toGLsizei indices.size ∧
      (self.genIndexBuffer gl indices topology d).1.mPrimType = topology := hp.1 hb he
  exact ⟨hrec.1, fun hlt => by rw [hrec.1, toGLsizei_of_lt _ hlt], hrec.2⟩

/-- C14, witness: `genIndexBuffer` on 24 indices with topology `GL_LINES` on
a new object, the driver creating the buffer `1` without error. -/
theorem BufferObject.genIndexBuffer_records_witness :
    (BufferObject.new.genIndexBuffer GLState.initial (StdVector.fill 24 (0 : GLuint)) GL_LINES
      ⟨1, true, GL_NO_ERROR⟩).1.mPrimNum = 24 ∧
    (BufferObject.new.genIndexBuffer GLState.initial (StdVector.fill 24 (0 : GLuint)) GL_LINES
      ⟨1, true, GL_NO_ERROR⟩).1.mPrimType = GL_LINES := by
  have h := (BufferObject.genIndexBuffer_records BufferObject.new GLState.initial
    (StdVector.fill 24 (0 : GLuint)) GL_LINES ⟨1, true, GL_NO_ERROR⟩
    (StdVector.fill 0 (0 : ℚ)) ⟨2, true, GL_NO_ERROR⟩).1 (by decide) rfl
  exact ⟨h.2.1 (by decide), h.2.2⟩

/-- C14, counterexample to the claim as stated: `genIndexBuffer` on `2^31`
indices succeeds and records the count `-2^31`, not the length of
`indices`. -/
theorem BufferObject.genIndexBuffer_count_wraps :
    (StdVector.fill 2147483648 (0 : GLuint)).size = 2147483648 ∧
    glIsBuffer (BufferObject.new.genIndexBuffer GLState.initial
      (StdVector.fill 2147483648 (0 : GLuint)) GL_LINES ⟨1, true, GL_NO_ERROR⟩).2 1 = true ∧
    (BufferObject.new.genIndexBuffer GLState.initial
      (StdVector.fill 2147483648 (0 : GLuint)) GL_LINES ⟨1, true, GL_NO_ERROR⟩).1.mIndexBuffer
        = 1 ∧
    (BufferObject.new.genIndexBuffer GLState.initial
      (StdVector.fill 2147483648 (0 : GLuint)) GL_LINES ⟨1, true, GL_NO_ERROR⟩).1.mPrimNum
        = -2147483648 := by
  decide

/-! ### C15: the edge list is the wireframe of the box -/

/-- The values stored into `mPoints` are the coordinates of the transformed
corner points. -/
theorem pointValues_eq_cornerPoints {F : Type} (cast : ℚ → F) (xform : Vec3d → Vec3d)
    (bbox : CoordBBox) :
    pointValues cast xform bbox =
      (cornerPoints bbox).flatMap
        (fun p => [cast (xform p).x, cast (xform p).y, cast (xform p).z]) := rfl

/-- The values stored into `mIndices` are the index pairs, one after the
other. -/
theorem edgeValues_eq_edgePairs (i : Nat) :
    edgeValues (wrapGLuint (i * 8)) = (edgePairs i).flatMap (fun e => [e.1, e.2]) := rfl

/-- The index pairs of box `i` are the twelve pairs of `add` over the first
index `ptnCount` of the box. -/
theorem edgePairs_eq (i : Nat) :
    edgePairs i =
      [(0, 1), (1, 2), (2, 3), (3, 0), (4, 5), (5, 6), (6, 7), (7, 4), (0, 4), (1, 5),
        (2, 6), (3, 7)].map
        (fun e : Nat × Nat => (wrapGLuint (i * 8) + e.1, wrapGLuint (i * 8) + e.2)) := by
  have h (k : Nat) (hk : k ≤ 7) :
      wrapGLuint (wrapGLuint (i * 8) + k) = wrapGLuint (i * 8) + k := by
    unfold wrapGLuint; omega
  simp [edgePairs, edgeValues, pairUp, h]

/-- Among the corners of a box with `min` and `max` different on every axis,
two differ in exactly one coordinate exactly when `add` joins them. -/
theorem boxCorners_adjacent (min max : Vec3d) (hx : min.x ≠ max.x) (hy : min.y ≠ max.y)
    (hz : min.z ≠ max.z) (k l : Nat) (hk : k < 8) (hl : l < 8) :
    ((boxCorners min max).getD k ⟨0, 0, 0⟩).differInOne ((boxCorners min max).getD l ⟨0, 0, 0⟩) ↔
      ((k, l) ∈ [(0, 1), (1, 2), (2, 3), (3, 0), (4, 5), (5, 6), (6, 7), (7, 4), (0, 4), (1, 5),
        (2, 6), (3, 7)] ∨
       (l, k) ∈ [(0, 1), (1, 2), (2, 3), (3, 0), (4, 5), (5, 6), (6, 7), (7, 4), (0, 4), (1, 5),
        (2, 6), (3, 7)]) := by
  obtain ⟨a, b, c⟩ := min
  obtain ⟨a', b', c'⟩ := max
  simp only at hx hy hz
  have hx' := Ne.symm hx
  have hy' := Ne.symm hy
  have hz' := Ne.symm hz
  interval_cases k <;> interval_cases l <;>
    simp [boxCorners, Vec3d.differInOne, hx, hy, hz, hx', hy', hz', Prod.ext_iff]

/-- Membership in the index pairs of box `i`. -/
theorem mem_edgePairs (i k l : Nat) :
    (wrapGLuint (i * 8) + k, wrapGLuint (i * 8) + l) ∈ edgePairs i ↔
      (k, l) ∈ [(0, 1), (1, 2), (2, 3), (3, 0), (4, 5), (5, 6), (6, 7), (7, 4), (0, 4), (1, 5),
        (2, 6), (3, 7)] := by
  rw [edgePairs_eq i, List.mem_map]
  constructor
  · rintro ⟨⟨k', l'⟩, hmem, he⟩
    simp only [Prod.mk.injEq, Nat.add_left_cancel_iff] at he
    obtain ⟨rfl, rfl⟩ := he
    exact hmem
  · intro h
    exact ⟨(k, l), h, rfl⟩

/-- C15: the edge list written by `WireBoxBuilder::add` is the wireframe of
the box it writes.  For every box index `i` and every `bbox` whose expanded
`min` is strictly below its expanded `max` on every axis, with `ptnCount` the
first point index `boxIndex * 8` of the call: the 12 index pairs `add` stores
(`edgePairs i`; when the slices of box `i` fit, `add` succeeds, the index
slice holds these pairs and the position slice the 8 transformed corner
points) each join two corners `ptnCount + k`, `ptnCount + l` (`k, l < 8`)
whose points before the transform differ in exactly one coordinate; the 12
unordered pairs are pairwise distinct; every corner is an endpoint of exactly
3 pairs; and two corners differ in exactly one coordinate exactly when a pair
joins them, so the pairs are the 12 edges of the axis-aligned box. -/
theorem WireBoxBuilder.add_wireframe {F : Type} (cast : ℚ → F) (self : WireBoxBuilder F)
    (i : Nat) (bbox : CoordBBox) (color : Vec3s F)
    (hx : (expandedMin bbox).x < (expandedMax bbox).x)
    (hy : (expandedMin bbox).y < (expandedMax bbox).y)
    (hz : (expandedMin bbox).z < (expandedMax bbox).z) :
    (24 * i + 23 < 4294967296 → 24 * (i + 1) ≤ self.mIndices.size →
      24 * (i + 1) ≤ self.mPoints.size → 24 * (i + 1) ≤ self.mColors.size →
      ∃ s', self.add cast i bbox color = some s' ∧
        s'.mIndices.slice (24 * i) 24 = (edgePairs i).flatMap (fun e => [e.1, e.2]) ∧
        s'.mPoints.slice (24 * i) 24 = (cornerPoints bbox).flatMap
          (fun p => [cast (self.mXForm p).x, cast (self.mXForm p).y, cast (self.mXForm p).z])) ∧
    (edgePairs i).length = 12 ∧ (cornerPoints bbox).length = 8 ∧
    (∀ e ∈ edgePairs i, ∃ k l, k < 8 ∧ l < 8 ∧
      e = (wrapGLuint (i * 8) + k, wrapGLuint (i * 8) + l) ∧
      (cornerPoint bbox k).differInOne (cornerPoint bbox l)) ∧
    (edgePairs i).Pairwise (fun e f => e ≠ f ∧ e ≠ (f.2, f.1)) ∧
    (∀ k, k < 8 →
      ((edgePairs i).filter
        (fun e => e.1 = wrapGLuint (i * 8) + k ∨ e.2 = wrapGLuint (i * 8) + k)).length = 3) ∧
    (∀ k l, k < 8 → l < 8 →
      ((cornerPoint bbox k).differInOne (cornerPoint bbox l) ↔
        ((wrapGLuint (i * 8) + k, wrapGLuint (i * 8) + l) ∈ edgePairs i ∨
          (wrapGLuint (i * 8) + l, wrapGLuint (i * 8) + k) ∈ edgePairs i))) := by
  have hadj := boxCorners_adjacent (expandedMin bbox) (expandedMax bbox) (ne_of_lt hx)
    (ne_of_lt hy) (ne_of_lt hz)
  have hbound : ∀ p ∈ [(0, 1), (1, 2), (2, 3), (3, 0), (4, 5), (5, 6), (6, 7), (7, 4), (0, 4),
      (1, 5), (2, 6), (3, 7)], p.1 < 8 ∧ p.2 < 8 := by decide
  refine ⟨fun hi hE hP hC => ?_, ?_, rfl, ?_, ?_, ?_, ?_⟩
  · obtain ⟨s', h, _, _, _, _, _, h1, h2, _⟩ :=
      WireBoxBuilder.add_effect cast self i bbox color hi hE hP hC
    exact ⟨s', h, by rw [h1, edgeValues_eq_edgePairs], by rw [h2, pointValues_eq_cornerPoints]⟩
  · rw [edgePairs_eq i]
    rfl
  · intro e he
    rw [edgePairs_eq i, List.mem_map] at he
    obtain ⟨⟨k, l⟩, hmem, rfl⟩ := he
    have hb := hbound (k, l) hmem
    exact ⟨k, l, hb.1, hb.2, rfl, (hadj k l hb.1 hb.2).2 (Or.inl hmem)⟩
  · rw [edgePairs_eq i, List.pairwise_map]
    have hp : [(0, 1), (1, 2), (2, 3), (3, 0), (4, 5), (5, 6), (6, 7), (7, 4), (0, 4),
        (1, 5), (2, 6), (3, 7)].Pairwise
        (fun e f : Nat × Nat => e ≠ f ∧ e ≠ (f.2, f.1)) := by decide
    refine hp.imp ?_
    rintro ⟨a, b⟩ ⟨c, d⟩ ⟨h1, h2⟩
    simp only [ne_eq, Prod.mk.injEq, Nat.add_left_cancel_iff] at h1 h2 ⊢
    exact ⟨h1, h2⟩
  · intro k hk
    rw [edgePairs_eq i, List.filter_map, List.length_map]
    have hf : ∀ k, k < 8 → ([(0, 1), (1, 2), (2, 3), (3, 0), (4, 5), (5, 6), (6, 7), (7, 4),
        (0, 4), (1, 5), (2, 6), (3, 7)].filter
          (fun e : Nat × Nat => e.1 = k ∨ e.2 = k)).length = 3 := by decide
    refine Eq.trans ?_ (hf k hk)
    congr 1
    apply List.filter_congr
    intro e _
    simp [Nat.add_left_cancel_iff]
  · intro k l hk hl
    rw [mem_edgePairs, mem_edgePairs]
    exact hadj k l hk hl

/-- C15, witness: box 1 of a two-box builder, for the box from `(0,0,0)` to
`(1,1,1)`: `add` succeeds, the first edge joins the corners 8 and 9, whose
points `(-1/2,-1/2,-1/2)` and `(-1/2,-1/2,3/2)` differ in the third
coordinate only, and corner 8 is an endpoint of 3 edges. -/
theorem WireBoxBuilder.add_wireframe_witness :
    (∃ s', twoBoxBuilder.add id 1 unitBBox red = some s') ∧
    edgePairs 1 = [(8, 9), (9, 10), (10, 11), (11, 8), (12, 13), (13, 14), (14, 15), (15, 12),
      (8, 12), (9, 13), (10, 14), (11, 15)] ∧
    (cornerPoint unitBBox 0).differInOne (cornerPoint unitBBox 1) ∧
    ((edgePairs 1).filter
      (fun e => e.1 = wrapGLuint (1 * 8) + 0 ∨ e.2 = wrapGLuint (1 * 8) + 0)).length = 3 := by
  have h := WireBoxBuilder.add_wireframe id twoBoxBuilder 1 unitBBox red
    (by norm_num [expandedMin, expandedMax, unitBBox])
    (by norm_num [expandedMin, expandedMax, unitBBox])
    (by norm_num [expandedMin, expandedMax, unitBBox])
  obtain ⟨hadd, _, _, _, _, h3, hadj⟩ := h
  obtain ⟨s', hs, _⟩ := hadd (by decide) (by decide) (by decide) (by decide)
  exact ⟨⟨s', hs⟩, by decide, (hadj 0 1 (by decide) (by decide)).2 (Or.inl (by decide)),
    h3 0 (by decide)⟩

/-! ### C17: `containsGrid` and a numeric first word -/

/-- C17: `containsGrid` is decided by the first numeric word it meets: for
every selection list whose first word `lexical_cast<size_t>` converts to `k`
(as it does a word of decimal digits within `size_t`), every grid name and
every grid index, `containsGrid(selectionList, gridName, gridIndex)` returns
`k == gridIndex`, whatever the remaining words are; and for the empty
selection list it returns true for every grid name and index. -/
theorem containsGrid_first_numeric (lexical_cast : String → Option Nat) (word : String)
    (rest : List String) (gridName : String) (gridIndex k : Nat)
    (h : lexical_cast word = some k) :
    containsGrid lexical_cast (word :: rest) gridName gridIndex = (k == gridIndex) ∧
    (∀ name index, containsGrid lexical_cast [] name index = true) := by
  refine ⟨?_, fun _ _ => rfl⟩
  unfold containsGrid containsGridLoop
  rw [h]

/-- C17, witness: the list `["0", "1"]` and the grid index 1: the first word
is the number 0, and the result is false although the second word is the
index asked for. -/
theorem containsGrid_first_numeric_witness :
    decimalCast "0" = some 0 ∧
    containsGrid decimalCast ["0", "1"] "density" 1 = false := by
  have h := (containsGrid_first_numeric decimalCast "0" ["1"] "density" 1 0 (by decide)).1
  exact ⟨by decide, by rw [h]; decide⟩

/-! ### C18: `getSelectedGrids` partitions the grids -/

/-- The loop of the four-argument `getSelectedGrids` in closed form. -/
theorem getSelectedGridsLoop_eq {G : Type} (lexical_cast : String → Option Nat)
    (getName : G → String) (selectionList : List String) (input : List G) :
    ∀ (n : Nat) (grids : List G) (outputVdb : OpenVDBData G),
      getSelectedGridsLoop lexical_cast getName selectionList n input grids outputVdb =
        (grids ++ ((input.enumFrom n).filter
            (fun p => containsGrid lexical_cast selectionList (getName p.2) p.1)).map (·.2),
          ⟨outputVdb.grids ++ ((input.enumFrom n).filter
            (fun p => !containsGrid lexical_cast selectionList (getName p.2) p.1)).map (·.2)⟩) := by
  induction input with
  | nil => intro n grids outputVdb; simp [getSelectedGridsLoop]
  | cons g rest ih =>
    intro n grids outputVdb
    unfold getSelectedGridsLoop
    by_cases h : containsGrid lexical_cast selectionList (getName g) n = true
    · rw [if_pos h, ih]
      simp [List.enumFrom_cons, List.filter_cons, h]
    · rw [if_neg h, ih]
      simp [List.enumFrom_cons, List.filter_cons, h, OpenVDBData.insert]

/-- The loop of the three-argument `getSelectedGrids` in closed form. -/
theorem getSelectedGridsLoop3_eq {G : Type} (lexical_cast : String → Option Nat)
    (getName : G → String) (selectionList : List String) (input : List G) :
    ∀ (n : Nat) (grids : List G),
      getSelectedGridsLoop3 lexical_cast getName selectionList n input grids =
        grids ++ ((input.enumFrom n).filter
          (fun p => containsGrid lexical_cast selectionList (getName p.2) p.1)).map (·.2) := by
  induction input with
  | nil => intro n grids; simp [getSelectedGridsLoop3]
  | cons g rest ih =>
    intro n grids
    unfold getSelectedGridsLoop3
    by_cases h : containsGrid lexical_cast selectionList (getName g) n = true
    · rw [if_pos h, ih]
      simp [List.enumFrom_cons, List.filter_cons, h]
    · rw [if_neg h, ih]
      simp [List.enumFrom_cons, List.filter_cons, h]

/-- A list is as long as its entries that pass a test and those that do
not. -/
theorem length_filter_add_length_filter_not {α : Type} (p : α → Bool) (l : List α) :
    (l.filter p).length + (l.filter (fun a => !p a)).length = l.length := by
  induction l with
  | nil => rfl
  | cons a l ih =>
    by_cases h : p a = true
    · simp [List.filter_cons, h]; omega
    · simp [List.filter_cons, h]; omega

/-- C18: the four-argument `getSelectedGrids` partitions the input grids.
For every selection string, every input with `N` grids and every prior value
of `grids` and `outputVdb`: after the call `grids` holds, in increasing
order of `n`, the grids `n` for which `containsGrid(words of selection, name
of grid n, n)` holds, and `outputVdb` holds its earlier grids followed, in
increasing order of `n`, by the grids for which it does not hold; so
`length(grids)` plus the number of grids inserted into `outputVdb` is `N`;
the result is true iff `grids` is not empty; and the three-argument overload
yields the same `grids` and the same result. -/
theorem getSelectedGrids_partition {G : Type} (lexical_cast : String → Option Nat)
    (getName : G → String) (grids : List G) (selection : String) (inputVdb : OpenVDBData G)
    (outputVdb : OpenVDBData G) :
    (getSelectedGrids lexical_cast getName grids selection inputVdb outputVdb).2.1 =
      (inputVdb.grids.enum.filter
        (fun p => containsGrid lexical_cast (boostSplit selection) (getName p.2) p.1)).map
        (·.2) ∧
    (getSelectedGrids lexical_cast getName grids selection inputVdb outputVdb).2.2.grids =
      outputVdb.grids ++ (inputVdb.grids.enum.filter
        (fun p => !containsGrid lexical_cast (boostSplit selection) (getName p.2) p.1)).map
        (·.2) ∧
    (getSelectedGrids lexical_cast getName grids selection inputVdb outputVdb).2.1.length +
      ((getSelectedGrids lexical_cast getName grids selection inputVdb outputVdb).2.2.grids.length
        - outputVdb.grids.length) = inputVdb.grids.length ∧
    ((getSelectedGrids lexical_cast getName grids selection inputVdb outputVdb).1 = true ↔
      (getSelectedGrids lexical_cast getName grids selection inputVdb outputVdb).2.1 ≠ []) ∧
    (getSelectedGrids3 lexical_cast getName grids selection inputVdb).2 =
      (getSelectedGrids lexical_cast getName grids selection inputVdb outputVdb).2.1 ∧
    (getSelectedGrids3 lexical_cast getName grids selection inputVdb).1 =
      (getSelectedGrids lexical_cast getName grids selection inputVdb outputVdb).1 := by
  have e4 := getSelectedGridsLoop_eq lexical_cast getName (boostSplit selection)
    inputVdb.grids 0 [] outputVdb
  have e3 := getSelectedGridsLoop3_eq lexical_cast getName (boostSplit selection)
    inputVdb.grids 0 []
  have hlen := length_filter_add_length_filter_not
    (fun p : Nat × G => containsGrid lexical_cast (boostSplit selection) (getName p.2) p.1)
    inputVdb.grids.enum
  unfold getSelectedGrids getSelectedGrids3
  dsimp only
  rw [e4, e3]
  simp only [List.nil_append]
  refine ⟨?_, ?_, ?_, ?_, ?_, ?_⟩
  · rfl
  · rfl
  · simp only [List.length_append, List.length_map, Nat.add_sub_cancel_left]
    rw [List.enum_length] at hlen
    exact hlen
  · cases ((inputVdb.grids.enumFrom 0).filter
        (fun p => containsGrid lexical_cast (boostSplit selection) (getName p.2) p.1)).map
        (·.2) <;> simp
  · trivial
  · trivial

end openvdb_maya
